import Mathlib

/-! Haiku port of the HotSpot `os::` layer: a shallow embedding.

Definitions follow `src/hotspot/os/haiku/os_haiku.cpp`.  Kernel services
(`mmap`, `munmap`, `mprotect`, `get_thread_info`, `set_thread_priority`,
`get_system_info`, `dladdr`, `pthread_create`) are an explicit state with the
kernel's free choices passed in as arguments.  Addresses, sizes and times are
natural numbers or integers.  The creation handshake between
`os::create_thread`, `os::pd_start_thread` and `thread_native_entry` is a step
relation over the handle's state and its start lock.
-/

namespace Haiku

/-! ## Definitions -/

/-! ### Machine integers and C strings -/

/-- The C `int` a wider integer value narrows to: its residue mod 2^32 in
`[-2^31, 2^31)`. -/
def narrow_int (x : Int) : Int := (x + 2 ^ 31) % 2 ^ 32 - 2 ^ 31

/-- The two builds of the port (`IA32` and `AMD64`). -/
inductive Build where
  | IA32
  | AMD64
deriving DecidableEq, Repr

/-- The width of `size_t` in bits. -/
def Build.size_bits : Build → Nat
  | Build.IA32 => 32
  | Build.AMD64 => 64

/-- The `size_t` an `int` converts to. -/
def to_size_t (b : Build) (n : Int) : Nat := (n % 2 ^ b.size_bits).toNat

/-- The terminating character of a C string. -/
def NUL : Char := Char.ofNat 0

/-- The characters of a C string given as text: those before the first NUL. -/
def c_str (s : String) : List Char := s.toList.takeWhile (fun c => c != NUL)

/-- The call `strlen(s)` on a C string given as text: the number of bytes of
its UTF-8 encoding before the first NUL. -/
def strlen_bytes (s : String) : Nat := (String.mk (c_str s)).utf8ByteSize

/-! ### Thread priorities (`os_haiku.cpp`, "thread priority support") -/

/-- Index of the lowest Java priority; the table's own comments give the
level of each row (`// 1 MinPriority`). -/
def MinPriority : Nat := 1

/-- Index of the normal Java priority (`// 5 NormPriority`). -/
def NormPriority : Nat := 5

/-- Index of the near-maximum Java priority (`// 9 NearMaxPriority`). -/
def NearMaxPriority : Nat := 9

/-- Index of the maximum Java priority (`// 10 MaxPriority`). -/
def MaxPriority : Nat := 10

/-- Index of the critical priority (`// 11 CriticalPriority`). -/
def CriticalPriority : Nat := 11

/-- The table `os::java_to_os_priority[CriticalPriority + 1]` as statically
initialised. -/
def java_to_os_priority : List Int :=
  [ 1,      -- 0 Entry should never be used
    1,      -- 1 MinPriority
    3,      -- 2
    5,      -- 3
    7,      -- 4
    10,     -- 5 NormPriority
    15,     -- 6
    20,     -- 7
    75,     -- 8
    100,    -- 9 NearMaxPriority
    110,    -- 10 MaxPriority
    120 ]   -- 11 CriticalPriority

/-- The VM flags read by the priority code. -/
structure Flags where
  UseThreadPriorities : Bool
  ThreadPriorityPolicy : Int
  ThreadPriorityPolicy_is_default : Bool
  UseCriticalJavaThreadPriority : Bool

/-- What `prio_init` leaves behind: the table, whether the permission warning
was printed, and the returned int. -/
structure PrioInit where
  table : List Int
  warned : Bool
  ret : Int

/-- The function `prio_init`: warns when policy 1 was asked for explicitly by a
non-root user, then, under `UseCriticalJavaThreadPriority`, overwrites the
`MaxPriority` row with the `CriticalPriority` row.  Returns 0. -/
def prio_init (f : Flags) (euid : Nat) (table : List Int) : PrioInit :=
  let warned :=
    if f.ThreadPriorityPolicy = 1 then
      if euid ≠ 0 then
        if !f.ThreadPriorityPolicy_is_default then true else false
      else false
    else false
  let table1 :=
    if f.UseCriticalJavaThreadPriority then
      table.set MaxPriority (table.getD CriticalPriority 0)
    else table
  { table := table1, warned := warned, ret := 0 }

/-! ### Thread CPU time -/

/-- The fields of the kernel's `thread_info` that the port reads; the times are
`bigtime_t` microseconds. -/
structure thread_info where
  priority : Int
  user_time : Int
  kernel_time : Int

/-- The function `os::Haiku::fast_thread_cpu_time`, with `ti` the record that
`get_thread_info` filled in.  The returned expression is
`(ti.user_time + user_sys_cpu_time ? ti.kernel_time : 0) * 1000`; in C++ `+`
binds tighter than `?:`, so the sum is the condition of the conditional. -/
def fast_thread_cpu_time (ti : thread_info) (user_sys_cpu_time : Bool) : Int :=
  (if ti.user_time + (if user_sys_cpu_time then 1 else 0) ≠ 0
    then ti.kernel_time else 0) * 1000

/-- The function `os::thread_cpu_time(Thread*, bool)`. -/
def thread_cpu_time (ti : thread_info) (user_sys_cpu_time : Bool) : Int :=
  fast_thread_cpu_time ti user_sys_cpu_time

/-! ### Virtual memory: the kernel -/

/-- Protection bit `PROT_NONE` of `<sys/mman.h>`. -/
def PROT_NONE : Nat := 0

/-- Protection bit `PROT_READ` of `<sys/mman.h>`. -/
def PROT_READ : Nat := 1

/-- Protection bit `PROT_WRITE` of `<sys/mman.h>`. -/
def PROT_WRITE : Nat := 2

/-- Protection bit `PROT_EXEC` of `<sys/mman.h>`. -/
def PROT_EXEC : Nat := 4

/-- Mapping flag `MAP_PRIVATE` of `<sys/mman.h>`. -/
def MAP_PRIVATE : Nat := 2

/-- Mapping flag `MAP_FIXED` of `<sys/mman.h>`. -/
def MAP_FIXED : Nat := 4

/-- Mapping flag `MAP_ANONYMOUS` of `<sys/mman.h>`. -/
def MAP_ANONYMOUS : Nat := 8

/-- Mapping flag `MAP_NORESERVE` of `<sys/mman.h>`. -/
def MAP_NORESERVE : Nat := 16

/-- One mapped page: its protection bits and its bytes. -/
structure Page where
  prot : Nat
  data : List Nat
deriving DecidableEq

/-- A call handed to the kernel, with its arguments in the order of the C
prototype. -/
inductive Syscall where
  | mmap (addr len prot flags : Nat) (fd : Int) (off : Nat)
  | munmap (addr len : Nat)
  | mprotect (addr len prot : Nat)
deriving DecidableEq

/-- The kernel's answer to a mapping request: refuse it (`MAP_FAILED`), or
place it; for a mapping without `MAP_FIXED` the kernel chooses the address. -/
inductive Placement where
  | refuse
  | place (a : Nat)
deriving DecidableEq

/-- The address space as the port sees it: the page size (`os::vm_page_size()`),
the state of every page by page number (`none` is unmapped), and the calls
issued so far, oldest first. -/
structure Kernel where
  page_size : Nat
  mem : Nat → Option Page
  calls : List Syscall

/-- Number of whole pages needed for `len` bytes. -/
def page_count (P len : Nat) : Nat := (len + (P - 1)) / P

/-- Page `p` belongs to the pages the kernel touches for a request at the
page-aligned address `addr` of `len` bytes. -/
def covers (P addr len p : Nat) : Prop :=
  addr / P ≤ p ∧ p < addr / P + page_count P len

instance (P addr len p : Nat) : Decidable (covers P addr len p) := by
  unfold covers; infer_instance

/-- A fresh anonymous page: zero-filled, with the requested protection. -/
def zero_page (P prot : Nat) : Page := { prot := prot, data := List.replicate P 0 }

/-- The page table after the kernel has applied `f` to every page of the
request at `addr` of `len` bytes, leaving all other pages alone. -/
def remap (P : Nat) (mem : Nat → Option Page) (addr len : Nat)
    (f : Option Page → Option Page) : Nat → Option Page :=
  fun p => if covers P addr len p then f (mem p) else mem p

/-- Every page of the request is currently unmapped. -/
def Kernel.all_free (k : Kernel) (addr len : Nat) : Bool :=
  (List.range (page_count k.page_size len)).all
    fun i => (k.mem (addr / k.page_size + i)).isNone

/-- Every page of the request is currently mapped. -/
def Kernel.all_mapped (k : Kernel) (addr len : Nat) : Bool :=
  (List.range (page_count k.page_size len)).all
    fun i => (k.mem (addr / k.page_size + i)).isSome

/-- The kernel's `mmap` for private anonymous memory.  Returns `none` for
`MAP_FAILED`.  A zero length fails.  With `MAP_FIXED` the address must be
page-aligned and the pages of the range are replaced by fresh ones.  Without
it the kernel's own choice is used, which is never address 0, is page-aligned
and replaces no existing mapping. -/
def sys_mmap (k : Kernel) (addr len prot flags : Nat) (fd : Int) (off : Nat)
    (ans : Placement) : Option Nat × Kernel :=
  let k1 : Kernel := { k with calls := k.calls ++ [Syscall.mmap addr len prot flags fd off] }
  if len = 0 then (none, k1)
  else if flags &&& MAP_FIXED ≠ 0 then
    match ans with
    | Placement.refuse => (none, k1)
    | Placement.place _ =>
      if addr % k.page_size ≠ 0 then (none, k1)
      else (some addr, { k1 with
        mem := remap k.page_size k.mem addr len fun _ => some (zero_page k.page_size prot) })
  else
    match ans with
    | Placement.refuse => (none, k1)
    | Placement.place a =>
      if a = 0 ∨ a % k.page_size ≠ 0 ∨ k.all_free a len = false then (none, k1)
      else (some a, { k1 with
        mem := remap k.page_size k.mem a len fun _ => some (zero_page k.page_size prot) })

/-- The kernel's `munmap`: 0 and the pages of the range unmapped, or -1 for an
unaligned address or a zero length. -/
def sys_munmap (k : Kernel) (addr len : Nat) : Int × Kernel :=
  let k1 : Kernel := { k with calls := k.calls ++ [Syscall.munmap addr len] }
  if addr % k.page_size ≠ 0 ∨ len = 0 then (-1, k1)
  else (0, { k1 with mem := remap k.page_size k.mem addr len fun _ => none })

/-- The kernel's `mprotect`: 0 and the protection of every page of the range
set, leaving the bytes alone; -1 and no change when the kernel refuses, the
address is unaligned or a page of the range is unmapped. -/
def sys_mprotect (k : Kernel) (addr len prot : Nat) (refuse : Bool) : Int × Kernel :=
  let k1 : Kernel := { k with calls := k.calls ++ [Syscall.mprotect addr len prot] }
  if refuse = true ∨ addr % k.page_size ≠ 0 ∨ k.all_mapped addr len = false then (-1, k1)
  else (0, { k1 with
    mem := remap k.page_size k.mem addr len fun o => o.map fun pg => { pg with prot := prot } })

/-- Reading the byte at address `x`: `none` is a fault (page unmapped or
without read permission). -/
def read_byte (k : Kernel) (x : Nat) : Option Nat :=
  match k.mem (x / k.page_size) with
  | none => none
  | some pg => if pg.prot &&& PROT_READ ≠ 0 then pg.data.get? (x % k.page_size) else none

/-! ### Virtual memory: the port (`os_haiku.cpp`, "Virtual Memory") -/

/-- Modelled from the spec: `align_down` of HotSpot's `utilities/align.hpp`
(not under `src/`) rounds down to the enclosing boundary of a power-of-two
alignment, by clearing the bits below the alignment. -/
def align_down (x alignment : Nat) : Nat := x - (x &&& (alignment - 1))

/-- Modelled from the spec: `align_up` of HotSpot's `utilities/align.hpp` (not
under `src/`) rounds up to a whole number of alignment units: `align_down` of
the argument plus the alignment mask. -/
def align_up (x alignment : Nat) : Nat := align_down (x + (alignment - 1)) alignment

/-- Modelled from the spec: `pointer_delta` of HotSpot's
`utilities/globalDefinitions.hpp` (not under `src/`), the distance between two
addresses in units of `element_size`. -/
def pointer_delta (left right element_size : Nat) : Nat := (left - right) / element_size

/-- The function `anon_mmap`: a hinted mapping without `MAP_FIXED`, `PROT_NONE`;
returns NULL (0) where `mmap` returns `MAP_FAILED`. -/
def anon_mmap (k : Kernel) (requested_addr bytes : Nat) (_exec : Bool)
    (ans : Placement) : Nat × Kernel :=
  let flags := MAP_PRIVATE ||| MAP_NORESERVE ||| MAP_ANONYMOUS
  let r := sys_mmap k requested_addr bytes PROT_NONE flags (-1) 0 ans
  (match r.1 with
   | none => 0
   | some addr => addr, r.2)

/-- The function `anon_munmap`: `::munmap(addr, size) == 0`. -/
def anon_munmap (k : Kernel) (addr size : Nat) : Bool × Kernel :=
  let r := sys_munmap k addr size
  (decide (r.1 = 0), r.2)

/-- The range `(bottom, size)` that `haiku_mprotect` computes for the kernel
(the `assert(addr == bottom)` is compiled out of product builds). The sum
`pointer_delta(addr, bottom, 1) + size` and the sum inside `align_up`
(`align_down(size + (alignment - 1), alignment)`) are `size_t` values: each
wraps at `2 ^ size_bits`. -/
def haiku_mprotect_range (b : Build) (page_size addr size : Nat) : Nat × Nat :=
  let bottom := align_down addr page_size
  let sum := (pointer_delta addr bottom 1 + size) % 2 ^ b.size_bits
  let size1 := align_down ((sum + (page_size - 1)) % 2 ^ b.size_bits) page_size
  (bottom, size1)

/-- The function `haiku_mprotect`. -/
def haiku_mprotect (b : Build) (k : Kernel) (addr size prot : Nat) (refuse : Bool) :
    Bool × Kernel :=
  let bottom := (haiku_mprotect_range b k.page_size addr size).1
  let size1 := (haiku_mprotect_range b k.page_size addr size).2
  let r := sys_mprotect k bottom size1 prot refuse
  (decide (r.1 = 0), r.2)

/-- The function `os::pd_commit_memory(char*, size_t, bool)`. -/
def pd_commit_memory (k : Kernel) (addr size : Nat) (exec : Bool)
    (ans : Placement) : Bool × Kernel :=
  let prot := if exec then PROT_READ ||| PROT_WRITE ||| PROT_EXEC else PROT_READ ||| PROT_WRITE
  let res := sys_mmap k addr size prot (MAP_PRIVATE ||| MAP_FIXED ||| MAP_ANONYMOUS) (-1) 0 ans
  (decide (res.1 ≠ none), res.2)

/-- The overload `os::pd_commit_memory(char*, size_t, size_t alignment_hint, bool)`. -/
def pd_commit_memory_hint (k : Kernel) (addr size _alignment_hint : Nat) (exec : Bool)
    (ans : Placement) : Bool × Kernel :=
  pd_commit_memory k addr size exec ans

/-- The function `os::pd_uncommit_memory`. -/
def pd_uncommit_memory (k : Kernel) (addr size : Nat) (_exec : Bool)
    (ans : Placement) : Bool × Kernel :=
  let res := sys_mmap k addr size PROT_NONE (MAP_PRIVATE ||| MAP_FIXED ||| MAP_ANONYMOUS) (-1) 0 ans
  (decide (res.1 ≠ none), res.2)

/-- The function `os::pd_reserve_memory`. -/
def pd_reserve_memory (k : Kernel) (bytes : Nat) (exec : Bool) (ans : Placement) :
    Nat × Kernel :=
  anon_mmap k 0 bytes exec ans

/-- The function `os::pd_release_memory`. -/
def pd_release_memory (k : Kernel) (addr size : Nat) : Bool × Kernel :=
  anon_munmap k addr size

/-- The enum `os::ProtType`. -/
inductive ProtType where
  | MEM_PROT_NONE
  | MEM_PROT_READ
  | MEM_PROT_RW
  | MEM_PROT_RWX
deriving DecidableEq

/-- The `switch` of `os::protect_memory`: the kernel protection of each mode. -/
def prot_bits : ProtType → Nat
  | ProtType.MEM_PROT_NONE => PROT_NONE
  | ProtType.MEM_PROT_READ => PROT_READ
  | ProtType.MEM_PROT_RW => PROT_READ ||| PROT_WRITE
  | ProtType.MEM_PROT_RWX => PROT_READ ||| PROT_WRITE ||| PROT_EXEC

/-- The function `os::protect_memory`; `is_committed` is unused. -/
def protect_memory (b : Build) (k : Kernel) (addr bytes : Nat) (prot : ProtType)
    (_is_committed : Bool) (refuse : Bool) : Bool × Kernel :=
  let p := prot_bits prot
  haiku_mprotect b k addr bytes p refuse

/-- The function `os::pd_attempt_reserve_memory_at` (its assert that `bytes` is
a multiple of the page size is compiled out of product builds). -/
def pd_attempt_reserve_memory_at (k : Kernel) (requested_addr bytes : Nat) (exec : Bool)
    (ans : Placement) : Nat × Kernel :=
  let r := anon_mmap k requested_addr bytes exec ans
  let addr := r.1
  if addr = requested_addr then (requested_addr, r.2)
  else if addr ≠ 0 then
    -- mmap() is successful but it fails to reserve at the requested address
    (0, (anon_munmap r.2 addr bytes).2)
  else (0, r.2)

/-- The mode whose kernel protection is `p`, when there is one: the reading
back of a page's effective protection. -/
def effective_mode (p : Nat) : Option ProtType :=
  if p = PROT_NONE then some ProtType.MEM_PROT_NONE
  else if p = PROT_READ then some ProtType.MEM_PROT_READ
  else if p = (PROT_READ ||| PROT_WRITE) then some ProtType.MEM_PROT_RW
  else if p = (PROT_READ ||| PROT_WRITE ||| PROT_EXEC) then some ProtType.MEM_PROT_RWX
  else none

/-- An address space with 4096-byte pages and nothing mapped. -/
def empty_kernel : Kernel := { page_size := 4096, mem := fun _ => none, calls := [] }

/-- An address space with 4096-byte pages in which three pages at address 8192
have been committed read-write. -/
def committed_kernel : Kernel :=
  (pd_commit_memory empty_kernel 8192 12288 false (Placement.place 8192)).2

/-- An address space with 4096-byte pages in which three pages at address 8192
have been reserved. -/
def reserved_kernel : Kernel :=
  (pd_reserve_memory empty_kernel 12288 false (Placement.place 8192)).2

/-! ### Thread creation (`os_haiku.cpp`, "create new thread") -/

/-- Modelled from the spec: the lifecycle states of an OS-thread handle
(`ThreadState` of HotSpot's `runtime/osThread.hpp`, not under `src/`):
`ALLOCATED → INITIALIZED → RUNNABLE → ZOMBIE`. -/
inductive ThreadState where
  | ALLOCATED
  | INITIALIZED
  | RUNNABLE
  | ZOMBIE
deriving DecidableEq

/-- The fields of an `OSThread` that the port writes. -/
structure OSThread where
  thread_type : Nat
  state : ThreadState
  pthread_id : Nat
  thread_id : Nat
deriving DecidableEq

/-- A call the creating thread makes on the pthread library or on the handle's
`startThread_lock`. -/
inductive Event where
  | pthread_create (stack_size : Nat) (detached : Bool) (ret : Int)
  | lock
  | wait
  | unlock
deriving DecidableEq

/-- The creating thread's view of the VM: the `_osthread` field of the `Thread`
object (`none` is NULL), the live `OSThread` objects by address, and the calls
made so far, oldest first. -/
structure VM where
  osthread : Option Nat
  heap : List (Nat × OSThread)
  events : List Event

/-- An address no live `OSThread` has: where `new OSThread()` puts the object. -/
def VM.fresh (vm : VM) : Nat := (vm.heap.map Prod.fst).foldr max 0 + 1

/-- A write to the fields of the `OSThread` at address `p`. -/
def VM.store (vm : VM) (p : Nat) (f : OSThread → OSThread) : VM :=
  { vm with heap := vm.heap.map fun qo => if qo.1 = p then (qo.1, f qo.2) else qo }

/-- The statement `delete osthread` for the object at address `p`. -/
def VM.delete (vm : VM) (p : Nat) : VM :=
  { vm with heap := vm.heap.filter fun qo => decide (qo.1 ≠ p) }

/-- What the surroundings of one `os::create_thread` call decide: whether
`new OSThread()` returns an object, the stack size chosen by
`os::Posix::get_initial_stack_size`, the result and thread id of
`pthread_create`, and the state the new thread has left in the handle at each
successive test of the creator's wait loop. -/
structure CreateEnv where
  alloc_ok : Bool
  get_initial_stack_size : Nat → Nat → Nat
  ret : Int
  tid : Nat
  child : List ThreadState

/-- The loop `while ((state = osthread->get_state()) == ALLOCATED) wait()` of
`os::create_thread`; `none` when the creator is still waiting after the last
listed test. -/
def wait_while_allocated (vm : VM) (p : Nat) : List ThreadState → Option (ThreadState × VM)
  | [] => none
  | s :: rest =>
    let vm1 := vm.store p fun o => { o with state := s }
    if s = ThreadState.ALLOCATED then
      wait_while_allocated { vm1 with events := vm1.events ++ [Event.wait] } p rest
    else some (s, vm1)

/-- The function `os::create_thread` (its asserts are compiled out of product
builds; the first one, `thread->osthread() == NULL`, is the caller's duty). -/
def create_thread (vm : VM) (thr_type req_stack_size : Nat) (env : CreateEnv) :
    Option (Bool × VM) :=
  -- Allocate the OSThread object
  if env.alloc_ok = false then some (false, vm)
  else
    let p := vm.fresh
    let osthread : OSThread :=
      { thread_type := thr_type, state := ThreadState.ALLOCATED, pthread_id := 0, thread_id := 0 }
    let vm1 : VM := { vm with heap := vm.heap ++ [(p, osthread)], osthread := some p }
    let stack_size := env.get_initial_stack_size thr_type req_stack_size
    let vm2 : VM := { vm1 with events := vm1.events ++ [Event.pthread_create stack_size true env.ret] }
    if env.ret ≠ 0 then
      -- Need to clean up stuff we've allocated so far
      some (false, VM.delete { vm2 with osthread := none } p)
    else
      let vm3 := vm2.store p fun o => { o with pthread_id := env.tid }
      -- Wait until child thread is either initialized or aborted
      match wait_while_allocated { vm3 with events := vm3.events ++ [Event.lock] } p env.child with
      | none => none
      | some (state, vm5) =>
        let vm6 : VM := { vm5 with events := vm5.events ++ [Event.unlock] }
        -- Aborted due to thread limit being reached
        if state = ThreadState.ZOMBIE then
          some (false, VM.delete { vm6 with osthread := none } p)
        else
          -- The thread is returned suspended (in state INITIALIZED)
          some (true, vm6)

/-- A VM with no thread handle yet. -/
def empty_vm : VM := { osthread := none, heap := [], events := [] }

/-- Surroundings in which `pthread_create` fails with `EAGAIN` (11). -/
def env_pthread_fails : CreateEnv :=
  { alloc_ok := true, get_initial_stack_size := fun _ req => max req 65536,
    ret := 11, tid := 0, child := [] }

/-! ### Attaching an existing thread (`os_haiku.cpp`, "attach existing thread") -/

/-- What the surroundings of one `os::create_attached_thread` call decide:
whether `new OSThread()` returns an object, the kernel thread id of the caller
(`find_thread(NULL)`) and its pthread id (`pthread_self()`). -/
structure AttachEnv where
  alloc_ok : Bool
  find_thread : Nat
  pthread_self : Nat

/-- The function `os::create_attached_thread` (the debug-only
`verify_not_published` is compiled out of product builds; the FPU set-up and
the signal mask kept by `PosixSignals::hotspot_sigmask` are not part of the
handle fields followed here). -/
def create_attached_thread (vm : VM) (env : AttachEnv) : Bool × VM :=
  -- Allocate the OSThread object
  if env.alloc_ok = false then (false, vm)
  else
    let p := vm.fresh
    let osthread : OSThread :=
      { thread_type := 0, state := ThreadState.ALLOCATED, pthread_id := 0, thread_id := 0 }
    let vm1 : VM := { vm with heap := vm.heap ++ [(p, osthread)] }
    -- Store pthread info into the OSThread
    let vm2 := vm1.store p fun o => { o with thread_id := env.find_thread }
    let vm3 := vm2.store p fun o => { o with pthread_id := env.pthread_self }
    -- Initial thread state is RUNNABLE
    let vm4 := vm3.store p fun o => { o with state := ThreadState.RUNNABLE }
    (true, { vm4 with osthread := some p })

/-- The function `os::create_main_thread` (its assert that the caller is the
main thread is compiled out of product builds). -/
def create_main_thread (vm : VM) (env : AttachEnv) : Bool × VM :=
  create_attached_thread vm env

/-- Surroundings of an attach by kernel thread 77, pthread 5. -/
def env_attach : AttachEnv := { alloc_ok := true, find_thread := 77, pthread_self := 5 }

/-! ### Native priorities (`os::set_native_priority`, `os::get_native_priority`) -/

/-- The two values of `OSReturn` the priority code returns. -/
inductive OSReturn where
  | OS_OK
  | OS_ERR
deriving DecidableEq

/-- The kernel status `B_OK`. -/
def B_OK : Int := 0

/-- The kernel status `B_NOT_ALLOWED` (`B_GENERAL_ERROR_BASE + 15`, with
`B_GENERAL_ERROR_BASE = INT_MIN`). -/
def B_NOT_ALLOWED : Int := -2147483648 + 15

/-- A call of the priority code on the kernel. -/
inductive KernelCall where
  | set_thread_priority (thread : Nat) (priority : Int)
  | get_thread_info (thread : Nat)
deriving DecidableEq

/-- The kernel's scheduler as the priority code sees it: the priority of each
kernel thread and the calls received so far, oldest first. -/
structure Scheduler where
  priority : Nat → Int
  calls : List KernelCall

/-- The kernel's answer to `set_thread_priority`: it refuses with a status and
changes nothing, or it applies the change and returns a value. -/
inductive PriorityAnswer where
  | refused (status : Int)
  | applied (ret : Int)
deriving DecidableEq

/-- The kernel's `set_thread_priority`. -/
def sys_set_thread_priority (k : Scheduler) (thread : Nat) (priority : Int)
    (ans : PriorityAnswer) : Int × Scheduler :=
  let k1 : Scheduler := { k with calls := k.calls ++ [KernelCall.set_thread_priority thread priority] }
  match ans with
  | PriorityAnswer.refused status => (status, k1)
  | PriorityAnswer.applied ret =>
    (ret, { k1 with priority := fun t => if t = thread then priority else k.priority t })

/-- The kernel's `get_thread_info`: a status, and the record it fills in when it
knows the thread (`info` is `none` when it does not). -/
def sys_get_thread_info (k : Scheduler) (thread : Nat) (info : Option thread_info) :
    Int × Option thread_info × Scheduler :=
  let k1 : Scheduler := { k with calls := k.calls ++ [KernelCall.get_thread_info thread] }
  match info with
  | none => (-1, none, k1)
  | some ti => (B_OK, some { ti with priority := k.priority thread }, k1)

/-- The function `os::set_native_priority`, for the thread whose handle holds
kernel thread id `thread_id`. -/
def set_native_priority (f : Flags) (k : Scheduler) (thread_id : Nat) (newpri : Int)
    (ans : PriorityAnswer) : OSReturn × Scheduler :=
  if !f.UseThreadPriorities || f.ThreadPriorityPolicy = 0 then (OSReturn.OS_OK, k)
  else
    let r := sys_set_thread_priority k thread_id newpri ans
    (if r.1 = B_OK then OSReturn.OS_OK else OSReturn.OS_ERR, r.2)

/-- The function `os::get_native_priority`; the middle component is the value
stored through `priority_ptr` (`none` when nothing is stored). `table` is the
current `java_to_os_priority`. -/
def get_native_priority (f : Flags) (table : List Int) (k : Scheduler) (thread_id : Nat)
    (info : Option thread_info) : OSReturn × Option Int × Scheduler :=
  if !f.UseThreadPriorities || f.ThreadPriorityPolicy = 0 then
    (OSReturn.OS_OK, some (table.getD NormPriority 0), k)
  else
    let r := sys_get_thread_info k thread_id info
    match r.2.1 with
    | some ti => if r.1 = B_OK then (OSReturn.OS_OK, some ti.priority, r.2.2)
                 else (OSReturn.OS_ERR, none, r.2.2)
    | none => (OSReturn.OS_ERR, none, r.2.2)

/-- A scheduler in which every thread has priority 10 and no call was made. -/
def idle_scheduler : Scheduler := { priority := fun _ => 10, calls := [] }

/-! ### Memory totals (`os::physical_memory`, `os::available_memory`) -/

/-- The fields of the kernel's `system_info` that the port reads. -/
structure system_info where
  cpu_count : Nat
  max_pages : Nat
  used_pages : Nat

/-- The host as the memory queries see it: what `get_system_info` reports at
this moment, the page size, and the port's statics `_physical_memory`
(initially 0) and processor count. -/
structure Host where
  si : system_info
  page_size : Nat
  _physical_memory : Nat
  processor_count : Nat

/-- The function `os::Haiku::initialize_system_info`; `julong` arithmetic is
modulo 2^64. -/
def initialize_system_info (h : Host) : Host :=
  let si := h.si
  { h with processor_count := si.cpu_count,
           _physical_memory := (si.max_pages % 2 ^ 64) * (h.page_size % 2 ^ 64) % 2 ^ 64 }

/-- The function `os::physical_memory` (through `os::Haiku::physical_memory`). -/
def physical_memory (h : Host) : Nat := h._physical_memory

/-- The function `os::available_memory` (through `os::Haiku::available_memory`);
the unsigned subtraction and the `julong` product are modulo 2^64. -/
def available_memory (h : Host) : Nat :=
  let si := h.si
  ((si.max_pages + 2 ^ 64 - si.used_pages % 2 ^ 64) % 2 ^ 64) * (h.page_size % 2 ^ 64) % 2 ^ 64

/-- A host reporting 1000 pages of 4096 bytes, 400 of them used, before
`os::init`. -/
def host_at_boot : Host :=
  { si := { cpu_count := 4, max_pages := 1000, used_pages := 400 },
    page_size := 4096, _physical_memory := 0, processor_count := 0 }

/-! ### Symbol lookup (`os::dll_address_to_function_name`) -/

/-- The two threads of the handshake. -/
inductive Party where
  | creator
  | child
deriving DecidableEq

/-- Where the creating thread stands in `os::create_thread` and, once that has
returned true, in `os::start_thread` / `os::pd_start_thread`. -/
inductive CreatorPc where
  | create        -- at `pthread_create`
  | enter         -- at `MutexLocker ml(sync_with_child, ...)`
  | test          -- holds the lock, at `(state = osthread->get_state()) == ALLOCATED`
  | at_wait       -- holds the lock, at `sync_with_child->wait_without_safepoint_check()`
  | waiting       -- inside the wait: lock given up, not woken
  | woken         -- inside the wait: woken, taking the lock back
  | leave         -- past the loop, at the end of the locked block
  | check         -- at `if (state == ZOMBIE)`
  | returned (b : Bool)  -- `os::create_thread` has returned `b`
  | start_enter   -- in `os::pd_start_thread`, at `MutexLocker ml(sync_with_child, ...)`
  | start_notify  -- holds the lock, at `sync_with_child->notify()`
  | start_leave   -- at the end of `os::pd_start_thread`
  | started       -- `os::pd_start_thread` has returned
deriving DecidableEq

/-- Where the new thread stands in `thread_native_entry`. -/
inductive ChildPc where
  | absent        -- no kernel thread
  | enter         -- from the start of the function to `MutexLocker ml(sync, ...)`
  | set_state     -- holds the lock, at `osthread->set_state(INITIALIZED)`
  | notify        -- at `sync->notify_all()`
  | test          -- at `while (osthread->get_state() == INITIALIZED)`
  | at_wait       -- at `sync->wait_without_safepoint_check()`
  | waiting       -- inside the wait: lock given up, not woken
  | woken         -- inside the wait: woken, taking the lock back
  | leave         -- past the loop, at the end of the locked block
  | call_run      -- at `thread->call_run()`
  | running       -- inside `call_run`
deriving DecidableEq

/-- What one step does. -/
inductive Op where
  | pthread_create (ok : Bool)
  | lock
  | unlock
  | get_state (v : ThreadState)
  | set_state (v : ThreadState)
  | wait
  | retake
  | notify
  | notify_all
  | wakeup
  | ret (b : Bool)
  | call_run
deriving DecidableEq

/-- The shared state of the handshake: what `pthread_create` will answer,
whether the runtime's thread limit has been reached (a condition no code under
`src/` reads), the handle's state, the holder of `startThread_lock`, the two
program points and the creator's local variable `state`. -/
structure Handshake where
  pthread_create_ok : Bool
  thread_limit_reached : Bool
  state : ThreadState
  owner : Option Party
  creator : CreatorPc
  local_state : Option ThreadState
  child : ChildPc
deriving DecidableEq

/-- The handle just before `pthread_create`: allocated, in state ALLOCATED. -/
def handshake_init (ok limit : Bool) : Handshake :=
  { pthread_create_ok := ok, thread_limit_reached := limit, state := ThreadState.ALLOCATED,
    owner := none, creator := CreatorPc.create, local_state := none, child := ChildPc.absent }

/-- Modelled from the spec: `os::start_thread` of the shared runtime (not under
`src/`), "transitions INITIALIZED → RUNNABLE": it sets the handle's state to
RUNNABLE and then calls `os::pd_start_thread`. -/
def start_thread_set_state (s : Handshake) : Handshake :=
  { s with state := ThreadState.RUNNABLE, creator := CreatorPc.start_enter }

/-- The next step of the creating thread, if it can move. -/
def creator_step (s : Handshake) : Option (Op × Handshake) :=
  match s.creator with
  | CreatorPc.create =>
    if s.pthread_create_ok then
      some (Op.pthread_create true, { s with creator := CreatorPc.enter, child := ChildPc.enter })
    else
      -- Need to clean up stuff we've allocated so far
      some (Op.pthread_create false, { s with creator := CreatorPc.returned false })
  | CreatorPc.enter =>
    if s.owner = none then
      some (Op.lock, { s with owner := some Party.creator, creator := CreatorPc.test })
    else none
  | CreatorPc.test =>
    some (Op.get_state s.state,
      { s with local_state := some s.state,
               creator := if s.state = ThreadState.ALLOCATED then CreatorPc.at_wait
                          else CreatorPc.leave })
  | CreatorPc.at_wait => some (Op.wait, { s with owner := none, creator := CreatorPc.waiting })
  | CreatorPc.waiting => none
  | CreatorPc.woken =>
    if s.owner = none then
      some (Op.retake, { s with owner := some Party.creator, creator := CreatorPc.test })
    else none
  | CreatorPc.leave => some (Op.unlock, { s with owner := none, creator := CreatorPc.check })
  | CreatorPc.check =>
    -- Aborted due to thread limit being reached
    if s.local_state = some ThreadState.ZOMBIE then
      some (Op.ret false, { s with creator := CreatorPc.returned false })
    else some (Op.ret true, { s with creator := CreatorPc.returned true })
  | CreatorPc.returned true => some (Op.set_state ThreadState.RUNNABLE, start_thread_set_state s)
  | CreatorPc.returned false => none
  | CreatorPc.start_enter =>
    if s.owner = none then
      some (Op.lock, { s with owner := some Party.creator, creator := CreatorPc.start_notify })
    else none
  | CreatorPc.start_notify =>
    some (Op.notify,
      { s with creator := CreatorPc.start_leave,
               child := if s.child = ChildPc.waiting then ChildPc.woken else s.child })
  | CreatorPc.start_leave => some (Op.unlock, { s with owner := none, creator := CreatorPc.started })
  | CreatorPc.started => none

/-- The next step of the new thread, if it can move. -/
def child_step (s : Handshake) : Option (Op × Handshake) :=
  match s.child with
  | ChildPc.absent => none
  | ChildPc.enter =>
    if s.owner = none then
      some (Op.lock, { s with owner := some Party.child, child := ChildPc.set_state })
    else none
  | ChildPc.set_state =>
    -- notify parent thread
    some (Op.set_state ThreadState.INITIALIZED,
      { s with state := ThreadState.INITIALIZED, child := ChildPc.notify })
  | ChildPc.notify =>
    some (Op.notify_all,
      { s with child := ChildPc.test,
               creator := if s.creator = CreatorPc.waiting then CreatorPc.woken else s.creator })
  | ChildPc.test =>
    -- wait until os::start_thread()
    some (Op.get_state s.state,
      { s with child := if s.state = ThreadState.INITIALIZED then ChildPc.at_wait
                        else ChildPc.leave })
  | ChildPc.at_wait => some (Op.wait, { s with owner := none, child := ChildPc.waiting })
  | ChildPc.waiting => none
  | ChildPc.woken =>
    if s.owner = none then
      some (Op.retake, { s with owner := some Party.child, child := ChildPc.test })
    else none
  | ChildPc.leave => some (Op.unlock, { s with owner := none, child := ChildPc.call_run })
  | ChildPc.call_run => some (Op.call_run, { s with child := ChildPc.running })
  | ChildPc.running => none

/-- The next step of one of the two threads. -/
def party_step (p : Party) (s : Handshake) : Option (Op × Handshake) :=
  match p with
  | Party.creator => creator_step s
  | Party.child => child_step s

/-- A wait that returns without a notification. -/
def spurious_steps (s : Handshake) : List (Party × Op × Handshake) :=
  (if s.creator = CreatorPc.waiting then
    [(Party.creator, Op.wakeup, { s with creator := CreatorPc.woken })] else []) ++
  (if s.child = ChildPc.waiting then
    [(Party.child, Op.wakeup, { s with child := ChildPc.woken })] else [])

/-- All steps possible in a state, each with the thread that takes it and what
it does; `spurious` says whether waits may return without a notification. -/
def steps (spurious : Bool) (s : Handshake) : List (Party × Op × Handshake) :=
  ((creator_step s).map fun r => (Party.creator, r.1, r.2)).toList ++
  ((child_step s).map fun r => (Party.child, r.1, r.2)).toList ++
  (if spurious then spurious_steps s else [])

/-- One step of the handshake. -/
def Step (spurious : Bool) (s t : Handshake) : Prop :=
  ∃ p op, (p, op, t) ∈ steps spurious s

/-- The state `t` is reached from `s` in exactly `n` steps. -/
def StepsN (spurious : Bool) : Nat → Handshake → Handshake → Prop
  | 0, s, t => s = t
  | n + 1, s, t => ∃ u, StepsN spurious n s u ∧ Step spurious u t

/-- The states of the handshake that some interleaving reaches. -/
def Reach (spurious ok limit : Bool) (s : Handshake) : Prop :=
  ∃ n, StepsN spurious n (handshake_init ok limit) s

/-- The interleaving given by a schedule: each listed thread takes its next
step, or is passed over when it cannot move. -/
def run : List Party → Handshake → Handshake
  | [], s => s
  | p :: ps, s =>
    match party_step p s with
    | some r => run ps r.2
    | none => run ps s

/-- One round of a breadth-first search: the successors of the frontier that
have not been seen. -/
def explore_next (spurious : Bool) (visited frontier : List Handshake) : List Handshake :=
  frontier.foldl
    (fun acc s => (steps spurious s).foldl
      (fun acc2 r => if r.2.2 ∈ visited ∨ r.2.2 ∈ acc2 then acc2 else acc2 ++ [r.2.2]) acc) []

/-- Breadth-first search for `n` rounds. -/
def explore (spurious : Bool) : Nat → List Handshake → List Handshake → List Handshake
  | 0, _, visited => visited
  | n + 1, frontier, visited =>
    explore spurious n (explore_next spurious visited frontier)
      (visited ++ explore_next spurious visited frontier)

/-- The states found by the search from the initial state. -/
def reachable (spurious ok limit : Bool) : List Handshake :=
  explore spurious 32 [handshake_init ok limit] [handshake_init ok limit]

/-- The list holds the successors of each of its states. -/
def closed (spurious : Bool) (l : List Handshake) : Bool :=
  l.all fun s => (steps spurious s).all fun r => decide (r.2.2 ∈ l)

/-- The creating thread is in its locked block, at or inside the wait loop. -/
def creator_in_loop (pc : CreatorPc) : Bool :=
  decide (pc = CreatorPc.enter ∨ pc = CreatorPc.test ∨ pc = CreatorPc.at_wait ∨
    pc = CreatorPc.waiting ∨ pc = CreatorPc.woken)

/-- The new thread is in its wait loop. -/
def child_in_loop (pc : ChildPc) : Bool :=
  decide (pc = ChildPc.test ∨ pc = ChildPc.at_wait ∨ pc = ChildPc.waiting ∨ pc = ChildPc.woken)

/-- Progress left to the creating thread. -/
def creator_rank (pc : CreatorPc) (state : ThreadState) : Nat :=
  match pc with
  | CreatorPc.create => 100
  | CreatorPc.enter => if state = ThreadState.ALLOCATED then 36 else 26
  | CreatorPc.test => if state = ThreadState.ALLOCATED then 35 else 25
  | CreatorPc.at_wait => if state = ThreadState.ALLOCATED then 34 else 29
  | CreatorPc.waiting => if state = ThreadState.ALLOCATED then 33 else 28
  | CreatorPc.woken => 27
  | CreatorPc.leave => 24
  | CreatorPc.check => 23
  | CreatorPc.returned true => 22
  | CreatorPc.returned false => 0
  | CreatorPc.start_enter => 21
  | CreatorPc.start_notify => 20
  | CreatorPc.start_leave => 19
  | CreatorPc.started => 18

/-- Progress left to the new thread. -/
def child_rank (pc : ChildPc) (state : ThreadState) : Nat :=
  match pc with
  | ChildPc.absent => 0
  | ChildPc.enter => 20
  | ChildPc.set_state => 19
  | ChildPc.notify => 18
  | ChildPc.test => if state = ThreadState.RUNNABLE then 8 else 17
  | ChildPc.at_wait => if state = ThreadState.RUNNABLE then 12 else 16
  | ChildPc.waiting => if state = ThreadState.RUNNABLE then 11 else 15
  | ChildPc.woken => 10
  | ChildPc.leave => 6
  | ChildPc.call_run => 5
  | ChildPc.running => 4

/-- A bound on the number of steps left when waits return only on a
notification. -/
def steps_left (s : Handshake) : Nat := creator_rank s.creator s.state + child_rank s.child s.state

/-- Facts about one state of the handshake, checked over `reachable`:
the state carries the surroundings it started with; the creator's loop never
reads RUNNABLE; the handle is never ZOMBIE and `os::create_thread` returns
false only when `pthread_create` failed; past its loop and until it returns
true the creator has read INITIALIZED, the handle is INITIALIZED and the new
thread is in its wait loop; inside `os::pd_start_thread` the handle is
RUNNABLE; while the creator is in its loop some thread can move; when waits
return only on a notification every step lowers `steps_left` and nothing can
move only once the creator has started the thread and the thread runs. -/
def handshake_inv (spurious ok limit : Bool) (s : Handshake) : Prop :=
  (s.pthread_create_ok = ok ∧ s.thread_limit_reached = limit) ∧
  (∀ r ∈ steps spurious s, r.1 = Party.creator →
    r.2.1 ≠ Op.get_state ThreadState.RUNNABLE) ∧
  s.state ≠ ThreadState.ZOMBIE ∧
  (s.creator = CreatorPc.returned false → s.pthread_create_ok = false) ∧
  ((s.creator = CreatorPc.leave ∨ s.creator = CreatorPc.check ∨
      s.creator = CreatorPc.returned true) →
    s.pthread_create_ok = true ∧ s.local_state = some ThreadState.INITIALIZED ∧
    s.state = ThreadState.INITIALIZED ∧ child_in_loop s.child = true ∧
    (spurious = false → s.child = ChildPc.waiting)) ∧
  ((s.creator = CreatorPc.start_enter ∨ s.creator = CreatorPc.start_notify ∨
      s.creator = CreatorPc.start_leave ∨ s.creator = CreatorPc.started) →
    s.state = ThreadState.RUNNABLE) ∧
  (creator_in_loop s.creator = true → (steps false s).isEmpty = false) ∧
  (spurious = false → ∀ r ∈ steps false s, steps_left r.2.2 < steps_left s) ∧
  (spurious = false → (steps false s).isEmpty = true → s.pthread_create_ok = true →
    s.creator = CreatorPc.started ∧ s.child = ChildPc.running)

instance (spurious ok limit : Bool) (s : Handshake) :
    Decidable (handshake_inv spurious ok limit s) := by
  unfold handshake_inv; infer_instance

/-- Facts about the steps possible in one state of the handshake, checked over
`reachable`: the new thread writes no state but INITIALIZED; `notify_all` comes
from the new thread only, `notify` from `os::pd_start_thread` only, a wait is
entered only from the point after a loop test, and a thread leaving a wait is at
its loop test or on its way there. -/
def handshake_calls (spurious : Bool) (s : Handshake) : Prop :=
  (∀ r ∈ steps spurious s, r.1 = Party.child →
    r.2.1 ≠ Op.set_state ThreadState.ALLOCATED ∧ r.2.1 ≠ Op.set_state ThreadState.RUNNABLE ∧
    r.2.1 ≠ Op.set_state ThreadState.ZOMBIE) ∧
  (∀ r ∈ steps spurious s,
    (r.2.1 = Op.notify_all → r.1 = Party.child ∧ s.child = ChildPc.notify) ∧
    (r.2.1 = Op.notify → r.1 = Party.creator ∧ s.creator = CreatorPc.start_notify) ∧
    (r.2.1 = Op.wait →
      (r.1 = Party.creator ∧ s.creator = CreatorPc.at_wait ∧
        s.state = ThreadState.ALLOCATED) ∨
      (r.1 = Party.child ∧ s.child = ChildPc.at_wait)) ∧
    (r.2.1 = Op.retake ∨ r.2.1 = Op.wakeup →
      (r.1 = Party.creator ∧ (r.2.2.creator = CreatorPc.test ∨ r.2.2.creator = CreatorPc.woken)) ∨
      (r.1 = Party.child ∧ (r.2.2.child = ChildPc.test ∨ r.2.2.child = ChildPc.woken))))

instance (spurious : Bool) (s : Handshake) : Decidable (handshake_calls spurious s) := by
  unfold handshake_calls; infer_instance

/-- A schedule on which the creator reaches its wait first, the new thread
initialises and waits, and the creator wakes and returns from
`os::create_thread`. -/
def schedule_create : List Party :=
  [Party.creator, Party.creator, Party.creator, Party.creator,
    Party.child, Party.child, Party.child, Party.child, Party.child,
    Party.creator, Party.creator, Party.creator, Party.creator]

/-! ### Library names and opening files -/

def O_DELETE : Nat := 0x10000

/-- The constant `B_FILE_NAME_LENGTH` of the Haiku headers. -/
def B_FILE_NAME_LENGTH : Nat := 256

def MAX_PATH : Nat := B_FILE_NAME_LENGTH

/-- The file-type mask of `st_mode`. -/
def S_IFMT : Nat := 0o170000

/-- The file type of a directory. -/
def S_IFDIR : Nat := 0o040000

def FD_CLOEXEC : Nat := 1

/-- The values of `errno` that matter to `os::open`: the two it sets, and
whatever a failed kernel call left. -/
inductive Errno where
  | ENAMETOOLONG
  | EISDIR
  | kernel (code : Nat)
deriving DecidableEq, Repr

/-- The kernel calls of `os::open`. -/
inductive FileCall where
  | open (path : String) (oflag mode : Nat)
  | fstat (fd : Nat)
  | close (fd : Nat)
  | fcntl_getfd (fd : Nat)
  | fcntl_setfd (fd flags : Nat)
  | unlink (path : String)
deriving DecidableEq, Repr

/-- What the kernel answers to `os::open`: the descriptor of `open` (`none`
for -1, with the `errno` it sets), the `st_mode` of `fstat` (`none` for -1, with
its `errno`), the flags of `fcntl(fd, F_GETFD)` (`none` for -1, with its
`errno`), and the `errno` of a failed `unlink` (`none` when it succeeds). -/
structure FileKernel where
  open_ret : Option Nat
  open_errno : Nat
  fstat_ret : Option Nat
  fstat_errno : Nat
  getfd_ret : Option Nat
  getfd_errno : Nat
  unlink_errno : Option Nat

/-- What a call of `os::open` leaves behind: the returned int, `errno`, and the
kernel calls made, in order. -/
structure Opened where
  ret : Int
  errno : Errno
  calls : List FileCall
deriving DecidableEq, Repr

/-- The function `os::open`; `errno0` is `errno` before the call. A `close` of
the descriptor just opened succeeds and leaves `errno` alone. -/
def os_open (k : FileKernel) (errno0 : Errno) (path : String) (oflag mode : Nat) : Opened :=
  if strlen_bytes path > MAX_PATH - 1 then
    ⟨-1, Errno.ENAMETOOLONG, []⟩
  else
    let o_delete := oflag &&& O_DELETE
    -- oflag & ~O_DELETE
    let oflag := oflag ^^^ (oflag &&& O_DELETE)
    match k.open_ret with
    | none => ⟨-1, Errno.kernel k.open_errno, [FileCall.open path oflag mode]⟩
    | some fd =>
      -- If the open succeeded, the file might still be a directory
      match k.fstat_ret with
      | some st_mode =>
        if st_mode &&& S_IFMT = S_IFDIR then
          ⟨-1, Errno.EISDIR,
            [FileCall.open path oflag mode, FileCall.fstat fd, FileCall.close fd]⟩
        else
          let cloexec :=
            match k.getfd_ret with
            | some flags => [FileCall.fcntl_getfd fd, FileCall.fcntl_setfd fd (flags ||| FD_CLOEXEC)]
            | none => [FileCall.fcntl_getfd fd]
          let errno1 :=
            match k.getfd_ret with
            | some _ => errno0
            | none => Errno.kernel k.getfd_errno
          let calls := [FileCall.open path oflag mode, FileCall.fstat fd] ++ cloexec
          if o_delete ≠ 0 then
            ⟨fd, (k.unlink_errno.map Errno.kernel).getD errno1, calls ++ [FileCall.unlink path]⟩
          else ⟨fd, errno1, calls⟩
      | none =>
        ⟨-1, Errno.kernel k.fstat_errno,
          [FileCall.open path oflag mode, FileCall.fstat fd, FileCall.close fd]⟩

/-! ### Loading a library -/

/-- What goes wrong when a pointer is followed outside an object. -/
inductive Fault where
  | null_pointer
  | out_of_bounds
deriving DecidableEq, Repr

/-- The call `strlen(s)` on a character array: the number of characters before
the first NUL; the read runs off the array when it holds no NUL. -/
def strlen (s : List Char) : Except Fault Nat :=
  if NUL ∈ s then Except.ok (s.takeWhile (fun c => c != NUL)).length
  else Except.error Fault.out_of_bounds

/-- Writing `data` into the array `s` from index `off` on; a fault when the
write does not fit in the array. -/
def poke (s : List Char) (off : Nat) (data : List Char) : Except Fault (List Char) :=
  if off + data.length ≤ s.length then
    Except.ok (s.take off ++ data ++ s.drop (off + data.length))
  else Except.error Fault.out_of_bounds

/-- The call `strncpy(dst, src, n)`: exactly `n` characters are written, those
of `src` and then NULs. -/
def strncpy (dst src : List Char) (n : Nat) : Except Fault (List Char) :=
  poke dst 0 (src.take n ++ List.replicate (n - src.length) NUL)

/-- The call `snprintf(s + off, n, text)` with a text that is already
formatted: nothing is written for `n = 0`, otherwise at most `n - 1` characters
and a NUL. -/
def snprintf (s : List Char) (off n : Nat) (text : List Char) : Except Fault (List Char) :=
  if n = 0 then Except.ok s else poke s off (text.take (n - 1) ++ [NUL])

def ELFCLASSNONE : Nat := 0
def ELFCLASS32 : Nat := 1
def ELFCLASS64 : Nat := 2
def ELFDATA2LSB : Nat := 1
def ELFDATA2MSB : Nat := 2
def EM_SPARC : Nat := 2
def EM_386 : Nat := 3
def EM_68K : Nat := 4
def EM_486 : Nat := 6
def EM_MIPS : Nat := 8
def EM_MIPS_RS3_LE : Nat := 10
def EM_PARISC : Nat := 15
def EM_SPARC32PLUS : Nat := 18
def EM_PPC : Nat := 20
def EM_PPC64 : Nat := 21
def EM_S390 : Nat := 22
def EM_ARM : Nat := 40
def EM_SPARCV9 : Nat := 43
def EM_IA_64 : Nat := 50
def EM_X86_64 : Nat := 62
def EM_ALPHA : Nat := 0x9026

/-- The fields of the ELF header that `os::dll_load` looks at:
`e_ident[EI_CLASS]`, `e_ident[EI_DATA]` and `e_machine`. -/
structure Elf32_Ehdr where
  ei_class : Nat
  ei_data : Nat
  e_machine : Nat
deriving DecidableEq, Repr

/-- A row of `arch_array`; `name` is `none` for a NULL pointer. -/
structure arch_t where
  code : Nat
  compat_class : Nat
  elf_class : Nat
  endianess : Nat
  name : Option String
deriving DecidableEq, Repr

def arch_array : List arch_t :=
  [⟨EM_386, EM_386, ELFCLASS32, ELFDATA2LSB, some "IA 32"⟩,
   ⟨EM_486, EM_386, ELFCLASS32, ELFDATA2LSB, some "IA 32"⟩,
   ⟨EM_IA_64, EM_IA_64, ELFCLASS64, ELFDATA2LSB, some "IA 64"⟩,
   ⟨EM_X86_64, EM_X86_64, ELFCLASS64, ELFDATA2LSB, some "AMD 64"⟩,
   ⟨EM_SPARC, EM_SPARC, ELFCLASS32, ELFDATA2MSB, some "Sparc 32"⟩,
   ⟨EM_SPARC32PLUS, EM_SPARC, ELFCLASS32, ELFDATA2MSB, some "Sparc 32"⟩,
   ⟨EM_SPARCV9, EM_SPARCV9, ELFCLASS64, ELFDATA2MSB, some "Sparc v9 64"⟩,
   ⟨EM_PPC, EM_PPC, ELFCLASS32, ELFDATA2MSB, some "Power PC 32"⟩,
   ⟨EM_PPC64, EM_PPC64, ELFCLASS64, ELFDATA2MSB, some "Power PC 64"⟩,
   ⟨EM_ARM, EM_ARM, ELFCLASS32, ELFDATA2LSB, some "ARM"⟩,
   ⟨EM_S390, EM_S390, ELFCLASSNONE, ELFDATA2MSB, some "IBM System/390"⟩,
   ⟨EM_ALPHA, EM_ALPHA, ELFCLASS64, ELFDATA2LSB, some "Alpha"⟩,
   ⟨EM_MIPS_RS3_LE, EM_MIPS_RS3_LE, ELFCLASS32, ELFDATA2LSB, some "MIPSel"⟩,
   ⟨EM_MIPS, EM_MIPS, ELFCLASS32, ELFDATA2MSB, some "MIPS"⟩,
   ⟨EM_PARISC, EM_PARISC, ELFCLASS32, ELFDATA2MSB, some "PARISC"⟩,
   ⟨EM_68K, EM_68K, ELFCLASS32, ELFDATA2MSB, some "M68k"⟩]

def running_arch_code : Build → Nat
  | Build.IA32 => EM_386
  | Build.AMD64 => EM_X86_64

/-- One pass of the loop over `arch_array` in `os::dll_load`, at row `a` of
index `i`: the state is `running_arch_index` (`none` for -1) and `lib_arch`. -/
def identify_step (running : Nat) (st : Option Nat × arch_t) (ia : Nat × arch_t) :
    Option Nat × arch_t :=
  let idx := if running = ia.2.code then some ia.1 else st.1
  let lib :=
    if st.2.code = ia.2.code then
      { st.2 with compat_class := ia.2.compat_class, name := ia.2.name }
    else st.2
  (idx, lib)

/-- The loop over `arch_array` in `os::dll_load`. -/
def identify (running : Nat) (lib_arch : arch_t) : Option Nat × arch_t :=
  arch_array.enum.foldl (identify_step running) (none, lib_arch)

/-- The value `%x` prints. -/
def hex (n : Nat) : String := String.mk (Nat.toDigits 16 n)

/-- The part of `os::dll_load` after the header is read: the text handed to
`snprintf`, `none` when the function returns without that call. -/
def diag_msg (b : Build) (elf_head : Elf32_Ehdr) : Option String :=
  let r := identify (running_arch_code b)
    ⟨elf_head.e_machine, 0, elf_head.ei_class, elf_head.ei_data, none⟩
  let lib_arch := r.2
  match r.1 with
  | none => none
  | some running_arch_index =>
    match arch_array.get? running_arch_index with
    | none => none
    | some run =>
      if lib_arch.endianess ≠ run.endianess then
        some " (Possible cause: endianness mismatch)"
      else if lib_arch.elf_class ≠ run.elf_class then
        some " (Possible cause: architecture word width mismatch)"
      else if lib_arch.compat_class ≠ run.compat_class then
        match lib_arch.name with
        | some name =>
          some (" (Possible cause: can't load " ++ name ++ "-bit .so on a " ++
            run.name.getD "" ++ "-bit platform)")
        | none =>
          some (" (Possible cause: can't load this .so (machine code=0x" ++ hex lib_arch.code ++
            ") on a " ++ run.name.getD "" ++ "-bit platform)")
      else none

/-- What the loader and the file system answer to `os::dll_load`: the handle
of `dlopen` (0 for NULL), the text of `dlerror` (`none` for NULL), the
descriptor of `open` (negative on failure), and the header when `read` gives
all `sizeof(elf_head)` bytes. -/
structure LoadEnv where
  dlopen_ret : Nat
  dlerror_ret : Option String
  open_ret : Int
  read_ret : Option Elf32_Ehdr

/-- The calls `os::dll_load` makes to the loader and the file system. -/
inductive LoadCall where
  | dlopen (filename : String)
  | dlerror
  | open (filename : String)
  | read (fd : Int)
  | close (fd : Int)
deriving DecidableEq, Repr

/-- The accesses `os::dll_load` makes through `ebuf`. -/
inductive BufOp where
  | strncpy (n : Nat)
  | store (i : Nat)
  | strlen
  | snprintf (off n : Nat)
deriving DecidableEq, Repr

/-- What a call of `os::dll_load` leaves behind: the returned handle (0 for
NULL), the array behind `ebuf` (`none` for a NULL `ebuf`), the calls made and
the accesses through `ebuf`. -/
structure Loaded where
  result : Nat
  ebuf : Option (List Char)
  calls : List LoadCall
  ops : List BufOp

/-- The guarded copy of the loader's message in `os::dll_load`. -/
def copy_report (b : Build) (ebuf : Option (List Char)) (ebuflen : Int)
    (error_report : List Char) : Except Fault (Option (List Char) × List BufOp) :=
  match ebuf with
  | some s =>
    if ebuflen > 0 then do
      -- Read system error message into ebuf
      let s1 ← strncpy s error_report (to_size_t b (ebuflen - 1))
      let s2 ← poke s1 (ebuflen - 1).toNat [NUL]
      pure (some s2, [BufOp.strncpy (to_size_t b (ebuflen - 1)), BufOp.store (ebuflen - 1).toNat])
    else pure (some s, [])
  | none => pure (none, [])

/-- The function `os::dll_load`; `ebuf` is the caller's character array
(`none` for NULL) and `ebuflen` the length the caller passes. -/
def dll_load (b : Build) (env : LoadEnv) (filename : String) (ebuf : Option (List Char))
    (ebuflen : Int) : Except Fault Loaded :=
  if env.dlopen_ret ≠ 0 then
    -- Successful loading
    pure ⟨env.dlopen_ret, ebuf, [LoadCall.dlopen filename], []⟩
  else do
    let error_report := c_str (env.dlerror_ret.getD "dlerror returned no error description")
    let copied ← copy_report b ebuf ebuflen error_report
    let calls := [LoadCall.dlopen filename, LoadCall.dlerror]
    -- strlen(ebuf), for diag_msg_max_length and for diag_msg_buf
    let s ← match copied.1 with
      | some s => pure s
      | none => throw Fault.null_pointer
    let len ← strlen s
    let ops := copied.2 ++ [BufOp.strlen, BufOp.strlen]
    let diag_msg_max_length := narrow_int (ebuflen - len)
    if diag_msg_max_length = 0 then
      -- No more space in ebuf for additional diagnostics message
      pure ⟨0, some s, calls, ops⟩
    else if env.open_ret < 0 then
      -- Can't open library, report dlerror() message
      pure ⟨0, some s, calls ++ [LoadCall.open filename], ops⟩
    else
      let calls := calls ++ [LoadCall.open filename, LoadCall.read env.open_ret,
        LoadCall.close env.open_ret]
      match env.read_ret with
      | none =>
        -- file i/o error - report dlerror() msg
        pure ⟨0, some s, calls, ops⟩
      | some elf_head =>
        match diag_msg b elf_head with
        | none => pure ⟨0, some s, calls, ops⟩
        | some text => do
          let n := to_size_t b (diag_msg_max_length - 1)
          let s1 ← snprintf s len n (c_str text)
          pure ⟨0, some s1, calls, ops ++ [BufOp.snprintf len n]⟩

/-- The text `os::dll_load` hands to `snprintf` under the answers `env`: none
when the file is not opened, when the header is not read, and when the
inspection finds no mismatch. -/
def diagnostic (b : Build) (env : LoadEnv) : Option String :=
  if env.open_ret < 0 then none
  else
    match env.read_ret with
    | none => none
    | some elf_head => diag_msg b elf_head

/-- The loader's message as `os::dll_load` uses it. -/
def error_report (env : LoadEnv) : List Char :=
  c_str (env.dlerror_ret.getD "dlerror returned no error description")

/-- The C string held in a character array: the characters before the first
NUL. -/
def text_of (s : List Char) : List Char := s.takeWhile (fun c => c != NUL)

/-- The bit field `x[hi:lo]` of a register value. -/
def bits (hi lo x : Nat) : Nat := x / 2 ^ lo % 2 ^ (hi + 1 - lo)

/-- The instruction `rorw $n, r`: the 16-bit operand rotated right by `n` bits
(`n` at most 16). -/
def rorw (n x : Nat) : Nat :=
  ((x % 2 ^ 16) >>> n ||| (x % 2 ^ 16) <<< (16 - n)) % 2 ^ 16

/-- The instruction `bswap r32`: bits 7:0 of the result are bits 31:24 of the
operand, 15:8 are 23:16, 23:16 are 15:8 and 31:24 are 7:0. -/
def bswap (x : Nat) : Nat :=
  bits 31 24 x + bits 23 16 x * 2 ^ 8 + bits 15 8 x * 2 ^ 16 + bits 7 0 x * 2 ^ 24

/-- The instruction `bswapq r64`, the same exchange over eight bytes. -/
def bswapq (x : Nat) : Nat :=
  bits 63 56 x + bits 55 48 x * 2 ^ 8 + bits 47 40 x * 2 ^ 16 + bits 39 32 x * 2 ^ 24 +
  bits 31 24 x * 2 ^ 32 + bits 23 16 x * 2 ^ 40 + bits 15 8 x * 2 ^ 48 + bits 7 0 x * 2 ^ 56

/-- The function `Bytes::swap_u2`. -/
def swap_u2 (x : Nat) : Nat := rorw 8 x

/-- The function `Bytes::swap_u4`. -/
def swap_u4 (x : Nat) : Nat := bswap x

/-- The function `Bytes::swap_u8` of the AMD64 build. -/
def swap_u8_amd64 (x : Nat) : Nat := bswapq x

/-- The function `Bytes::swap_u8` of the 32-bit build: `dwords[0]` is the low
half of `x` and `dwords[1]` the high half (x86 is little-endian); `xchg`
exchanges the two registers and `bswap` swaps each. -/
def swap_u8_ia32 (x : Nat) : Nat :=
  let dwords0 := x % 2 ^ 32
  let dwords1 := x / 2 ^ 32 % 2 ^ 32
  -- xchg %0, %1
  let r0 := dwords1
  let r1 := dwords0
  -- bswap %0; bswap %1
  bswap r0 + bswap r1 * 2 ^ 32

/-- The `n` bytes of `x`, lowest first. -/
def to_bytes : Nat → Nat → List Nat
  | 0, _ => []
  | n + 1, x => x % 256 :: to_bytes n (x / 256)

/-- The value of a list of bytes, lowest first. -/
def of_bytes : List Nat → Nat
  | [] => 0
  | b :: bs => b + 256 * of_bytes bs

/-- The `n`-byte value `x` with its bytes in reverse order. -/
def reverse_bytes (n x : Nat) : Nat := of_bytes (to_bytes n x).reverse

/-! ### Stack jitter and file times -/

/-- The 32-bit two's-complement bit pattern of a C `int`. -/
def int_bits (i : Int) : Nat := (i % 2 ^ 32).toNat

/-- The size `thread_native_entry` passes to `alloca`:
`((pid ^ counter++) & 7) * 128`, with `counter` the value before the
increment. -/
def thread_native_entry_alloca (pid counter : Int) : Nat :=
  ((int_bits pid ^^^ int_bits counter) &&& 7) * 128

/-- The `struct timespec` of a modification time. -/
structure timespec where
  tv_sec : Int
  tv_nsec : Int
deriving DecidableEq, Repr

/-- The helper `get_mtime`: the `st_mtim` that `os::stat` reports for a file. -/
def get_mtime (stat : String → timespec) (filename : String) : timespec := stat filename

/-- The function `os::compare_file_modified_times`; the difference of the
seconds narrows to `int`, and so does the returned difference of the
nanoseconds. -/
def compare_file_modified_times (stat : String → timespec) (file1 file2 : String) : Int :=
  let filetime1 := get_mtime stat file1
  let filetime2 := get_mtime stat file2
  let diff := narrow_int (filetime1.tv_sec - filetime2.tv_sec)
  if diff = 0 then narrow_int (filetime1.tv_nsec - filetime2.tv_nsec)
  else diff

/-- Whether `t1` is an earlier time than `t2`. -/
def earlier (t1 t2 : timespec) : Prop :=
  t1.tv_sec < t2.tv_sec ∨ (t1.tv_sec = t2.tv_sec ∧ t1.tv_nsec < t2.tv_nsec)

instance (t1 t2 : timespec) : Decidable (earlier t1 t2) := by
  unfold earlier; infer_instance

/-! ### Key codes -/

/-- Modelled from the spec: the key codes of `java.awt.event.KeyEvent` that the generated
header `java_awt_event_KeyEvent.h` (not under `src/`) gives to the two tables, with the
values of the Java class; this one is `VK_UNDEFINED`. -/
def java_awt_event_KeyEvent_VK_UNDEFINED : Int := 0x0
/-- Modelled from the spec: `KeyEvent.VK_ESCAPE`. -/
def java_awt_event_KeyEvent_VK_ESCAPE : Int := 0x1B
/-- Modelled from the spec: `KeyEvent.VK_F1`. -/
def java_awt_event_KeyEvent_VK_F1 : Int := 0x70
/-- Modelled from the spec: `KeyEvent.VK_F2`. -/
def java_awt_event_KeyEvent_VK_F2 : Int := 0x71
/-- Modelled from the spec: `KeyEvent.VK_F3`. -/
def java_awt_event_KeyEvent_VK_F3 : Int := 0x72
/-- Modelled from the spec: `KeyEvent.VK_F4`. -/
def java_awt_event_KeyEvent_VK_F4 : Int := 0x73
/-- Modelled from the spec: `KeyEvent.VK_F5`. -/
def java_awt_event_KeyEvent_VK_F5 : Int := 0x74
/-- Modelled from the spec: `KeyEvent.VK_F6`. -/
def java_awt_event_KeyEvent_VK_F6 : Int := 0x75
/-- Modelled from the spec: `KeyEvent.VK_F7`. -/
def java_awt_event_KeyEvent_VK_F7 : Int := 0x76
/-- Modelled from the spec: `KeyEvent.VK_F8`. -/
def java_awt_event_KeyEvent_VK_F8 : Int := 0x77
/-- Modelled from the spec: `KeyEvent.VK_F9`. -/
def java_awt_event_KeyEvent_VK_F9 : Int := 0x78
/-- Modelled from the spec: `KeyEvent.VK_F10`. -/
def java_awt_event_KeyEvent_VK_F10 : Int := 0x79
/-- Modelled from the spec: `KeyEvent.VK_F11`. -/
def java_awt_event_KeyEvent_VK_F11 : Int := 0x7A
/-- Modelled from the spec: `KeyEvent.VK_F12`. -/
def java_awt_event_KeyEvent_VK_F12 : Int := 0x7B
/-- Modelled from the spec: `KeyEvent.VK_DEAD_TILDE`. -/
def java_awt_event_KeyEvent_VK_DEAD_TILDE : Int := 0x83
/-- Modelled from the spec: `KeyEvent.VK_BACK_QUOTE`. -/
def java_awt_event_KeyEvent_VK_BACK_QUOTE : Int := 0xC0
/-- Modelled from the spec: `KeyEvent.VK_EXCLAMATION_MARK`. -/
def java_awt_event_KeyEvent_VK_EXCLAMATION_MARK : Int := 0x205
/-- Modelled from the spec: `KeyEvent.VK_1`. -/
def java_awt_event_KeyEvent_VK_1 : Int := 0x31
/-- Modelled from the spec: `KeyEvent.VK_AT`. -/
def java_awt_event_KeyEvent_VK_AT : Int := 0x200
/-- Modelled from the spec: `KeyEvent.VK_2`. -/
def java_awt_event_KeyEvent_VK_2 : Int := 0x32
/-- Modelled from the spec: `KeyEvent.VK_NUMBER_SIGN`. -/
def java_awt_event_KeyEvent_VK_NUMBER_SIGN : Int := 0x208
/-- Modelled from the spec: `KeyEvent.VK_3`. -/
def java_awt_event_KeyEvent_VK_3 : Int := 0x33
/-- Modelled from the spec: `KeyEvent.VK_DOLLAR`. -/
def java_awt_event_KeyEvent_VK_DOLLAR : Int := 0x203
/-- Modelled from the spec: `KeyEvent.VK_4`. -/
def java_awt_event_KeyEvent_VK_4 : Int := 0x34
/-- Modelled from the spec: `KeyEvent.VK_5`. -/
def java_awt_event_KeyEvent_VK_5 : Int := 0x35
/-- Modelled from the spec: `KeyEvent.VK_CIRCUMFLEX`. -/
def java_awt_event_KeyEvent_VK_CIRCUMFLEX : Int := 0x202
/-- Modelled from the spec: `KeyEvent.VK_6`. -/
def java_awt_event_KeyEvent_VK_6 : Int := 0x36
/-- Modelled from the spec: `KeyEvent.VK_AMPERSAND`. -/
def java_awt_event_KeyEvent_VK_AMPERSAND : Int := 0x96
/-- Modelled from the spec: `KeyEvent.VK_7`. -/
def java_awt_event_KeyEvent_VK_7 : Int := 0x37
/-- Modelled from the spec: `KeyEvent.VK_ASTERISK`. -/
def java_awt_event_KeyEvent_VK_ASTERISK : Int := 0x97
/-- Modelled from the spec: `KeyEvent.VK_8`. -/
def java_awt_event_KeyEvent_VK_8 : Int := 0x38
/-- Modelled from the spec: `KeyEvent.VK_LEFT_PARENTHESIS`. -/
def java_awt_event_KeyEvent_VK_LEFT_PARENTHESIS : Int := 0x207
/-- Modelled from the spec: `KeyEvent.VK_9`. -/
def java_awt_event_KeyEvent_VK_9 : Int := 0x39
/-- Modelled from the spec: `KeyEvent.VK_RIGHT_PARENTHESIS`. -/
def java_awt_event_KeyEvent_VK_RIGHT_PARENTHESIS : Int := 0x20A
/-- Modelled from the spec: `KeyEvent.VK_0`. -/
def java_awt_event_KeyEvent_VK_0 : Int := 0x30
/-- Modelled from the spec: `KeyEvent.VK_UNDERSCORE`. -/
def java_awt_event_KeyEvent_VK_UNDERSCORE : Int := 0x20B
/-- Modelled from the spec: `KeyEvent.VK_MINUS`. -/
def java_awt_event_KeyEvent_VK_MINUS : Int := 0x2D
/-- Modelled from the spec: `KeyEvent.VK_PLUS`. -/
def java_awt_event_KeyEvent_VK_PLUS : Int := 0x209
/-- Modelled from the spec: `KeyEvent.VK_EQUALS`. -/
def java_awt_event_KeyEvent_VK_EQUALS : Int := 0x3D
/-- Modelled from the spec: `KeyEvent.VK_BACK_SPACE`. -/
def java_awt_event_KeyEvent_VK_BACK_SPACE : Int := 0x8
/-- Modelled from the spec: `KeyEvent.VK_TAB`. -/
def java_awt_event_KeyEvent_VK_TAB : Int := 0x9
/-- Modelled from the spec: `KeyEvent.VK_Q`. -/
def java_awt_event_KeyEvent_VK_Q : Int := 0x51
/-- Modelled from the spec: `KeyEvent.VK_W`. -/
def java_awt_event_KeyEvent_VK_W : Int := 0x57
/-- Modelled from the spec: `KeyEvent.VK_E`. -/
def java_awt_event_KeyEvent_VK_E : Int := 0x45
/-- Modelled from the spec: `KeyEvent.VK_R`. -/
def java_awt_event_KeyEvent_VK_R : Int := 0x52
/-- Modelled from the spec: `KeyEvent.VK_T`. -/
def java_awt_event_KeyEvent_VK_T : Int := 0x54
/-- Modelled from the spec: `KeyEvent.VK_Y`. -/
def java_awt_event_KeyEvent_VK_Y : Int := 0x59
/-- Modelled from the spec: `KeyEvent.VK_U`. -/
def java_awt_event_KeyEvent_VK_U : Int := 0x55
/-- Modelled from the spec: `KeyEvent.VK_I`. -/
def java_awt_event_KeyEvent_VK_I : Int := 0x49
/-- Modelled from the spec: `KeyEvent.VK_O`. -/
def java_awt_event_KeyEvent_VK_O : Int := 0x4F
/-- Modelled from the spec: `KeyEvent.VK_P`. -/
def java_awt_event_KeyEvent_VK_P : Int := 0x50
/-- Modelled from the spec: `KeyEvent.VK_BRACELEFT`. -/
def java_awt_event_KeyEvent_VK_BRACELEFT : Int := 0xA1
/-- Modelled from the spec: `KeyEvent.VK_OPEN_BRACKET`. -/
def java_awt_event_KeyEvent_VK_OPEN_BRACKET : Int := 0x5B
/-- Modelled from the spec: `KeyEvent.VK_BRACERIGHT`. -/
def java_awt_event_KeyEvent_VK_BRACERIGHT : Int := 0xA2
/-- Modelled from the spec: `KeyEvent.VK_CLOSE_BRACKET`. -/
def java_awt_event_KeyEvent_VK_CLOSE_BRACKET : Int := 0x5D
/-- Modelled from the spec: `KeyEvent.VK_SEPARATOR`. -/
def java_awt_event_KeyEvent_VK_SEPARATOR : Int := 0x6C
/-- Modelled from the spec: `KeyEvent.VK_BACK_SLASH`. -/
def java_awt_event_KeyEvent_VK_BACK_SLASH : Int := 0x5C
/-- Modelled from the spec: `KeyEvent.VK_CAPS_LOCK`. -/
def java_awt_event_KeyEvent_VK_CAPS_LOCK : Int := 0x14
/-- Modelled from the spec: `KeyEvent.VK_A`. -/
def java_awt_event_KeyEvent_VK_A : Int := 0x41
/-- Modelled from the spec: `KeyEvent.VK_S`. -/
def java_awt_event_KeyEvent_VK_S : Int := 0x53
/-- Modelled from the spec: `KeyEvent.VK_D`. -/
def java_awt_event_KeyEvent_VK_D : Int := 0x44
/-- Modelled from the spec: `KeyEvent.VK_F`. -/
def java_awt_event_KeyEvent_VK_F : Int := 0x46
/-- Modelled from the spec: `KeyEvent.VK_G`. -/
def java_awt_event_KeyEvent_VK_G : Int := 0x47
/-- Modelled from the spec: `KeyEvent.VK_H`. -/
def java_awt_event_KeyEvent_VK_H : Int := 0x48
/-- Modelled from the spec: `KeyEvent.VK_J`. -/
def java_awt_event_KeyEvent_VK_J : Int := 0x4A
/-- Modelled from the spec: `KeyEvent.VK_K`. -/
def java_awt_event_KeyEvent_VK_K : Int := 0x4B
/-- Modelled from the spec: `KeyEvent.VK_L`. -/
def java_awt_event_KeyEvent_VK_L : Int := 0x4C
/-- Modelled from the spec: `KeyEvent.VK_COLON`. -/
def java_awt_event_KeyEvent_VK_COLON : Int := 0x201

/-- Modelled from the spec: `KeyEvent.VK_SEMICOLON`. -/
def java_awt_event_KeyEvent_VK_SEMICOLON : Int := 0x3B
/-- Modelled from the spec: `KeyEvent.VK_QUOTEDBL`. -/
def java_awt_event_KeyEvent_VK_QUOTEDBL : Int := 0x98
/-- Modelled from the spec: `KeyEvent.VK_QUOTE`. -/
def java_awt_event_KeyEvent_VK_QUOTE : Int := 0xDE
/-- Modelled from the spec: `KeyEvent.VK_ENTER`. -/
def java_awt_event_KeyEvent_VK_ENTER : Int := 0xA
/-- Modelled from the spec: `KeyEvent.VK_SHIFT`. -/
def java_awt_event_KeyEvent_VK_SHIFT : Int := 0x10
/-- Modelled from the spec: `KeyEvent.VK_Z`. -/
def java_awt_event_KeyEvent_VK_Z : Int := 0x5A
/-- Modelled from the spec: `KeyEvent.VK_X`. -/
def java_awt_event_KeyEvent_VK_X : Int := 0x58
/-- Modelled from the spec: `KeyEvent.VK_C`. -/
def java_awt_event_KeyEvent_VK_C : Int := 0x43
/-- Modelled from the spec: `KeyEvent.VK_V`. -/
def java_awt_event_KeyEvent_VK_V : Int := 0x56
/-- Modelled from the spec: `KeyEvent.VK_B`. -/
def java_awt_event_KeyEvent_VK_B : Int := 0x42
/-- Modelled from the spec: `KeyEvent.VK_N`. -/
def java_awt_event_KeyEvent_VK_N : Int := 0x4E
/-- Modelled from the spec: `KeyEvent.VK_M`. -/
def java_awt_event_KeyEvent_VK_M : Int := 0x4D
/-- Modelled from the spec: `KeyEvent.VK_LESS`. -/
def java_awt_event_KeyEvent_VK_LESS : Int := 0x99
/-- Modelled from the spec: `KeyEvent.VK_COMMA`. -/
def java_awt_event_KeyEvent_VK_COMMA : Int := 0x2C
/-- Modelled from the spec: `KeyEvent.VK_GREATER`. -/
def java_awt_event_KeyEvent_VK_GREATER : Int := 0xA0
/-- Modelled from the spec: `KeyEvent.VK_PERIOD`. -/
def java_awt_event_KeyEvent_VK_PERIOD : Int := 0x2E
/-- Modelled from the spec: `KeyEvent.VK_SLASH`. -/
def java_awt_event_KeyEvent_VK_SLASH : Int := 0x2F
/-- Modelled from the spec: `KeyEvent.VK_CONTROL`. -/
def java_awt_event_KeyEvent_VK_CONTROL : Int := 0x11
/-- Modelled from the spec: `KeyEvent.VK_META`. -/
def java_awt_event_KeyEvent_VK_META : Int := 0x9D
/-- Modelled from the spec: `KeyEvent.VK_ALT`. -/
def java_awt_event_KeyEvent_VK_ALT : Int := 0x12
/-- Modelled from the spec: `KeyEvent.VK_SPACE`. -/
def java_awt_event_KeyEvent_VK_SPACE : Int := 0x20
/-- Modelled from the spec: `KeyEvent.VK_LEFT`. -/
def java_awt_event_KeyEvent_VK_LEFT : Int := 0x25
/-- Modelled from the spec: `KeyEvent.VK_UP`. -/
def java_awt_event_KeyEvent_VK_UP : Int := 0x26
/-- Modelled from the spec: `KeyEvent.VK_RIGHT`. -/
def java_awt_event_KeyEvent_VK_RIGHT : Int := 0x27
/-- Modelled from the spec: `KeyEvent.VK_DOWN`. -/
def java_awt_event_KeyEvent_VK_DOWN : Int := 0x28
/-- Modelled from the spec: `KeyEvent.VK_NUMPAD0`. -/
def java_awt_event_KeyEvent_VK_NUMPAD0 : Int := 0x60
/-- Modelled from the spec: `KeyEvent.VK_NUMPAD1`. -/
def java_awt_event_KeyEvent_VK_NUMPAD1 : Int := 0x61
/-- Modelled from the spec: `KeyEvent.VK_KP_DOWN`. -/
def java_awt_event_KeyEvent_VK_KP_DOWN : Int := 0xE1
/-- Modelled from the spec: `KeyEvent.VK_NUMPAD2`. -/
def java_awt_event_KeyEvent_VK_NUMPAD2 : Int := 0x62
/-- Modelled from the spec: `KeyEvent.VK_NUMPAD3`. -/
def java_awt_event_KeyEvent_VK_NUMPAD3 : Int := 0x63
/-- Modelled from the spec: `KeyEvent.VK_KP_LEFT`. -/
def java_awt_event_KeyEvent_VK_KP_LEFT : Int := 0xE2
/-- Modelled from the spec: `KeyEvent.VK_NUMPAD4`. -/
def java_awt_event_KeyEvent_VK_NUMPAD4 : Int := 0x64
/-- Modelled from the spec: `KeyEvent.VK_NUMPAD5`. -/
def java_awt_event_KeyEvent_VK_NUMPAD5 : Int := 0x65
/-- Modelled from the spec: `KeyEvent.VK_KP_RIGHT`. -/
def java_awt_event_KeyEvent_VK_KP_RIGHT : Int := 0xE3
/-- Modelled from the spec: `KeyEvent.VK_NUMPAD6`. -/
def java_awt_event_KeyEvent_VK_NUMPAD6 : Int := 0x66
/-- Modelled from the spec: `KeyEvent.VK_NUMPAD7`. -/
def java_awt_event_KeyEvent_VK_NUMPAD7 : Int := 0x67
/-- Modelled from the spec: `KeyEvent.VK_KP_UP`. -/
def java_awt_event_KeyEvent_VK_KP_UP : Int := 0xE0
/-- Modelled from the spec: `KeyEvent.VK_NUMPAD8`. -/
def java_awt_event_KeyEvent_VK_NUMPAD8 : Int := 0x68
/-- Modelled from the spec: `KeyEvent.VK_NUMPAD9`. -/
def java_awt_event_KeyEvent_VK_NUMPAD9 : Int := 0x69
/-- Modelled from the spec: `KeyEvent.VK_MULTIPLY`. -/
def java_awt_event_KeyEvent_VK_MULTIPLY : Int := 0x6A
/-- Modelled from the spec: `KeyEvent.VK_ADD`. -/
def java_awt_event_KeyEvent_VK_ADD : Int := 0x6B
/-- Modelled from the spec: `KeyEvent.VK_SUBTRACT`. -/
def java_awt_event_KeyEvent_VK_SUBTRACT : Int := 0x6D
/-- Modelled from the spec: `KeyEvent.VK_DECIMAL`. -/
def java_awt_event_KeyEvent_VK_DECIMAL : Int := 0x6E
/-- Modelled from the spec: `KeyEvent.VK_DIVIDE`. -/
def java_awt_event_KeyEvent_VK_DIVIDE : Int := 0x6F
/-- Modelled from the spec: `KeyEvent.VK_PRINTSCREEN`. -/
def java_awt_event_KeyEvent_VK_PRINTSCREEN : Int := 0x9A
/-- Modelled from the spec: `KeyEvent.VK_PAUSE`. -/
def java_awt_event_KeyEvent_VK_PAUSE : Int := 0x13
/-- Modelled from the spec: `KeyEvent.VK_SCROLL_LOCK`. -/
def java_awt_event_KeyEvent_VK_SCROLL_LOCK : Int := 0x91
/-- Modelled from the spec: `KeyEvent.VK_NUM_LOCK`. -/
def java_awt_event_KeyEvent_VK_NUM_LOCK : Int := 0x90
/-- Modelled from the spec: `KeyEvent.VK_PAGE_UP`. -/
def java_awt_event_KeyEvent_VK_PAGE_UP : Int := 0x21
/-- Modelled from the spec: `KeyEvent.VK_PAGE_DOWN`. -/
def java_awt_event_KeyEvent_VK_PAGE_DOWN : Int := 0x22
/-- Modelled from the spec: `KeyEvent.VK_END`. -/
def java_awt_event_KeyEvent_VK_END : Int := 0x23
/-- Modelled from the spec: `KeyEvent.VK_HOME`. -/
def java_awt_event_KeyEvent_VK_HOME : Int := 0x24
/-- Modelled from the spec: `KeyEvent.VK_INSERT`. -/
def java_awt_event_KeyEvent_VK_INSERT : Int := 0x9B
/-- Modelled from the spec: `KeyEvent.VK_DELETE`. -/
def java_awt_event_KeyEvent_VK_DELETE : Int := 0x7F
/-- Modelled from the spec: `KeyEvent.VK_CONTEXT_MENU`. -/
def java_awt_event_KeyEvent_VK_CONTEXT_MENU : Int := 0x20D
/-- Modelled from the spec: `KeyEvent.VK_EURO_SIGN`. -/
def java_awt_event_KeyEvent_VK_EURO_SIGN : Int := 0x204
/-- Modelled from the spec: `KeyEvent.KEY_LOCATION_STANDARD`. -/
def java_awt_event_KeyEvent_KEY_LOCATION_STANDARD : Int := 1
/-- Modelled from the spec: `KeyEvent.KEY_LOCATION_LEFT`. -/
def java_awt_event_KeyEvent_KEY_LOCATION_LEFT : Int := 2
/-- Modelled from the spec: `KeyEvent.KEY_LOCATION_RIGHT`. -/
def java_awt_event_KeyEvent_KEY_LOCATION_RIGHT : Int := 3
/-- Modelled from the spec: `KeyEvent.KEY_LOCATION_NUMPAD`. -/
def java_awt_event_KeyEvent_KEY_LOCATION_NUMPAD : Int := 4

/-- The case labels of the switch in `ConvertKeyCodeToNative` with the key code each one
assigns, in source order (labels that share a statement each get a row). -/
def native_cases : List (Int × Int) :=
  [(java_awt_event_KeyEvent_VK_ESCAPE, 0x01),
   (java_awt_event_KeyEvent_VK_F1, 0x02),
   (java_awt_event_KeyEvent_VK_F2, 0x03),
   (java_awt_event_KeyEvent_VK_F3, 0x04),
   (java_awt_event_KeyEvent_VK_F4, 0x05),
   (java_awt_event_KeyEvent_VK_F5, 0x06),
   (java_awt_event_KeyEvent_VK_F6, 0x07),
   (java_awt_event_KeyEvent_VK_F7, 0x08),
   (java_awt_event_KeyEvent_VK_F8, 0x09),
   (java_awt_event_KeyEvent_VK_F9, 0x0a),
   (java_awt_event_KeyEvent_VK_F10, 0x0b),
   (java_awt_event_KeyEvent_VK_F11, 0x0c),
   (java_awt_event_KeyEvent_VK_F12, 0x0d),
   (java_awt_event_KeyEvent_VK_DEAD_TILDE, 0x11),
   (java_awt_event_KeyEvent_VK_BACK_QUOTE, 0x11),
   (java_awt_event_KeyEvent_VK_EXCLAMATION_MARK, 0x12),
   (java_awt_event_KeyEvent_VK_1, 0x12),
   (java_awt_event_KeyEvent_VK_AT, 0x13),
   (java_awt_event_KeyEvent_VK_2, 0x13),
   (java_awt_event_KeyEvent_VK_NUMBER_SIGN, 0x14),
   (java_awt_event_KeyEvent_VK_3, 0x14),
   (java_awt_event_KeyEvent_VK_DOLLAR, 0x15),
   (java_awt_event_KeyEvent_VK_4, 0x15),
   (java_awt_event_KeyEvent_VK_5, 0x16),
   (java_awt_event_KeyEvent_VK_CIRCUMFLEX, 0x17),
   (java_awt_event_KeyEvent_VK_6, 0x17),
   (java_awt_event_KeyEvent_VK_AMPERSAND, 0x18),
   (java_awt_event_KeyEvent_VK_7, 0x18),
   (java_awt_event_KeyEvent_VK_ASTERISK, 0x19),
   (java_awt_event_KeyEvent_VK_8, 0x19),
   (java_awt_event_KeyEvent_VK_LEFT_PARENTHESIS, 0x1a),
   (java_awt_event_KeyEvent_VK_9, 0x1a),
   (java_awt_event_KeyEvent_VK_RIGHT_PARENTHESIS, 0x1b),
   (java_awt_event_KeyEvent_VK_0, 0x1b),
   (java_awt_event_KeyEvent_VK_UNDERSCORE, 0x1c),
   (java_awt_event_KeyEvent_VK_MINUS, 0x1c),
   (java_awt_event_KeyEvent_VK_PLUS, 0x1d),
   (java_awt_event_KeyEvent_VK_EQUALS, 0x1d),
   (java_awt_event_KeyEvent_VK_BACK_SPACE, 0x1e),
   (java_awt_event_KeyEvent_VK_TAB, 0x26),
   (java_awt_event_KeyEvent_VK_Q, 0x27),
   (java_awt_event_KeyEvent_VK_W, 0x28),
   (java_awt_event_KeyEvent_VK_E, 0x29),
   (java_awt_event_KeyEvent_VK_R, 0x2a),
   (java_awt_event_KeyEvent_VK_T, 0x2b),
   (java_awt_event_KeyEvent_VK_Y, 0x2c),
   (java_awt_event_KeyEvent_VK_U, 0x2d),
   (java_awt_event_KeyEvent_VK_I, 0x2e),
   (java_awt_event_KeyEvent_VK_O, 0x2f),
   (java_awt_event_KeyEvent_VK_P, 0x30),
   (java_awt_event_KeyEvent_VK_BRACELEFT, 0x31),
   (java_awt_event_KeyEvent_VK_OPEN_BRACKET, 0x31),
   (java_awt_event_KeyEvent_VK_BRACERIGHT, 0x32),
   (java_awt_event_KeyEvent_VK_CLOSE_BRACKET, 0x32),
   (java_awt_event_KeyEvent_VK_SEPARATOR, 0x33),
   (java_awt_event_KeyEvent_VK_BACK_SLASH, 0x33),
   (java_awt_event_KeyEvent_VK_CAPS_LOCK, 0x3b),
   (java_awt_event_KeyEvent_VK_A, 0x3c),
   (java_awt_event_KeyEvent_VK_S, 0x3d),
   (java_awt_event_KeyEvent_VK_D, 0x3e),
   (java_awt_event_KeyEvent_VK_F, 0x3f),
   (java_awt_event_KeyEvent_VK_G, 0x40),
   (java_awt_event_KeyEvent_VK_H, 0x41),
   (java_awt_event_KeyEvent_VK_J, 0x42),
   (java_awt_event_KeyEvent_VK_K, 0x43),
   (java_awt_event_KeyEvent_VK_L, 0x44),
   (java_awt_event_KeyEvent_VK_COLON, 0x45),
   (java_awt_event_KeyEvent_VK_SEMICOLON, 0x45),
   (java_awt_event_KeyEvent_VK_QUOTEDBL, 0x46),
   (java_awt_event_KeyEvent_VK_QUOTE, 0x46),
   (java_awt_event_KeyEvent_VK_ENTER, 0x47),
   (java_awt_event_KeyEvent_VK_SHIFT, 0x4b),
   (java_awt_event_KeyEvent_VK_Z, 0x4c),
   (java_awt_event_KeyEvent_VK_X, 0x4d),
   (java_awt_event_KeyEvent_VK_C, 0x4e),
   (java_awt_event_KeyEvent_VK_V, 0x4f),
   (java_awt_event_KeyEvent_VK_B, 0x50),
   (java_awt_event_KeyEvent_VK_N, 0x51),
   (java_awt_event_KeyEvent_VK_M, 0x52),
   (java_awt_event_KeyEvent_VK_LESS, 0x53),
   (java_awt_event_KeyEvent_VK_COMMA, 0x53),
   (java_awt_event_KeyEvent_VK_GREATER, 0x54),
   (java_awt_event_KeyEvent_VK_PERIOD, 0x54),
   (java_awt_event_KeyEvent_VK_SLASH, 0x55),
   (java_awt_event_KeyEvent_VK_CONTROL, 0x5c),
   (java_awt_event_KeyEvent_VK_META, 0x66),
   (java_awt_event_KeyEvent_VK_ALT, 0x5d),
   (java_awt_event_KeyEvent_VK_SPACE, 0x5e),
   (java_awt_event_KeyEvent_VK_LEFT, 0x61),
   (java_awt_event_KeyEvent_VK_UP, 0x57),
   (java_awt_event_KeyEvent_VK_RIGHT, 0x63),
   (java_awt_event_KeyEvent_VK_DOWN, 0x62),
   (java_awt_event_KeyEvent_VK_NUMPAD0, 0x64),
   (java_awt_event_KeyEvent_VK_NUMPAD1, 0x58),
   (java_awt_event_KeyEvent_VK_KP_DOWN, 0x59),
   (java_awt_event_KeyEvent_VK_NUMPAD2, 0x59),
   (java_awt_event_KeyEvent_VK_NUMPAD3, 0x5a),
   (java_awt_event_KeyEvent_VK_KP_LEFT, 0x48),
   (java_awt_event_KeyEvent_VK_NUMPAD4, 0x48),
   (java_awt_event_KeyEvent_VK_NUMPAD5, 0x49),
   (java_awt_event_KeyEvent_VK_KP_RIGHT, 0x4a),
   (java_awt_event_KeyEvent_VK_NUMPAD6, 0x4a),
   (java_awt_event_KeyEvent_VK_NUMPAD7, 0x37),
   (java_awt_event_KeyEvent_VK_KP_UP, 0x38),
   (java_awt_event_KeyEvent_VK_NUMPAD8, 0x38),
   (java_awt_event_KeyEvent_VK_NUMPAD9, 0x39),
   (java_awt_event_KeyEvent_VK_MULTIPLY, 0x24),
   (java_awt_event_KeyEvent_VK_ADD, 0x3a),
   (java_awt_event_KeyEvent_VK_SUBTRACT, 0x25),
   (java_awt_event_KeyEvent_VK_DECIMAL, 0x65),
   (java_awt_event_KeyEvent_VK_DIVIDE, 0x23),
   (java_awt_event_KeyEvent_VK_PRINTSCREEN, 0x0e),
   (java_awt_event_KeyEvent_VK_PAUSE, 0x10),
   (java_awt_event_KeyEvent_VK_SCROLL_LOCK, 0x0f),
   (java_awt_event_KeyEvent_VK_NUM_LOCK, 0x22),
   (java_awt_event_KeyEvent_VK_PAGE_UP, 0x7f),
   (java_awt_event_KeyEvent_VK_PAGE_DOWN, 0x10),
   (java_awt_event_KeyEvent_VK_END, 0x0f),
   (java_awt_event_KeyEvent_VK_HOME, 0x0f),
   (java_awt_event_KeyEvent_VK_INSERT, 0x7e),
   (java_awt_event_KeyEvent_VK_DELETE, 0x65),
   (java_awt_event_KeyEvent_VK_UNDEFINED, 0)]

/-- The function `ConvertKeyCodeToNative`: the Haiku key code of a Java key code, 0 for the
Java code 0 and for every code without a case. -/
def ConvertKeyCodeToNative (jkeycode : Int) : Int :=
  if jkeycode = 0 then 0
  else (native_cases.lookup jkeycode).getD 0

/-- The cases of the switch in `ConvertKeyCodeToJava`: Haiku key code, then the values stored in
`*jkeyCode` and `*jkeyLocation`. -/
def java_cases : List (Int × Int × Int) :=
  [(0x01, java_awt_event_KeyEvent_VK_ESCAPE, java_awt_event_KeyEvent_KEY_LOCATION_STANDARD),
   (0x02, java_awt_event_KeyEvent_VK_F1, java_awt_event_KeyEvent_KEY_LOCATION_STANDARD),
   (0x03, java_awt_event_KeyEvent_VK_F2, java_awt_event_KeyEvent_KEY_LOCATION_STANDARD),
   (0x04, java_awt_event_KeyEvent_VK_F3, java_awt_event_KeyEvent_KEY_LOCATION_STANDARD),
   (0x05, java_awt_event_KeyEvent_VK_F4, java_awt_event_KeyEvent_KEY_LOCATION_STANDARD),
   (0x06, java_awt_event_KeyEvent_VK_F5, java_awt_event_KeyEvent_KEY_LOCATION_STANDARD),
   (0x07, java_awt_event_KeyEvent_VK_F6, java_awt_event_KeyEvent_KEY_LOCATION_STANDARD),
   (0x08, java_awt_event_KeyEvent_VK_F7, java_awt_event_KeyEvent_KEY_LOCATION_STANDARD),
   (0x09, java_awt_event_KeyEvent_VK_F8, java_awt_event_KeyEvent_KEY_LOCATION_STANDARD),
   (0x0a, java_awt_event_KeyEvent_VK_F9, java_awt_event_KeyEvent_KEY_LOCATION_STANDARD),
   (0x0b, java_awt_event_KeyEvent_VK_F10, java_awt_event_KeyEvent_KEY_LOCATION_STANDARD),
   (0x0c, java_awt_event_KeyEvent_VK_F11, java_awt_event_KeyEvent_KEY_LOCATION_STANDARD),
   (0x0d, java_awt_event_KeyEvent_VK_F12, java_awt_event_KeyEvent_KEY_LOCATION_STANDARD),
   (0x0e, java_awt_event_KeyEvent_VK_PRINTSCREEN, java_awt_event_KeyEvent_KEY_LOCATION_STANDARD),
   (0x0f, java_awt_event_KeyEvent_VK_SCROLL_LOCK, java_awt_event_KeyEvent_KEY_LOCATION_STANDARD),
   (0x10, java_awt_event_KeyEvent_VK_PAUSE, java_awt_event_KeyEvent_KEY_LOCATION_STANDARD),
   (0x11, java_awt_event_KeyEvent_VK_BACK_QUOTE, java_awt_event_KeyEvent_KEY_LOCATION_STANDARD),
   (0x12, java_awt_event_KeyEvent_VK_1, java_awt_event_KeyEvent_KEY_LOCATION_STANDARD),
   (0x13, java_awt_event_KeyEvent_VK_2, java_awt_event_KeyEvent_KEY_LOCATION_STANDARD),
   (0x14, java_awt_event_KeyEvent_VK_3, java_awt_event_KeyEvent_KEY_LOCATION_STANDARD),
   (0x15, java_awt_event_KeyEvent_VK_4, java_awt_event_KeyEvent_KEY_LOCATION_STANDARD),
   (0x16, java_awt_event_KeyEvent_VK_5, java_awt_event_KeyEvent_KEY_LOCATION_STANDARD),
   (0x17, java_awt_event_KeyEvent_VK_6, java_awt_event_KeyEvent_KEY_LOCATION_STANDARD),
   (0x18, java_awt_event_KeyEvent_VK_7, java_awt_event_KeyEvent_KEY_LOCATION_STANDARD),
   (0x19, java_awt_event_KeyEvent_VK_8, java_awt_event_KeyEvent_KEY_LOCATION_STANDARD),
   (0x1a, java_awt_event_KeyEvent_VK_9, java_awt_event_KeyEvent_KEY_LOCATION_STANDARD),
   (0x1b, java_awt_event_KeyEvent_VK_0, java_awt_event_KeyEvent_KEY_LOCATION_STANDARD),
   (0x1c, java_awt_event_KeyEvent_VK_MINUS, java_awt_event_KeyEvent_KEY_LOCATION_STANDARD),
   (0x1d, java_awt_event_KeyEvent_VK_EQUALS, java_awt_event_KeyEvent_KEY_LOCATION_STANDARD),
   (0x1e, java_awt_event_KeyEvent_VK_BACK_SPACE, java_awt_event_KeyEvent_KEY_LOCATION_STANDARD),
   (0x1f, java_awt_event_KeyEvent_VK_INSERT, java_awt_event_KeyEvent_KEY_LOCATION_STANDARD),
   (0x20, java_awt_event_KeyEvent_VK_HOME, java_awt_event_KeyEvent_KEY_LOCATION_STANDARD),
   (0x21, java_awt_event_KeyEvent_VK_PAGE_UP, java_awt_event_KeyEvent_KEY_LOCATION_STANDARD),
   (0x22, java_awt_event_KeyEvent_VK_NUM_LOCK, java_awt_event_KeyEvent_KEY_LOCATION_STANDARD),
   (0x23, java_awt_event_KeyEvent_VK_DIVIDE, java_awt_event_KeyEvent_KEY_LOCATION_NUMPAD),
   (0x24, java_awt_event_KeyEvent_VK_MULTIPLY, java_awt_event_KeyEvent_KEY_LOCATION_NUMPAD),
   (0x25, java_awt_event_KeyEvent_VK_SUBTRACT, java_awt_event_KeyEvent_KEY_LOCATION_NUMPAD),
   (0x26, java_awt_event_KeyEvent_VK_TAB, java_awt_event_KeyEvent_KEY_LOCATION_STANDARD),
   (0x27, java_awt_event_KeyEvent_VK_Q, java_awt_event_KeyEvent_KEY_LOCATION_STANDARD),
   (0x28, java_awt_event_KeyEvent_VK_W, java_awt_event_KeyEvent_KEY_LOCATION_STANDARD),
   (0x29, java_awt_event_KeyEvent_VK_E, java_awt_event_KeyEvent_KEY_LOCATION_STANDARD),
   (0x2a, java_awt_event_KeyEvent_VK_R, java_awt_event_KeyEvent_KEY_LOCATION_STANDARD),
   (0x2b, java_awt_event_KeyEvent_VK_T, java_awt_event_KeyEvent_KEY_LOCATION_STANDARD),
   (0x2c, java_awt_event_KeyEvent_VK_Y, java_awt_event_KeyEvent_KEY_LOCATION_STANDARD),
   (0x2d, java_awt_event_KeyEvent_VK_U, java_awt_event_KeyEvent_KEY_LOCATION_STANDARD),
   (0x2e, java_awt_event_KeyEvent_VK_I, java_awt_event_KeyEvent_KEY_LOCATION_STANDARD),
   (0x2f, java_awt_event_KeyEvent_VK_O, java_awt_event_KeyEvent_KEY_LOCATION_STANDARD),
   (0x30, java_awt_event_KeyEvent_VK_P, java_awt_event_KeyEvent_KEY_LOCATION_STANDARD),
   (0x31, java_awt_event_KeyEvent_VK_OPEN_BRACKET, java_awt_event_KeyEvent_KEY_LOCATION_STANDARD),
   (0x32, java_awt_event_KeyEvent_VK_CLOSE_BRACKET, java_awt_event_KeyEvent_KEY_LOCATION_STANDARD),
   (0x33, java_awt_event_KeyEvent_VK_BACK_SLASH, java_awt_event_KeyEvent_KEY_LOCATION_STANDARD),
   (0x34, java_awt_event_KeyEvent_VK_DELETE, java_awt_event_KeyEvent_KEY_LOCATION_STANDARD),
   (0x35, java_awt_event_KeyEvent_VK_END, java_awt_event_KeyEvent_KEY_LOCATION_STANDARD),
   (0x36, java_awt_event_KeyEvent_VK_PAGE_DOWN, java_awt_event_KeyEvent_KEY_LOCATION_STANDARD),
   (0x37, java_awt_event_KeyEvent_VK_NUMPAD7, java_awt_event_KeyEvent_KEY_LOCATION_STANDARD),
   (0x38, java_awt_event_KeyEvent_VK_NUMPAD8, java_awt_event_KeyEvent_KEY_LOCATION_STANDARD),
   (0x39, java_awt_event_KeyEvent_VK_NUMPAD9, java_awt_event_KeyEvent_KEY_LOCATION_STANDARD),
   (0x3a, java_awt_event_KeyEvent_VK_ADD, java_awt_event_KeyEvent_KEY_LOCATION_NUMPAD),
   (0x3b, java_awt_event_KeyEvent_VK_CAPS_LOCK, java_awt_event_KeyEvent_KEY_LOCATION_STANDARD),
   (0x3c, java_awt_event_KeyEvent_VK_A, java_awt_event_KeyEvent_KEY_LOCATION_STANDARD),
   (0x3d, java_awt_event_KeyEvent_VK_S, java_awt_event_KeyEvent_KEY_LOCATION_STANDARD),
   (0x3e, java_awt_event_KeyEvent_VK_D, java_awt_event_KeyEvent_KEY_LOCATION_STANDARD),
   (0x3f, java_awt_event_KeyEvent_VK_F, java_awt_event_KeyEvent_KEY_LOCATION_STANDARD),
   (0x40, java_awt_event_KeyEvent_VK_G, java_awt_event_KeyEvent_KEY_LOCATION_STANDARD),
   (0x41, java_awt_event_KeyEvent_VK_H, java_awt_event_KeyEvent_KEY_LOCATION_STANDARD),
   (0x42, java_awt_event_KeyEvent_VK_J, java_awt_event_KeyEvent_KEY_LOCATION_STANDARD),
   (0x43, java_awt_event_KeyEvent_VK_K, java_awt_event_KeyEvent_KEY_LOCATION_STANDARD),
   (0x44, java_awt_event_KeyEvent_VK_L, java_awt_event_KeyEvent_KEY_LOCATION_STANDARD),
   (0x45, java_awt_event_KeyEvent_VK_SEMICOLON, java_awt_event_KeyEvent_KEY_LOCATION_STANDARD),
   (0x46, java_awt_event_KeyEvent_VK_QUOTE, java_awt_event_KeyEvent_KEY_LOCATION_STANDARD),
   (0x47, java_awt_event_KeyEvent_VK_ENTER, java_awt_event_KeyEvent_KEY_LOCATION_STANDARD),
   (0x48, java_awt_event_KeyEvent_VK_NUMPAD4, java_awt_event_KeyEvent_KEY_LOCATION_STANDARD),
   (0x49, java_awt_event_KeyEvent_VK_NUMPAD5, java_awt_event_KeyEvent_KEY_LOCATION_STANDARD),
   (0x4a, java_awt_event_KeyEvent_VK_NUMPAD6, java_awt_event_KeyEvent_KEY_LOCATION_STANDARD),
   (0x4b, java_awt_event_KeyEvent_VK_SHIFT, java_awt_event_KeyEvent_KEY_LOCATION_LEFT),
   (0x4c, java_awt_event_KeyEvent_VK_Z, java_awt_event_KeyEvent_KEY_LOCATION_STANDARD),
   (0x4d, java_awt_event_KeyEvent_VK_X, java_awt_event_KeyEvent_KEY_LOCATION_STANDARD),
   (0x4e, java_awt_event_KeyEvent_VK_C, java_awt_event_KeyEvent_KEY_LOCATION_STANDARD),
   (0x4f, java_awt_event_KeyEvent_VK_V, java_awt_event_KeyEvent_KEY_LOCATION_STANDARD),
   (0x50, java_awt_event_KeyEvent_VK_B, java_awt_event_KeyEvent_KEY_LOCATION_STANDARD),
   (0x51, java_awt_event_KeyEvent_VK_N, java_awt_event_KeyEvent_KEY_LOCATION_STANDARD),
   (0x52, java_awt_event_KeyEvent_VK_M, java_awt_event_KeyEvent_KEY_LOCATION_STANDARD),
   (0x53, java_awt_event_KeyEvent_VK_COMMA, java_awt_event_KeyEvent_KEY_LOCATION_STANDARD),
   (0x54, java_awt_event_KeyEvent_VK_PERIOD, java_awt_event_KeyEvent_KEY_LOCATION_STANDARD),
   (0x55, java_awt_event_KeyEvent_VK_SLASH, java_awt_event_KeyEvent_KEY_LOCATION_STANDARD),
   (0x56, java_awt_event_KeyEvent_VK_SHIFT, java_awt_event_KeyEvent_KEY_LOCATION_RIGHT),
   (0x57, java_awt_event_KeyEvent_VK_UP, java_awt_event_KeyEvent_KEY_LOCATION_STANDARD),
   (0x58, java_awt_event_KeyEvent_VK_NUMPAD1, java_awt_event_KeyEvent_KEY_LOCATION_STANDARD),
   (0x59, java_awt_event_KeyEvent_VK_NUMPAD2, java_awt_event_KeyEvent_KEY_LOCATION_STANDARD),
   (0x5a, java_awt_event_KeyEvent_VK_NUMPAD3, java_awt_event_KeyEvent_KEY_LOCATION_STANDARD),
   (0x5b, java_awt_event_KeyEvent_VK_ENTER, java_awt_event_KeyEvent_KEY_LOCATION_NUMPAD),
   (0x5c, java_awt_event_KeyEvent_VK_CONTROL, java_awt_event_KeyEvent_KEY_LOCATION_LEFT),
   (0x5d, java_awt_event_KeyEvent_VK_ALT, java_awt_event_KeyEvent_KEY_LOCATION_LEFT),
   (0x5e, java_awt_event_KeyEvent_VK_SPACE, java_awt_event_KeyEvent_KEY_LOCATION_STANDARD),
   (0x5f, java_awt_event_KeyEvent_VK_ALT, java_awt_event_KeyEvent_KEY_LOCATION_RIGHT),
   (0x60, java_awt_event_KeyEvent_VK_CONTROL, java_awt_event_KeyEvent_KEY_LOCATION_RIGHT),
   (0x61, java_awt_event_KeyEvent_VK_LEFT, java_awt_event_KeyEvent_KEY_LOCATION_STANDARD),
   (0x62, java_awt_event_KeyEvent_VK_DOWN, java_awt_event_KeyEvent_KEY_LOCATION_STANDARD),
   (0x63, java_awt_event_KeyEvent_VK_RIGHT, java_awt_event_KeyEvent_KEY_LOCATION_STANDARD),
   (0x64, java_awt_event_KeyEvent_VK_NUMPAD0, java_awt_event_KeyEvent_KEY_LOCATION_STANDARD),
   (0x65, java_awt_event_KeyEvent_VK_DECIMAL, java_awt_event_KeyEvent_KEY_LOCATION_NUMPAD),
   (0x66, java_awt_event_KeyEvent_VK_META, java_awt_event_KeyEvent_KEY_LOCATION_LEFT),
   (0x67, java_awt_event_KeyEvent_VK_META, java_awt_event_KeyEvent_KEY_LOCATION_RIGHT),
   (0x68, java_awt_event_KeyEvent_VK_CONTEXT_MENU, java_awt_event_KeyEvent_KEY_LOCATION_STANDARD),
   (0x69, java_awt_event_KeyEvent_VK_EURO_SIGN, java_awt_event_KeyEvent_KEY_LOCATION_STANDARD)]

/-- The function `ConvertKeyCodeToJava`: the pair `(*jkeyCode, *jkeyLocation)` it leaves, which
is `(VK_UNDEFINED, KEY_LOCATION_STANDARD)` for a key code without a case. -/
def ConvertKeyCodeToJava (keycode : Int) : Int × Int :=
  (java_cases.lookup keycode).getD
    (java_awt_event_KeyEvent_VK_UNDEFINED, java_awt_event_KeyEvent_KEY_LOCATION_STANDARD)


/-- The six Java key codes whose native code `ConvertKeyCodeToJava` does not
convert back to them. -/
def round_trip_failures : List Int :=
  [java_awt_event_KeyEvent_VK_PAGE_UP, java_awt_event_KeyEvent_VK_PAGE_DOWN,
   java_awt_event_KeyEvent_VK_END, java_awt_event_KeyEvent_VK_HOME,
   java_awt_event_KeyEvent_VK_INSERT, java_awt_event_KeyEvent_VK_DELETE]

/-! ## Theorems -/

/-! ### Thread priorities -/

/-- C1: in the table as statically initialised and in the table left by
`prio_init` (whatever the flags, so with `UseCriticalJavaThreadPriority` off
or on), levels `L1 < L2` in `MinPriority..CriticalPriority` map to host
priorities in the same order. -/
theorem java_to_os_priority_monotone (f : Flags) (euid L1 L2 : Nat)
    (hmin : MinPriority ≤ L1) (hlt : L1 < L2) (hmax : L2 ≤ CriticalPriority) :
    java_to_os_priority.getD L1 0 ≤ java_to_os_priority.getD L2 0 ∧
    (prio_init f euid java_to_os_priority).table.getD L1 0 ≤
      (prio_init f euid java_to_os_priority).table.getD L2 0 := by
  simp only [MinPriority, CriticalPriority] at hmin hmax
  have h2 : L2 ≤ 11 := hmax
  have h1 : L1 ≤ 10 := by omega
  cases hc : f.UseCriticalJavaThreadPriority <;>
    simp only [prio_init, hc] <;>
    interval_cases L1 <;> interval_cases L2 <;>
    first | omega | decide

/-- Witness for C1 at levels 10 and 11 with the critical flag on. -/
theorem java_to_os_priority_monotone_witness :
    java_to_os_priority.getD 10 0 ≤ java_to_os_priority.getD 11 0 ∧
    (prio_init ⟨true, 1, false, true⟩ 0 java_to_os_priority).table.getD 10 0 ≤
      (prio_init ⟨true, 1, false, true⟩ 0 java_to_os_priority).table.getD 11 0 :=
  java_to_os_priority_monotone ⟨true, 1, false, true⟩ 0 10 11
    (by decide) (by decide) (by decide)

/-! ### Thread CPU time -/

/-- C2: at user time 5 µs and kernel time 3 µs the code returns 3000 ns with
the flag clear (not the user time, 5000) and 3000 ns with the flag set (not
user plus kernel, 8000): the value is the kernel time whenever
`user_time + flag` is non-zero. -/
theorem fast_thread_cpu_time_precedence :
    fast_thread_cpu_time ⟨10, 5, 3⟩ false = 3000 ∧
    fast_thread_cpu_time ⟨10, 5, 3⟩ false ≠ 5 * 1000 ∧
    fast_thread_cpu_time ⟨10, 5, 3⟩ true = 3000 ∧
    fast_thread_cpu_time ⟨10, 5, 3⟩ true ≠ (5 + 3) * 1000 := by
  decide

/-! ### Machine integers -/

theorem narrow_int_id (x : Int) (h1 : -2 ^ 31 ≤ x) (h2 : x < 2 ^ 31) : narrow_int x = x := by
  unfold narrow_int
  omega

/-! ### Rounding to pages -/

theorem align_down_eq (x n : Nat) : align_down x (2 ^ n) = x / 2 ^ n * 2 ^ n := by
  unfold align_down
  rw [Nat.and_pow_two_sub_one_eq_mod]
  have h := Nat.div_add_mod x (2 ^ n)
  have h2 : x / 2 ^ n * 2 ^ n = 2 ^ n * (x / 2 ^ n) := Nat.mul_comm _ _
  omega

theorem align_up_eq (x n : Nat) : align_up x (2 ^ n) = page_count (2 ^ n) x * 2 ^ n := by
  unfold align_up page_count
  rw [align_down_eq]

theorem le_page_count_mul (P x : Nat) (hP : 0 < P) : x ≤ page_count P x * P := by
  unfold page_count
  have h := Nat.div_add_mod (x + (P - 1)) P
  have h1 := Nat.mod_lt (x + (P - 1)) hP
  have h2 : (x + (P - 1)) / P * P = P * ((x + (P - 1)) / P) := Nat.mul_comm _ _
  omega

theorem page_count_le_of_le_mul (P x c : Nat) (hP : 0 < P) (h : x ≤ c * P) :
    page_count P x ≤ c := by
  unfold page_count
  have h1 : x + (P - 1) < (c + 1) * P := by
    have : (c + 1) * P = c * P + P := by ring
    omega
  have := (Nat.div_lt_iff_lt_mul hP).2 h1
  omega

theorem page_count_mul (P c : Nat) (hP : 0 < P) : page_count P (c * P) = c := by
  apply Nat.le_antisymm
  · exact page_count_le_of_le_mul P (c * P) c hP (Nat.le_refl _)
  · have := le_page_count_mul P (c * P) hP
    exact Nat.le_of_mul_le_mul_right this hP

theorem covers_iff_offset (P addr len p : Nat) :
    covers P addr len p ↔ ∃ i, i < page_count P len ∧ p = addr / P + i := by
  unfold covers
  constructor
  · rintro ⟨h1, h2⟩
    exact ⟨p - addr / P, by omega, by omega⟩
  · rintro ⟨i, hi, rfl⟩
    omega

/-- For a page-aligned range, the page of every address of the range is one of
the pages the kernel touches. -/
theorem covers_of_mem_range (P a s x : Nat) (hP : 0 < P) (ha : a % P = 0)
    (h1 : a ≤ x) (h2 : x < a + s) : covers P a s (x / P) := by
  unfold covers
  refine ⟨Nat.div_le_div_right h1, ?_⟩
  rw [Nat.div_lt_iff_lt_mul hP]
  have hle := le_page_count_mul P s hP
  have hdm := Nat.div_add_mod a P
  have hc : (a / P + page_count P s) * P = P * (a / P) + page_count P s * P := by ring
  omega

/-- For a page-aligned range, every page the kernel touches holds an address
of the range. -/
theorem covers_exists_addr (P a s p : Nat) (hP : 0 < P) (ha : a % P = 0)
    (h : covers P a s p) : ∃ x, a ≤ x ∧ x < a + s ∧ x / P = p := by
  obtain ⟨i, hi, rfl⟩ := (covers_iff_offset _ _ _ _).1 h
  refine ⟨(a / P + i) * P, ?_, ?_, Nat.mul_div_cancel _ hP⟩
  · have hdm := Nat.div_add_mod a P
    have hc : (a / P + i) * P = P * (a / P) + i * P := by ring
    omega
  · have hdm := Nat.div_add_mod a P
    have hc : (a / P + i) * P = P * (a / P) + i * P := by ring
    have hlt : i * P < s := by
      by_contra hcon
      have hge : s ≤ i * P := Nat.le_of_not_lt hcon
      have := page_count_le_of_le_mul P s i hP hge
      omega
    omega

/-! ### The kernel model -/

theorem hint_flags_not_fixed :
    (MAP_PRIVATE ||| MAP_NORESERVE ||| MAP_ANONYMOUS) &&& MAP_FIXED = 0 := by decide

theorem fixed_flags_fixed :
    (MAP_PRIVATE ||| MAP_FIXED ||| MAP_ANONYMOUS) &&& MAP_FIXED ≠ 0 := by decide

theorem all_free_covers (k : Kernel) (addr len p : Nat) (h : k.all_free addr len = true)
    (hp : covers k.page_size addr len p) : k.mem p = none := by
  obtain ⟨i, hi, rfl⟩ := (covers_iff_offset _ _ _ _).1 hp
  simp only [Kernel.all_free, List.all_eq_true, List.mem_range] at h
  simpa using h i hi

theorem all_mapped_covers (k : Kernel) (addr len p : Nat) (h : k.all_mapped addr len = true)
    (hp : covers k.page_size addr len p) : ∃ pg, k.mem p = some pg := by
  obtain ⟨i, hi, rfl⟩ := (covers_iff_offset _ _ _ _).1 hp
  simp only [Kernel.all_mapped, List.all_eq_true, List.mem_range] at h
  exact Option.isSome_iff_exists.1 (h i hi)

/-- What a hinted (not `MAP_FIXED`) mapping request does, case by case. -/
theorem sys_mmap_hint_cases (k : Kernel) (addr len prot : Nat) (ans : Placement) :
    let r := sys_mmap k addr len prot (MAP_PRIVATE ||| MAP_NORESERVE ||| MAP_ANONYMOUS) (-1) 0 ans
    r.2.page_size = k.page_size ∧
    r.2.calls = k.calls ++
      [Syscall.mmap addr len prot (MAP_PRIVATE ||| MAP_NORESERVE ||| MAP_ANONYMOUS) (-1) 0] ∧
    ((r.1 = none ∧ r.2.mem = k.mem) ∨
     (∃ a, r.1 = some a ∧ a ≠ 0 ∧ a % k.page_size = 0 ∧ len ≠ 0 ∧ k.all_free a len = true ∧
        r.2.mem = remap k.page_size k.mem a len fun _ => some (zero_page k.page_size prot))) := by
  intro r
  simp only [r, sys_mmap, hint_flags_not_fixed]
  by_cases hl : len = 0
  · simp [hl]
  · cases ans with
    | refuse => simp [hl]
    | place a =>
      by_cases hv : a = 0 ∨ a % k.page_size ≠ 0 ∨ k.all_free a len = false
      · simp [hl, hv]
      · simp only [hl, hv, if_false, ne_eq, not_true_eq_false]
        refine ⟨trivial, trivial, Or.inr ⟨a, rfl, ?_, ?_, ?_, ?_, rfl⟩⟩
        · exact fun h => hv (Or.inl h)
        · by_contra h
          exact hv (Or.inr (Or.inl h))
        · first
            | exact hl
            | exact not_false
        · by_contra h
          exact hv (Or.inr (Or.inr (by simpa using h)))

/-- Unmapping what a hinted mapping has just created restores the page table. -/
theorem remap_unmap_free (k : Kernel) (a len : Nat) (pg : Page)
    (h : k.all_free a len = true) (p : Nat) :
    remap k.page_size (remap k.page_size k.mem a len fun _ => some pg) a len (fun _ => none) p
      = k.mem p := by
  unfold remap
  by_cases hc : covers k.page_size a len p
  · simp [hc, all_free_covers k a len p h hc]
  · simp [hc]

/-- What a `MAP_FIXED` mapping request does, case by case. -/
theorem sys_mmap_fixed_cases (k : Kernel) (addr len prot : Nat) (ans : Placement) :
    let r := sys_mmap k addr len prot (MAP_PRIVATE ||| MAP_FIXED ||| MAP_ANONYMOUS) (-1) 0 ans
    r.2.page_size = k.page_size ∧
    r.2.calls = k.calls ++
      [Syscall.mmap addr len prot (MAP_PRIVATE ||| MAP_FIXED ||| MAP_ANONYMOUS) (-1) 0] ∧
    ((r.1 = none ∧ r.2.mem = k.mem) ∨
     (r.1 = some addr ∧ addr % k.page_size = 0 ∧ len ≠ 0 ∧
        r.2.mem = remap k.page_size k.mem addr len fun _ => some (zero_page k.page_size prot))) := by
  intro r
  simp only [r, sys_mmap, fixed_flags_fixed]
  by_cases hl : len = 0
  · simp [hl]
  · cases ans with
    | refuse => simp [hl]
    | place a =>
      by_cases hv : addr % k.page_size = 0
      · simp [hl, hv, fixed_flags_fixed]
      · simp [hl, hv, fixed_flags_fixed]

/-- A `MAP_FIXED` request leaves every page outside its range alone. -/
theorem sys_mmap_fixed_frame (k : Kernel) (addr len prot : Nat) (ans : Placement) (p : Nat)
    (hpos : 0 < k.page_size)
    (hp : ∀ y, addr ≤ y → y < addr + len → y / k.page_size ≠ p) :
    (sys_mmap k addr len prot (MAP_PRIVATE ||| MAP_FIXED ||| MAP_ANONYMOUS) (-1) 0 ans).2.mem p
      = k.mem p := by
  obtain ⟨_, _, hcase⟩ := sys_mmap_fixed_cases k addr len prot ans
  rcases hcase with ⟨_, hmem⟩ | ⟨_, hal, _, hmem⟩
  · rw [hmem]
  · rw [hmem]
    have hc : ¬ covers k.page_size addr len p := fun h => by
      obtain ⟨x, h1, h2, h3⟩ := covers_exists_addr _ addr len p hpos hal h
      exact hp x h1 h2 h3
    simp [remap, hc]

/-- A successful `MAP_FIXED` request puts a fresh page under every address of
its range. -/
theorem sys_mmap_fixed_in (k : Kernel) (addr len prot : Nat) (ans : Placement) (x : Nat)
    (hpos : 0 < k.page_size)
    (hok : (sys_mmap k addr len prot (MAP_PRIVATE ||| MAP_FIXED ||| MAP_ANONYMOUS) (-1) 0 ans).1
      ≠ none)
    (h1 : addr ≤ x) (h2 : x < addr + len) :
    (sys_mmap k addr len prot (MAP_PRIVATE ||| MAP_FIXED ||| MAP_ANONYMOUS) (-1) 0 ans).2.mem
      (x / k.page_size) = some (zero_page k.page_size prot) := by
  obtain ⟨_, _, hcase⟩ := sys_mmap_fixed_cases k addr len prot ans
  rcases hcase with ⟨hnone, _⟩ | ⟨_, hal, _, hmem⟩
  · exact absurd hnone hok
  · rw [hmem]
    simp [remap, covers_of_mem_range _ addr len x hpos hal h1 h2]

/-- A page mapped before a `MAP_FIXED` request is mapped after it. -/
theorem sys_mmap_fixed_keeps (k : Kernel) (addr len prot : Nat) (ans : Placement) (p : Nat)
    (h : (k.mem p).isSome = true) :
    ((sys_mmap k addr len prot (MAP_PRIVATE ||| MAP_FIXED ||| MAP_ANONYMOUS) (-1) 0 ans).2.mem
      p).isSome = true := by
  obtain ⟨_, _, hcase⟩ := sys_mmap_fixed_cases k addr len prot ans
  rcases hcase with ⟨_, hmem⟩ | ⟨_, _, _, hmem⟩
  · rw [hmem]; exact h
  · rw [hmem]
    unfold remap
    split
    · rfl
    · exact h

/-- A read of a no-access page faults. -/
theorem read_byte_no_access (k : Kernel) (x : Nat) (data : List Nat)
    (h : k.mem (x / k.page_size) = some { prot := PROT_NONE, data := data }) :
    read_byte k x = none := by
  simp only [read_byte, h]
  rfl

/-! ### Reserving at an exact address -/

/-- C3: whatever the kernel answers to the hinted `mmap`,
`os::pd_attempt_reserve_memory_at` returns `requested_addr`, leaving the new
mapping in place, when the kernel put the mapping at `requested_addr`; in every
other case it returns NULL, has issued `munmap(addr, bytes)` for the mapping
the kernel did create (and nothing when the kernel refused), and the page table
is what it was before the call.  For a non-null request the result is
`requested_addr` exactly when the kernel placed the mapping there. -/
theorem pd_attempt_reserve_memory_at_exact (k : Kernel) (requested_addr bytes : Nat)
    (exec : Bool) (ans : Placement) :
    (∀ r, r = sys_mmap k requested_addr bytes PROT_NONE
          (MAP_PRIVATE ||| MAP_NORESERVE ||| MAP_ANONYMOUS) (-1) 0 ans →
      (r.1 = some requested_addr →
        (pd_attempt_reserve_memory_at k requested_addr bytes exec ans).1 = requested_addr ∧
        (pd_attempt_reserve_memory_at k requested_addr bytes exec ans).2.calls =
          k.calls ++ [Syscall.mmap requested_addr bytes PROT_NONE
            (MAP_PRIVATE ||| MAP_NORESERVE ||| MAP_ANONYMOUS) (-1) 0] ∧
        ∀ p, (pd_attempt_reserve_memory_at k requested_addr bytes exec ans).2.mem p =
          if covers k.page_size requested_addr bytes p
            then some (zero_page k.page_size PROT_NONE) else k.mem p) ∧
      (r.1 ≠ some requested_addr →
        (pd_attempt_reserve_memory_at k requested_addr bytes exec ans).1 = 0 ∧
        (pd_attempt_reserve_memory_at k requested_addr bytes exec ans).2.calls =
          k.calls ++ Syscall.mmap requested_addr bytes PROT_NONE
            (MAP_PRIVATE ||| MAP_NORESERVE ||| MAP_ANONYMOUS) (-1) 0 ::
            (match r.1 with
             | some addr => [Syscall.munmap addr bytes]
             | none => []) ∧
        ∀ p, (pd_attempt_reserve_memory_at k requested_addr bytes exec ans).2.mem p = k.mem p) ∧
      (requested_addr ≠ 0 →
        ((pd_attempt_reserve_memory_at k requested_addr bytes exec ans).1 = requested_addr ↔
          r.1 = some requested_addr))) := by
  intro r hr
  obtain ⟨hps, hcalls, hcase⟩ := sys_mmap_hint_cases k requested_addr bytes PROT_NONE ans
  simp only [← hr] at hps hcalls hcase
  rcases hcase with ⟨hnone, hmem⟩ | ⟨a, hsome, ha0, hal, hlen, hfree, hmem⟩
  · -- the kernel refused
    have h1 : (anon_mmap k requested_addr bytes exec ans) = (0, r.2) := by
      simp only [anon_mmap, ← hr, hnone]
    refine ⟨fun h => by simp [hnone] at h, fun _ => ?_, fun hreq => ?_⟩
    · by_cases h0 : (0 : Nat) = requested_addr
      · subst h0
        simp [pd_attempt_reserve_memory_at, h1, hcalls, hnone, hmem]
      · simp [pd_attempt_reserve_memory_at, h1, h0, hcalls, hnone, hmem]
    · have h0 : ¬ (0 : Nat) = requested_addr := fun h => hreq h.symm
      simp [pd_attempt_reserve_memory_at, h1, h0, hnone, hreq]
  · -- the kernel placed the mapping at `a`
    have h1 : (anon_mmap k requested_addr bytes exec ans) = (a, r.2) := by
      simp only [anon_mmap, ← hr, hsome]
    by_cases heq : a = requested_addr
    · subst heq
      refine ⟨fun _ => ?_, fun h => absurd hsome h, fun _ => ?_⟩
      · simp [pd_attempt_reserve_memory_at, h1, hcalls, hmem, remap]
      · simp [pd_attempt_reserve_memory_at, h1, hsome]
    · have hne : ¬ some a = some requested_addr := fun h => heq (Option.some.inj h)
      refine ⟨fun h => absurd (hsome ▸ h) hne, fun _ => ?_, fun hreq => ?_⟩
      · have hun : a % r.2.page_size = 0 := by rw [hps]; exact hal
        refine ⟨?_, ?_, ?_⟩
        · simp [pd_attempt_reserve_memory_at, h1, heq, ha0]
        · simp [pd_attempt_reserve_memory_at, h1, heq, ha0, anon_munmap, sys_munmap, hun,
            hlen, hcalls, hsome]
        · intro p
          have hm : (anon_munmap r.2 a bytes).2.mem = remap k.page_size
              (remap k.page_size k.mem a bytes fun _ => some (zero_page k.page_size PROT_NONE))
              a bytes (fun _ => none) := by
            simp [anon_munmap, sys_munmap, hun, hal, hlen, hps, hmem]
          simp only [pd_attempt_reserve_memory_at, h1, heq, ha0, if_false, ne_eq,
            not_false_eq_true, if_true, hm]
          exact remap_unmap_free k a bytes _ hfree p
      · simp [pd_attempt_reserve_memory_at, h1, heq, ha0, hsome, Ne.symm hreq]

/-- Witness for C3: the kernel puts a 3-page request for address 4096 at 8192;
the port returns NULL after unmapping it. -/
theorem pd_attempt_reserve_memory_at_exact_witness :
    (pd_attempt_reserve_memory_at empty_kernel 4096 12288 false (Placement.place 8192)).1 = 0 ∧
    (pd_attempt_reserve_memory_at empty_kernel 4096 12288 false (Placement.place 8192)).2.calls =
      [Syscall.mmap 4096 12288 0 26 (-1) 0, Syscall.munmap 8192 12288] ∧
    (pd_attempt_reserve_memory_at empty_kernel 4096 12288 false (Placement.place 8192)).2.mem 2
      = none := by
  have h := (pd_attempt_reserve_memory_at_exact empty_kernel 4096 12288 false
    (Placement.place 8192) _ rfl).2.1 (by decide)
  exact ⟨h.1, h.2.1, h.2.2 2⟩

/-! ### Protection -/

/-- The one call `haiku_mprotect` issues. -/
theorem haiku_mprotect_calls (b : Build) (k : Kernel) (addr size prot : Nat) (refuse : Bool) :
    (haiku_mprotect b k addr size prot refuse).2.calls =
      k.calls ++ [Syscall.mprotect (haiku_mprotect_range b k.page_size addr size).1
        (haiku_mprotect_range b k.page_size addr size).2 prot] := by
  simp only [haiku_mprotect, sys_mprotect]
  split <;> rfl

/-- When neither sum of `haiku_mprotect` wraps, the range is the address
rounded down and the distance to the end rounded up. -/
theorem haiku_mprotect_range_fit (b : Build) (n addr size : Nat)
    (hfit : addr % 2 ^ n + size + (2 ^ n - 1) < 2 ^ b.size_bits) :
    haiku_mprotect_range b (2 ^ n) addr size =
      (addr / 2 ^ n * 2 ^ n, page_count (2 ^ n) (addr % 2 ^ n + size) * 2 ^ n) := by
  have hdm := Nat.div_add_mod addr (2 ^ n)
  have hcomm : addr / 2 ^ n * 2 ^ n = 2 ^ n * (addr / 2 ^ n) := Nat.mul_comm _ _
  have hd : addr - addr / 2 ^ n * 2 ^ n = addr % 2 ^ n := by omega
  simp only [haiku_mprotect_range, align_down_eq, pointer_delta, Nat.div_one, hd]
  have h1 : (addr % 2 ^ n + size) % 2 ^ b.size_bits = addr % 2 ^ n + size :=
    Nat.mod_eq_of_lt (by omega)
  rw [h1, Nat.mod_eq_of_lt hfit]
  rfl

/-- The range computed for a page-aligned address. -/
theorem haiku_mprotect_range_aligned (b : Build) (n a s : Nat) (ha : a % 2 ^ n = 0)
    (hfit : s + (2 ^ n - 1) < 2 ^ b.size_bits) :
    haiku_mprotect_range b (2 ^ n) a s = (a, page_count (2 ^ n) s * 2 ^ n) := by
  have hdm := Nat.div_add_mod a (2 ^ n)
  have hcomm : a / 2 ^ n * 2 ^ n = 2 ^ n * (a / 2 ^ n) := Nat.mul_comm _ _
  rw [haiku_mprotect_range_fit b n a s (by omega), ha, Nat.zero_add]
  congr 1
  omega

/-- A successful `haiku_mprotect` on a page-aligned address: every page of the
range was mapped and now has the new protection and its old bytes; every other
page is untouched. -/
theorem haiku_mprotect_aligned_ok (b : Build) (k : Kernel) (n a s prot : Nat) (refuse : Bool)
    (hP : k.page_size = 2 ^ n) (ha : a % k.page_size = 0)
    (hfit : s + (k.page_size - 1) < 2 ^ b.size_bits)
    (hok : (haiku_mprotect b k a s prot refuse).1 = true) :
    (haiku_mprotect b k a s prot refuse).2.page_size = k.page_size ∧
    (∀ p, covers k.page_size a s p → ∃ pg, k.mem p = some pg ∧
      (haiku_mprotect b k a s prot refuse).2.mem p = some { pg with prot := prot }) ∧
    (∀ p, ¬ covers k.page_size a s p →
      (haiku_mprotect b k a s prot refuse).2.mem p = k.mem p) := by
  have hpos : 0 < 2 ^ n := Nat.pow_pos (by decide)
  have hr : haiku_mprotect_range b k.page_size a s =
      (a, page_count k.page_size s * k.page_size) := by
    rw [hP] at ha hfit ⊢
    exact haiku_mprotect_range_aligned b n a s ha hfit
  have hcov : ∀ p, covers k.page_size a (page_count k.page_size s * k.page_size) p ↔
      covers k.page_size a s p := by
    intro p
    unfold covers
    rw [page_count_mul _ _ (hP ▸ hpos)]
  simp only [haiku_mprotect, sys_mprotect, hr] at hok ⊢
  by_cases hv : refuse = true ∨ a % k.page_size ≠ 0 ∨
      k.all_mapped a (page_count k.page_size s * k.page_size) = false
  · simp [hv] at hok
  · simp only [hv, if_false]
    have hm : k.all_mapped a (page_count k.page_size s * k.page_size) = true := by
      by_contra h
      exact hv (Or.inr (Or.inr (by simpa using h)))
    refine ⟨trivial, fun p hp => ?_, fun p hp => ?_⟩
    · have hp1 := (hcov p).2 hp
      obtain ⟨pg, hpg⟩ := all_mapped_covers k a _ p hm hp1
      exact ⟨pg, hpg, by simp [remap, hp1, hpg]⟩
    · have hp1 : ¬ covers k.page_size a (page_count k.page_size s * k.page_size) p :=
        fun h => hp ((hcov p).1 h)
      simp [remap, hp1]

theorem effective_mode_prot_bits (mode : ProtType) : effective_mode (prot_bits mode) = some mode := by
  cases mode <;> decide

/-- C4 as stated fails where a `size_t` sum of `haiku_mprotect` wraps: with
4096-byte pages, address 8200 and size 2^64 - 1 on the 64-bit build (2^32 - 1
on the 32-bit build) the kernel is handed `mprotect(8192, 4096, prot)`, where
`align_up((addr - bottom) + size)` without the wrap is 2^64 + 4096, and
`[8192, 8192 + 4096)` does not contain `[addr, addr + size)`; for the aligned
address 8192 and the same size the length handed over is 0, not
`align_up(size)`. -/
theorem haiku_mprotect_range_wraps :
    haiku_mprotect_range Build.AMD64 4096 8200 (2 ^ 64 - 1) = (8192, 4096) ∧
    (haiku_mprotect Build.AMD64 empty_kernel 8200 (2 ^ 64 - 1) PROT_NONE false).2.calls =
      [Syscall.mprotect 8192 4096 0] ∧
    align_up ((8200 - 8192) + (2 ^ 64 - 1)) 4096 = 2 ^ 64 + 4096 ∧
    ¬ (8200 + (2 ^ 64 - 1) ≤ 8192 + 4096) ∧
    haiku_mprotect_range Build.IA32 4096 8200 (2 ^ 32 - 1) = (8192, 4096) ∧
    ¬ (8200 + (2 ^ 32 - 1) ≤ 8192 + 4096) ∧
    haiku_mprotect_range Build.AMD64 4096 8192 (2 ^ 64 - 1) = (8192, 0) ∧
    align_up (2 ^ 64 - 1) 4096 = 2 ^ 64 := by
  decide

/-- C4, as the code has it: for a page size that is a power of two and an
address and size whose sums in `haiku_mprotect` do not wrap as `size_t` values
(`(addr - bottom) + size + (page size - 1) < 2 ^ size_bits`), the one call
`haiku_mprotect` hands the kernel is `mprotect(bottom, len, prot)` with `bottom`
the address rounded down to a page boundary and
`len = align_up((addr - bottom) + size)`; `len` is a multiple of the page size,
the range `[addr, addr+size)` lies in `[bottom, bottom+len)`, no smaller
multiple does, and for an aligned address `bottom = addr` and
`len = align_up(size)`. -/
theorem haiku_mprotect_range_spec (b : Build) (k : Kernel) (n addr size prot : Nat)
    (refuse : Bool) (hP : k.page_size = 2 ^ n)
    (hfit : addr % k.page_size + size + (k.page_size - 1) < 2 ^ b.size_bits) :
    (haiku_mprotect b k addr size prot refuse).2.calls =
      k.calls ++ [Syscall.mprotect (haiku_mprotect_range b k.page_size addr size).1
        (haiku_mprotect_range b k.page_size addr size).2 prot] ∧
    (haiku_mprotect_range b k.page_size addr size).1 = align_down addr k.page_size ∧
    (haiku_mprotect_range b k.page_size addr size).2 =
      align_up ((addr - (haiku_mprotect_range b k.page_size addr size).1) + size) k.page_size ∧
    (k.page_size ∣ (haiku_mprotect_range b k.page_size addr size).1 ∧
      (haiku_mprotect_range b k.page_size addr size).1 ≤ addr ∧
      addr < (haiku_mprotect_range b k.page_size addr size).1 + k.page_size) ∧
    k.page_size ∣ (haiku_mprotect_range b k.page_size addr size).2 ∧
    addr + size ≤ (haiku_mprotect_range b k.page_size addr size).1 +
      (haiku_mprotect_range b k.page_size addr size).2 ∧
    (∀ m, k.page_size ∣ m →
      addr + size ≤ (haiku_mprotect_range b k.page_size addr size).1 + m →
      (haiku_mprotect_range b k.page_size addr size).2 ≤ m) ∧
    (addr % k.page_size = 0 →
      (haiku_mprotect_range b k.page_size addr size).1 = addr ∧
      (haiku_mprotect_range b k.page_size addr size).2 = align_up size k.page_size) := by
  have hpos : 0 < 2 ^ n := Nat.pow_pos (by decide)
  have hdm := Nat.div_add_mod addr (2 ^ n)
  have hml := Nat.mod_lt addr hpos
  have hcomm : addr / 2 ^ n * 2 ^ n = 2 ^ n * (addr / 2 ^ n) := Nat.mul_comm _ _
  rw [hP] at hfit
  have hr := haiku_mprotect_range_fit b n addr size hfit
  have hb : (haiku_mprotect_range b (2 ^ n) addr size).1 = addr / 2 ^ n * 2 ^ n := by rw [hr]
  have hl : (haiku_mprotect_range b (2 ^ n) addr size).2 =
      page_count (2 ^ n) (addr % 2 ^ n + size) * 2 ^ n := by rw [hr]
  have hle := le_page_count_mul (2 ^ n) (addr % 2 ^ n + size) hpos
  have h := haiku_mprotect_calls b k addr size prot refuse
  rw [hP] at h ⊢
  rw [hb, hl] at h ⊢
  refine ⟨h, ?_, ?_, ⟨?_, ?_, ?_⟩, ?_, ?_, ?_, ?_⟩
  · rw [align_down_eq]
  · rw [align_up_eq]
    congr 2
    omega
  · exact Dvd.intro_left _ rfl
  · omega
  · omega
  · exact Dvd.intro_left _ rfl
  · omega
  · rintro m ⟨c, rfl⟩ hm
    have hc : addr % 2 ^ n + size ≤ c * 2 ^ n := by
      have : c * 2 ^ n = 2 ^ n * c := Nat.mul_comm _ _
      omega
    have := page_count_le_of_le_mul (2 ^ n) _ c hpos hc
    calc page_count (2 ^ n) (addr % 2 ^ n + size) * 2 ^ n ≤ c * 2 ^ n :=
          Nat.mul_le_mul_right _ this
      _ = 2 ^ n * c := Nat.mul_comm _ _
  · intro ha
    refine ⟨by omega, ?_⟩
    rw [align_up_eq, ha, Nat.zero_add]

/-- Witness for C4: 4096-byte pages, address 8200, size 4096, on both builds. -/
theorem haiku_mprotect_range_spec_witness :
    (haiku_mprotect_range Build.AMD64 4096 8200 4096).1 = 8192 ∧
    (haiku_mprotect_range Build.AMD64 4096 8200 4096).2 = 8192 ∧
    (haiku_mprotect Build.AMD64 empty_kernel 8200 4096 PROT_NONE false).2.calls =
      [Syscall.mprotect 8192 8192 0] ∧
    (haiku_mprotect Build.IA32 empty_kernel 8200 4096 PROT_NONE false).2.calls =
      [Syscall.mprotect 8192 8192 0] :=
  ⟨by decide, by decide,
    (haiku_mprotect_range_spec Build.AMD64 empty_kernel 12 8200 4096 PROT_NONE false
      (by decide) (by decide)).1,
    (haiku_mprotect_range_spec Build.IA32 empty_kernel 12 8200 4096 PROT_NONE false
      (by decide) (by decide)).1⟩

/-- C5 as stated fails where the rounding up of the size wraps as a `size_t`:
on the 64-bit build with 4096-byte pages, `os::protect_memory` at the aligned
address 8192 with size 2^64 - 1 and mode `MEM_PROT_NONE` hands the kernel
`mprotect(8192, 0, PROT_NONE)`, which succeeds and changes no page, so the call
returns true while the page at 8192 is still read-write. -/
theorem protect_memory_wraps :
    (protect_memory Build.AMD64 committed_kernel 8192 (2 ^ 64 - 1) ProtType.MEM_PROT_NONE
      true false).1 = true ∧
    (protect_memory Build.AMD64 committed_kernel 8192 (2 ^ 64 - 1) ProtType.MEM_PROT_NONE
      true false).2.calls = committed_kernel.calls ++ [Syscall.mprotect 8192 0 PROT_NONE] ∧
    (protect_memory Build.AMD64 committed_kernel 8192 (2 ^ 64 - 1) ProtType.MEM_PROT_NONE
      true false).2.mem (8192 / 4096) = some (zero_page 4096 (PROT_READ ||| PROT_WRITE)) ∧
    effective_mode (zero_page 4096 (PROT_READ ||| PROT_WRITE)).prot =
      some ProtType.MEM_PROT_RW ∧
    read_byte (protect_memory Build.AMD64 committed_kernel 8192 (2 ^ 64 - 1)
      ProtType.MEM_PROT_NONE true false).2 8192 = some 0 := by
  refine ⟨?_, ?_, ?_, ?_, ?_⟩ <;> rfl

/-- C5, as the code has it: `os::protect_memory` hands the kernel protection none, read,
read+write, read+write+execute for the four modes, a translation that is
injective and does not depend on `is_committed`; and after a successful call on
a page-aligned address, with a size whose rounding up does not wrap as a
`size_t`, every page of the range is mapped with the protection of the mode, so
that reading the protection back yields the mode. -/
theorem protect_memory_sets_mode (b : Build) (k : Kernel) (n a s : Nat) (mode : ProtType)
    (is_committed refuse : Bool)
    (hP : k.page_size = 2 ^ n) (ha : a % k.page_size = 0)
    (hfit : s + (k.page_size - 1) < 2 ^ b.size_bits)
    (hok : (protect_memory b k a s mode is_committed refuse).1 = true) :
    (prot_bits ProtType.MEM_PROT_NONE = PROT_NONE ∧
      prot_bits ProtType.MEM_PROT_READ = PROT_READ ∧
      prot_bits ProtType.MEM_PROT_RW = PROT_READ ||| PROT_WRITE ∧
      prot_bits ProtType.MEM_PROT_RWX = PROT_READ ||| PROT_WRITE ||| PROT_EXEC) ∧
    Function.Injective prot_bits ∧
    (∀ c, protect_memory b k a s mode c refuse = protect_memory b k a s mode is_committed refuse) ∧
    (protect_memory b k a s mode is_committed refuse).2.calls =
      k.calls ++ [Syscall.mprotect a (align_up s k.page_size) (prot_bits mode)] ∧
    (∀ x, a ≤ x → x < a + s → ∃ pg,
      (protect_memory b k a s mode is_committed refuse).2.mem (x / k.page_size) = some pg ∧
      pg.prot = prot_bits mode ∧ effective_mode pg.prot = some mode) := by
  have hpos : 0 < k.page_size := hP ▸ Nat.pow_pos (by decide)
  refine ⟨⟨rfl, rfl, rfl, rfl⟩, ?_, fun _ => rfl, ?_, ?_⟩
  · intro m1 m2 h
    have := congrArg effective_mode h
    rw [effective_mode_prot_bits, effective_mode_prot_bits] at this
    exact Option.some.inj this
  · have h := haiku_mprotect_calls b k a s (prot_bits mode) refuse
    have hr : haiku_mprotect_range b k.page_size a s = (a, align_up s k.page_size) := by
      rw [hP] at ha hfit ⊢
      rw [haiku_mprotect_range_aligned b n a s ha hfit, align_up_eq]
    rw [hr] at h
    exact h
  · intro x h1 h2
    unfold protect_memory at hok ⊢
    obtain ⟨_, hin, _⟩ :=
      haiku_mprotect_aligned_ok b k n a s (prot_bits mode) refuse hP ha hfit hok
    obtain ⟨pg, _, hpg⟩ := hin _ (covers_of_mem_range _ a s x hpos ha h1 h2)
    exact ⟨_, hpg, rfl, effective_mode_prot_bits mode⟩

/-- Witness for C5: one committed page at 8192 set to read-only. -/
theorem protect_memory_sets_mode_witness :
    ∃ pg, (protect_memory Build.AMD64 committed_kernel 8192 4096 ProtType.MEM_PROT_READ true
        false).2.mem (8192 / 4096) = some pg ∧
      pg.prot = PROT_READ ∧ effective_mode pg.prot = some ProtType.MEM_PROT_READ :=
  (protect_memory_sets_mode Build.AMD64 committed_kernel 12 8192 4096 ProtType.MEM_PROT_READ
    true false (by decide) (by decide) (by decide) (by decide)).2.2.2.2 8192 (by decide)
    (by decide)

/-- C7: `os::pd_reserve_memory` returns NULL exactly when the kernel refuses
the mapping; after a successful reservation every page of the returned range is
mapped no-access, so a read faults; and a following `os::pd_commit_memory`
changes no page outside its own sub-range, so a page of the reservation outside
the committed sub-range is still no-access and a read of it still faults. -/
theorem reserve_commit_frame (k : Kernel) (bytes : Nat) (exec : Bool) (ans : Placement)
    (hpos : 0 < k.page_size) :
    ((pd_reserve_memory k bytes exec ans).1 = 0 ↔
      (sys_mmap k 0 bytes PROT_NONE (MAP_PRIVATE ||| MAP_NORESERVE ||| MAP_ANONYMOUS)
        (-1) 0 ans).1 = none) ∧
    ((pd_reserve_memory k bytes exec ans).1 ≠ 0 →
      ∀ x, (pd_reserve_memory k bytes exec ans).1 ≤ x →
        x < (pd_reserve_memory k bytes exec ans).1 + bytes →
        (pd_reserve_memory k bytes exec ans).2.mem (x / k.page_size) =
          some (zero_page k.page_size PROT_NONE) ∧
        read_byte (pd_reserve_memory k bytes exec ans).2 x = none ∧
        ∀ addr size exec2 ans2,
          (∀ y, addr ≤ y → y < addr + size → y / k.page_size ≠ x / k.page_size) →
          (pd_commit_memory (pd_reserve_memory k bytes exec ans).2 addr size exec2 ans2).2.mem
            (x / k.page_size) = some (zero_page k.page_size PROT_NONE) ∧
          read_byte (pd_commit_memory (pd_reserve_memory k bytes exec ans).2
            addr size exec2 ans2).2 x = none) ∧
    (∀ addr size exec2 ans2 p,
      (∀ y, addr ≤ y → y < addr + size → y / k.page_size ≠ p) →
      (pd_commit_memory (pd_reserve_memory k bytes exec ans).2 addr size exec2 ans2).2.mem p =
        (pd_reserve_memory k bytes exec ans).2.mem p) := by
  obtain ⟨hps, _, hcase⟩ := sys_mmap_hint_cases k 0 bytes PROT_NONE ans
  have hframe : ∀ addr size exec2 ans2 p,
      (∀ y, addr ≤ y → y < addr + size → y / k.page_size ≠ p) →
      (pd_commit_memory (pd_reserve_memory k bytes exec ans).2 addr size exec2 ans2).2.mem p =
        (pd_reserve_memory k bytes exec ans).2.mem p := by
    intro addr size exec2 ans2 p hp
    simp only [pd_commit_memory]
    apply sys_mmap_fixed_frame
    · simp only [pd_reserve_memory, anon_mmap]
      rw [hps]; exact hpos
    · simp only [pd_reserve_memory, anon_mmap]
      rw [hps]; exact hp
  have hcps : ∀ addr size exec2 ans2,
      (pd_commit_memory (pd_reserve_memory k bytes exec ans).2 addr size exec2 ans2).2.page_size
        = k.page_size := by
    intro addr size exec2 ans2
    simp only [pd_commit_memory]
    rw [(sys_mmap_fixed_cases _ addr size _ ans2).1]
    simp only [pd_reserve_memory, anon_mmap]
    exact hps
  refine ⟨?_, ?_, hframe⟩
  · rcases hcase with ⟨hnone, _⟩ | ⟨a, hsome, ha0, _⟩
    · simp [pd_reserve_memory, anon_mmap, hnone]
    · simp [pd_reserve_memory, anon_mmap, hsome, ha0]
  · intro hne x h1 h2
    rcases hcase with ⟨hnone, _⟩ | ⟨a, hsome, ha0, hal, _, _, hmem⟩
    · simp [pd_reserve_memory, anon_mmap, hnone] at hne
    · have hres : (pd_reserve_memory k bytes exec ans).1 = a := by
        simp [pd_reserve_memory, anon_mmap, hsome]
      rw [hres] at h1 h2
      have hpage : (pd_reserve_memory k bytes exec ans).2.mem (x / k.page_size) =
          some (zero_page k.page_size PROT_NONE) := by
        simp only [pd_reserve_memory, anon_mmap]
        rw [hmem]
        simp [remap, covers_of_mem_range _ a bytes x hpos hal h1 h2]
      have hrps : (pd_reserve_memory k bytes exec ans).2.page_size = k.page_size := by
        simp only [pd_reserve_memory, anon_mmap]
        exact hps
      refine ⟨hpage, ?_, fun addr size exec2 ans2 hp => ?_⟩
      · apply read_byte_no_access _ _ (List.replicate k.page_size 0)
        rw [hrps]; exact hpage
      · have hkeep := (hframe addr size exec2 ans2 _ hp).trans hpage
        refine ⟨hkeep, ?_⟩
        apply read_byte_no_access _ _ (List.replicate k.page_size 0)
        rw [hcps]; exact hkeep

/-- Witness for C7 (scenario B): three pages reserved at 8192, only the second
committed; a read of the first page faults and a read of the third faults. -/
theorem reserve_commit_frame_witness :
    read_byte (pd_commit_memory (pd_reserve_memory empty_kernel 12288 false
      (Placement.place 8192)).2 12288 4096 false (Placement.place 12288)).2 8192 = none ∧
    read_byte (pd_commit_memory (pd_reserve_memory empty_kernel 12288 false
      (Placement.place 8192)).2 12288 4096 false (Placement.place 12288)).2 16384 = none :=
  ⟨((((reserve_commit_frame empty_kernel 12288 false (Placement.place 8192) (by decide)).2.1
    (by decide) 8192 (by decide) (by decide)).2.2 12288 4096 false (Placement.place 12288)
    (fun y h1 h2 => by
      have e : empty_kernel.page_size = 4096 := rfl
      rw [e]
      omega))).2,
   ((((reserve_commit_frame empty_kernel 12288 false (Placement.place 8192) (by decide)).2.1
    (by decide) 16384 (by decide) (by decide)).2.2 12288 4096 false (Placement.place 12288)
    (fun y h1 h2 => by
      have e : empty_kernel.page_size = 4096 := rfl
      rw [e]
      omega))).2⟩

/-- C8: `os::pd_commit_memory` issues exactly one `mmap`, at `addr`, of `size`
bytes, with flags private, fixed and anonymous and protection read+write, plus
execute exactly when `exec` is set; the kernel either refuses or maps at
exactly `addr`; the result is true iff the kernel did not return `MAP_FAILED`;
and the overload with an alignment hint gives the same result for every hint. -/
theorem pd_commit_memory_call (k : Kernel) (addr size hint : Nat) (exec : Bool)
    (ans : Placement) :
    (pd_commit_memory k addr size exec ans).2.calls = k.calls ++
      [Syscall.mmap addr size
        (if exec then PROT_READ ||| PROT_WRITE ||| PROT_EXEC else PROT_READ ||| PROT_WRITE)
        (MAP_PRIVATE ||| MAP_FIXED ||| MAP_ANONYMOUS) (-1) 0] ∧
    (((if exec then PROT_READ ||| PROT_WRITE ||| PROT_EXEC else PROT_READ ||| PROT_WRITE)
        &&& PROT_EXEC ≠ 0) ↔ exec = true) ∧
    ((if exec then PROT_READ ||| PROT_WRITE ||| PROT_EXEC else PROT_READ ||| PROT_WRITE)
        &&& PROT_READ ≠ 0) ∧
    ((if exec then PROT_READ ||| PROT_WRITE ||| PROT_EXEC else PROT_READ ||| PROT_WRITE)
        &&& PROT_WRITE ≠ 0) ∧
    ((MAP_PRIVATE ||| MAP_FIXED ||| MAP_ANONYMOUS) &&& MAP_PRIVATE ≠ 0 ∧
      (MAP_PRIVATE ||| MAP_FIXED ||| MAP_ANONYMOUS) &&& MAP_FIXED ≠ 0 ∧
      (MAP_PRIVATE ||| MAP_FIXED ||| MAP_ANONYMOUS) &&& MAP_ANONYMOUS ≠ 0) ∧
    ((sys_mmap k addr size
        (if exec then PROT_READ ||| PROT_WRITE ||| PROT_EXEC else PROT_READ ||| PROT_WRITE)
        (MAP_PRIVATE ||| MAP_FIXED ||| MAP_ANONYMOUS) (-1) 0 ans).1 = none ∨
      (sys_mmap k addr size
        (if exec then PROT_READ ||| PROT_WRITE ||| PROT_EXEC else PROT_READ ||| PROT_WRITE)
        (MAP_PRIVATE ||| MAP_FIXED ||| MAP_ANONYMOUS) (-1) 0 ans).1 = some addr) ∧
    ((pd_commit_memory k addr size exec ans).1 = true ↔
      (sys_mmap k addr size
        (if exec then PROT_READ ||| PROT_WRITE ||| PROT_EXEC else PROT_READ ||| PROT_WRITE)
        (MAP_PRIVATE ||| MAP_FIXED ||| MAP_ANONYMOUS) (-1) 0 ans).1 ≠ none) ∧
    pd_commit_memory_hint k addr size hint exec ans = pd_commit_memory k addr size exec ans := by
  obtain ⟨_, hcalls, hcase⟩ := sys_mmap_fixed_cases k addr size
    (if exec then PROT_READ ||| PROT_WRITE ||| PROT_EXEC else PROT_READ ||| PROT_WRITE) ans
  refine ⟨hcalls, ?_, ?_, ?_, by decide, ?_, ?_, rfl⟩
  · cases exec <;> decide
  · cases exec <;> decide
  · cases exec <;> decide
  · rcases hcase with ⟨h, _⟩ | ⟨h, _⟩
    · exact Or.inl h
    · exact Or.inr h
  · simp [pd_commit_memory]

/-- C9: on a reserved range, a successful `os::pd_commit_memory` (which makes
every page of the range read-write, plus execute if asked) followed by a
successful `os::pd_uncommit_memory` over the same range leaves every page of
the range mapped no-access, as it was after the reservation, and every page
outside the range as it was; the two calls issued are `mmap`s (no `munmap`);
and no `os::pd_uncommit_memory` call ever unmaps a mapped page. -/
theorem commit_uncommit_roundtrip (k : Kernel) (addr size : Nat) (e1 e2 : Bool)
    (ans1 ans2 : Placement) (hpos : 0 < k.page_size)
    (hres : ∀ x, addr ≤ x → x < addr + size →
      k.mem (x / k.page_size) = some (zero_page k.page_size PROT_NONE))
    (hc : (pd_commit_memory k addr size e1 ans1).1 = true)
    (hu : (pd_uncommit_memory (pd_commit_memory k addr size e1 ans1).2 addr size e2 ans2).1
      = true) :
    (∀ x, addr ≤ x → x < addr + size →
      (pd_commit_memory k addr size e1 ans1).2.mem (x / k.page_size) =
        some (zero_page k.page_size
          (if e1 then PROT_READ ||| PROT_WRITE ||| PROT_EXEC else PROT_READ ||| PROT_WRITE)) ∧
      (pd_uncommit_memory (pd_commit_memory k addr size e1 ans1).2 addr size e2 ans2).2.mem
        (x / k.page_size) = some (zero_page k.page_size PROT_NONE) ∧
      (pd_uncommit_memory (pd_commit_memory k addr size e1 ans1).2 addr size e2 ans2).2.mem
        (x / k.page_size) = k.mem (x / k.page_size)) ∧
    (∀ p, (∀ x, addr ≤ x → x < addr + size → x / k.page_size ≠ p) →
      (pd_uncommit_memory (pd_commit_memory k addr size e1 ans1).2 addr size e2 ans2).2.mem p
        = k.mem p) ∧
    (pd_uncommit_memory (pd_commit_memory k addr size e1 ans1).2 addr size e2 ans2).2.calls =
      k.calls ++
        [Syscall.mmap addr size
          (if e1 then PROT_READ ||| PROT_WRITE ||| PROT_EXEC else PROT_READ ||| PROT_WRITE)
          (MAP_PRIVATE ||| MAP_FIXED ||| MAP_ANONYMOUS) (-1) 0,
         Syscall.mmap addr size PROT_NONE (MAP_PRIVATE ||| MAP_FIXED ||| MAP_ANONYMOUS) (-1) 0] ∧
    (∀ (k1 : Kernel) (a s : Nat) (e : Bool) (ans : Placement) (p : Nat),
      (k1.mem p).isSome = true → ((pd_uncommit_memory k1 a s e ans).2.mem p).isSome = true) := by
  have hps1 : (pd_commit_memory k addr size e1 ans1).2.page_size = k.page_size := by
    simp only [pd_commit_memory]
    exact (sys_mmap_fixed_cases k addr size _ ans1).1
  have hu1 : (sys_mmap (pd_commit_memory k addr size e1 ans1).2 addr size PROT_NONE
      (MAP_PRIVATE ||| MAP_FIXED ||| MAP_ANONYMOUS) (-1) 0 ans2).1 ≠ none := by
    simpa [pd_uncommit_memory] using hu
  refine ⟨fun x h1 h2 => ?_, fun p hp => ?_, ?_, ?_⟩
  · have h := sys_mmap_fixed_in (pd_commit_memory k addr size e1 ans1).2 addr size PROT_NONE
      ans2 x (hps1 ▸ hpos) hu1 h1 h2
    rw [hps1] at h
    have hc1 : (sys_mmap k addr size
        (if e1 then PROT_READ ||| PROT_WRITE ||| PROT_EXEC else PROT_READ ||| PROT_WRITE)
        (MAP_PRIVATE ||| MAP_FIXED ||| MAP_ANONYMOUS) (-1) 0 ans1).1 ≠ none := by
      simpa [pd_commit_memory] using hc
    exact ⟨sys_mmap_fixed_in k addr size _ ans1 x hpos hc1 h1 h2, h,
      h.trans (hres x h1 h2).symm⟩
  · have h := sys_mmap_fixed_frame (pd_commit_memory k addr size e1 ans1).2 addr size PROT_NONE
      ans2 p (hps1 ▸ hpos) (by rw [hps1]; exact hp)
    have h' := sys_mmap_fixed_frame k addr size
      (if e1 then PROT_READ ||| PROT_WRITE ||| PROT_EXEC else PROT_READ ||| PROT_WRITE)
      ans1 p hpos hp
    simp only [pd_uncommit_memory]
    rw [h]
    simp only [pd_commit_memory]
    exact h'
  · simp only [pd_uncommit_memory]
    rw [(sys_mmap_fixed_cases _ addr size PROT_NONE ans2).2.1]
    simp only [pd_commit_memory]
    rw [(sys_mmap_fixed_cases k addr size _ ans1).2.1]
    simp
  · intro k1 a s e ans p h
    simp only [pd_uncommit_memory]
    exact sys_mmap_fixed_keeps k1 a s PROT_NONE ans p h

/-- Witness for C9: three pages reserved at 8192, the second committed and
uncommitted again. -/
theorem commit_uncommit_roundtrip_witness :
    (pd_uncommit_memory (pd_commit_memory reserved_kernel 12288 4096 false
      (Placement.place 12288)).2 12288 4096 false (Placement.place 12288)).2.mem (12288 / 4096)
      = reserved_kernel.mem (12288 / 4096) :=
  ((commit_uncommit_roundtrip reserved_kernel 12288 4096 false false (Placement.place 12288)
    (Placement.place 12288) (by decide)
    (fun x h1 h2 => by
      have e : reserved_kernel.page_size = 4096 := rfl
      have hx : x / 4096 = 3 := by omega
      rw [e, hx]
      rfl)
    (by decide) (by decide)).1 12288 (by decide) (by decide)).2.2

/-! ### Thread creation -/

theorem heap_key_lt_fresh (vm : VM) (qo : Nat × OSThread) (h : qo ∈ vm.heap) :
    qo.1 < vm.fresh := by
  unfold VM.fresh
  have : ∀ (l : List Nat) (x : Nat), x ∈ l → x ≤ l.foldr max 0 := by
    intro l
    induction l with
    | nil => intro x hx; simp at hx
    | cons y ys ih =>
      intro x hx
      simp only [List.foldr_cons]
      rcases List.mem_cons.1 hx with rfl | hx
      · exact Nat.le_max_left _ _
      · exact Nat.le_trans (ih x hx) (Nat.le_max_right _ _)
  have := this (vm.heap.map Prod.fst) qo.1 (List.mem_map_of_mem _ h)
  omega

theorem filter_ne_store (heap : List (Nat × OSThread)) (p : Nat) (f : OSThread → OSThread) :
    (heap.map fun qo => if qo.1 = p then (qo.1, f qo.2) else qo).filter
      (fun qo => decide (qo.1 ≠ p)) = heap.filter (fun qo => decide (qo.1 ≠ p)) := by
  induction heap with
  | nil => rfl
  | cons x xs ih =>
    simp only [List.map_cons, List.filter_cons, ih]
    by_cases hx : x.1 = p <;> simp [hx]

theorem store_heap_filter (vm : VM) (p : Nat) (f : OSThread → OSThread) :
    (vm.store p f).heap.filter (fun qo => decide (qo.1 ≠ p)) =
      vm.heap.filter (fun qo => decide (qo.1 ≠ p)) := by
  simp only [VM.store]
  exact filter_ne_store vm.heap p f

theorem filter_ne_fresh (vm : VM) (o : OSThread) :
    (vm.heap ++ [(vm.fresh, o)]).filter (fun qo => decide (qo.1 ≠ vm.fresh)) = vm.heap := by
  have h1 : vm.heap.filter (fun qo => decide (qo.1 ≠ vm.fresh)) = vm.heap := by
    apply List.filter_eq_self.2
    intro qo hqo
    have := heap_key_lt_fresh vm qo hqo
    have hne : qo.1 ≠ vm.fresh := by omega
    exact decide_eq_true hne
  rw [List.filter_append, h1]
  simp

/-- The wait loop touches only the waited-for handle and only adds `wait`s. -/
theorem wait_while_allocated_spec (p : Nat) (child : List ThreadState) :
    ∀ (vm : VM) (s : ThreadState) (vm' : VM),
      wait_while_allocated vm p child = some (s, vm') →
      s ≠ ThreadState.ALLOCATED ∧ vm'.osthread = vm.osthread ∧
      vm'.heap.filter (fun qo => decide (qo.1 ≠ p)) =
        vm.heap.filter (fun qo => decide (qo.1 ≠ p)) := by
  induction child with
  | nil => intro vm s vm' h; simp [wait_while_allocated] at h
  | cons c cs ih =>
    intro vm s vm' h
    simp only [wait_while_allocated] at h
    by_cases hc : c = ThreadState.ALLOCATED
    · simp only [hc, if_true] at h
      obtain ⟨h1, h2, h3⟩ := ih _ s vm' h
      refine ⟨h1, h2, ?_⟩
      rw [h3]
      dsimp only
      exact store_heap_filter vm p _
    · simp only [hc, if_false, Option.some.injEq, Prod.mk.injEq] at h
      obtain ⟨rfl, rfl⟩ := h
      exact ⟨hc, rfl, store_heap_filter vm p _⟩

/-- C10: called with the thread's `osthread` field NULL (the caller's duty),
whenever `os::create_thread` returns false the field is NULL on return and the
live `OSThread` objects are those from before the call; and when
`pthread_create` returns an error the call returns false having made no call
but `pthread_create` itself: it never takes or waits on the start lock. -/
theorem create_thread_failure_cleanup (vm : VM) (thr_type req_stack_size : Nat)
    (env : CreateEnv) (hpre : vm.osthread = none) :
    (∀ vm', create_thread vm thr_type req_stack_size env = some (false, vm') →
      vm'.osthread = none ∧ vm'.heap = vm.heap) ∧
    (env.alloc_ok = true → env.ret ≠ 0 →
      ∃ vm', create_thread vm thr_type req_stack_size env = some (false, vm') ∧
        vm'.osthread = none ∧ vm'.heap = vm.heap ∧
        vm'.events = vm.events ++
          [Event.pthread_create (env.get_initial_stack_size thr_type req_stack_size) true env.ret] ∧
        Event.wait ∉ vm'.events.drop vm.events.length ∧
        Event.lock ∉ vm'.events.drop vm.events.length) := by
  constructor
  · intro vm' h
    simp only [create_thread] at h
    split at h
    · simp only [Option.some.injEq, Prod.mk.injEq, true_and] at h
      subst h
      exact ⟨hpre, rfl⟩
    · split at h
      · simp only [Option.some.injEq, Prod.mk.injEq, true_and] at h
        subst h
        exact ⟨rfl, filter_ne_fresh vm _⟩
      · split at h
        · simp at h
        · rename_i state vm5 hw
          obtain ⟨_, _, hheap⟩ := wait_while_allocated_spec _ _ _ _ _ hw
          split at h
          · simp only [Option.some.injEq, Prod.mk.injEq, true_and] at h
            subst h
            refine ⟨rfl, ?_⟩
            simp only [VM.delete]
            rw [hheap]
            dsimp only
            rw [store_heap_filter]
            exact filter_ne_fresh vm _
          · simp at h
  · intro ha hr
    refine ⟨VM.delete
      ⟨none, vm.heap ++ [(vm.fresh, ⟨thr_type, ThreadState.ALLOCATED, 0, 0⟩)],
        vm.events ++
          [Event.pthread_create (env.get_initial_stack_size thr_type req_stack_size) true
            env.ret]⟩ vm.fresh, ?_, rfl, filter_ne_fresh vm _, rfl, ?_, ?_⟩
    · simp [create_thread, ha, hr]
    · simp [VM.delete]
    · simp [VM.delete]

/-- Witness for C10: `pthread_create` fails with `EAGAIN` on a VM without
handles. -/
theorem create_thread_failure_cleanup_witness :
    ∃ vm', create_thread empty_vm 0 0 env_pthread_fails = some (false, vm') ∧
      vm'.osthread = none ∧ vm'.heap = empty_vm.heap ∧
      vm'.events = empty_vm.events ++
        [Event.pthread_create (env_pthread_fails.get_initial_stack_size 0 0) true
          env_pthread_fails.ret] ∧
      Event.wait ∉ vm'.events.drop empty_vm.events.length ∧
      Event.lock ∉ vm'.events.drop empty_vm.events.length :=
  (create_thread_failure_cleanup empty_vm 0 0 env_pthread_fails rfl).2 rfl (by decide)

/-! ### Attaching an existing thread -/

/-- C14: whenever `os::create_attached_thread` returns true, the thread's
`osthread` is a handle that did not exist before the call, in state RUNNABLE,
with `thread_id` the caller's kernel thread id (`find_thread(NULL)`) and
`pthread_id` the caller's `pthread_self()`; no call is made on `pthread_create`
or on the start lock; and `os::create_main_thread` gives the same result and
the same effects. -/
theorem create_attached_thread_runnable (vm : VM) (env : AttachEnv)
    (hret : (create_attached_thread vm env).1 = true) :
    (∃ p o, (create_attached_thread vm env).2.osthread = some p ∧
      (∀ qo ∈ vm.heap, qo.1 ≠ p) ∧
      (create_attached_thread vm env).2.heap = vm.heap ++ [(p, o)] ∧
      o.state = ThreadState.RUNNABLE ∧
      o.thread_id = env.find_thread ∧
      o.pthread_id = env.pthread_self) ∧
    (create_attached_thread vm env).2.events = vm.events ∧
    create_main_thread vm env = create_attached_thread vm env := by
  have hne : ∀ qo ∈ vm.heap, qo.1 ≠ vm.fresh := by
    intro qo hqo
    have := heap_key_lt_fresh vm qo hqo
    omega
  have hfix : ∀ (g : Nat × OSThread → Nat × OSThread),
      (∀ qo, qo.1 ≠ vm.fresh → g qo = qo) → vm.heap.map g = vm.heap := by
    intro g hg
    conv_rhs => rw [← List.map_id vm.heap]
    apply List.map_congr_left
    intro qo hqo
    simpa using hg qo (hne qo hqo)
  cases ha : env.alloc_ok with
  | false => simp [create_attached_thread, ha] at hret
  | true =>
    refine ⟨⟨vm.fresh, ⟨0, ThreadState.RUNNABLE, env.pthread_self, env.find_thread⟩,
      ?_, hne, ?_, rfl, rfl, rfl⟩, ?_, rfl⟩
    · simp [create_attached_thread, ha]
    · simp only [create_attached_thread, ha, VM.store, Bool.true_eq_false, if_false,
        List.map_append, List.map_cons, List.map_nil, if_true]
      rw [hfix _ (fun qo h => by simp [h]), hfix _ (fun qo h => by simp [h]),
        hfix _ (fun qo h => by simp [h])]
    · simp [create_attached_thread, ha, VM.store]

/-- Witness for C14: kernel thread 77 with pthread id 5 attaches to a VM
without handles. -/
theorem create_attached_thread_runnable_witness :
    (∃ p o, (create_attached_thread empty_vm env_attach).2.osthread = some p ∧
      (∀ qo ∈ empty_vm.heap, qo.1 ≠ p) ∧
      (create_attached_thread empty_vm env_attach).2.heap = empty_vm.heap ++ [(p, o)] ∧
      o.state = ThreadState.RUNNABLE ∧
      o.thread_id = env_attach.find_thread ∧
      o.pthread_id = env_attach.pthread_self) :=
  (create_attached_thread_runnable empty_vm env_attach rfl).1

/-! ### Native priorities -/

/-- C17, as the code has it: with priorities enabled, when the kernel refuses
the change (`set_thread_priority` changes nothing and returns an error status,
which is not `B_OK`) the thread's priority is unchanged and
`os::set_native_priority` returns `OS_ERR`, after exactly one kernel call.
Whatever the kernel answers, `os::set_native_priority` returns `OS_OK` exactly
when `set_thread_priority` returns `B_OK`; so a change that the kernel applies
while returning another value is reported as `OS_ERR` too, with the priority
changed. -/
theorem set_native_priority_refused (f : Flags) (k : Scheduler) (thread_id : Nat)
    (newpri status : Int)
    (huse : f.UseThreadPriorities = true) (hpol : f.ThreadPriorityPolicy ≠ 0)
    (hstatus : status ≠ B_OK) :
    (set_native_priority f k thread_id newpri (PriorityAnswer.refused status)).1
      = OSReturn.OS_ERR ∧
    (set_native_priority f k thread_id newpri (PriorityAnswer.refused status)).2.priority
      = k.priority ∧
    (set_native_priority f k thread_id newpri (PriorityAnswer.refused status)).2.calls
      = k.calls ++ [KernelCall.set_thread_priority thread_id newpri] ∧
    (∀ ans, ((set_native_priority f k thread_id newpri ans).1 = OSReturn.OS_OK ↔
        (sys_set_thread_priority k thread_id newpri ans).1 = B_OK) ∧
      (set_native_priority f k thread_id newpri ans).2 =
        (sys_set_thread_priority k thread_id newpri ans).2) ∧
    (∀ ret, ret ≠ B_OK →
      (set_native_priority f k thread_id newpri (PriorityAnswer.applied ret)).1
        = OSReturn.OS_ERR ∧
      (set_native_priority f k thread_id newpri (PriorityAnswer.applied ret)).2.priority
        thread_id = newpri) := by
  refine ⟨?_, ?_, ?_, ?_, ?_⟩
  · simp [set_native_priority, sys_set_thread_priority, huse, hpol, hstatus]
  · simp [set_native_priority, sys_set_thread_priority, huse, hpol]
  · simp [set_native_priority, sys_set_thread_priority, huse, hpol]
  · intro ans
    by_cases h : (sys_set_thread_priority k thread_id newpri ans).1 = B_OK <;>
      simp [set_native_priority, huse, hpol, h]
  · intro ret hret
    simp [set_native_priority, sys_set_thread_priority, huse, hpol, hret]

/-- Witness for C17 as amended: policy 1, the kernel answers `B_NOT_ALLOWED`. -/
theorem set_native_priority_refused_witness :
    (set_native_priority ⟨true, 1, false, false⟩ idle_scheduler 7 20
      (PriorityAnswer.refused B_NOT_ALLOWED)).1 = OSReturn.OS_ERR ∧
    (set_native_priority ⟨true, 1, false, false⟩ idle_scheduler 7 20
      (PriorityAnswer.refused B_NOT_ALLOWED)).2.priority = idle_scheduler.priority :=
  ⟨(set_native_priority_refused ⟨true, 1, false, false⟩ idle_scheduler 7 20 B_NOT_ALLOWED
      rfl (by decide) (by decide)).1,
   (set_native_priority_refused ⟨true, 1, false, false⟩ idle_scheduler 7 20 B_NOT_ALLOWED
      rfl (by decide) (by decide)).2.1⟩

/-- C17 as stated fails: with priorities enabled and the kernel refusing with
`B_NOT_ALLOWED`, `os::set_native_priority` returns `OS_ERR`, not `OS_OK`. -/
theorem set_native_priority_refused_not_ok :
    (set_native_priority ⟨true, 1, false, false⟩ idle_scheduler 7 20
      (PriorityAnswer.refused B_NOT_ALLOWED)).1 = OSReturn.OS_ERR ∧
    (set_native_priority ⟨true, 1, false, false⟩ idle_scheduler 7 20
      (PriorityAnswer.refused B_NOT_ALLOWED)).1 ≠ OSReturn.OS_OK := by
  decide

/-- C18: with `UseThreadPriorities` false or `ThreadPriorityPolicy` 0,
`os::get_native_priority` returns `OS_OK` and stores
`java_to_os_priority[NormPriority]`, which is 10 in the static table and after
`prio_init`, and `os::set_native_priority` returns `OS_OK` for every requested
priority; neither makes a kernel call (the scheduler, its call log included,
is as before). -/
theorem native_priority_disabled (f f0 : Flags) (euid : Nat) (k : Scheduler) (thread_id : Nat)
    (newpri : Int) (info : Option thread_info) (ans : PriorityAnswer)
    (hdis : f.UseThreadPriorities = false ∨ f.ThreadPriorityPolicy = 0) :
    get_native_priority f java_to_os_priority k thread_id info =
      (OSReturn.OS_OK, some (java_to_os_priority.getD NormPriority 0), k) ∧
    get_native_priority f (prio_init f0 euid java_to_os_priority).table k thread_id info =
      (OSReturn.OS_OK, some 10, k) ∧
    java_to_os_priority.getD NormPriority 0 = 10 ∧
    set_native_priority f k thread_id newpri ans = (OSReturn.OS_OK, k) := by
  have hc : (!f.UseThreadPriorities || decide (f.ThreadPriorityPolicy = 0)) = true := by
    rcases hdis with h | h
    · simp [h]
    · simp [h]
  have h10 : (prio_init f0 euid java_to_os_priority).table.getD NormPriority 0 = 10 := by
    cases hcr : f0.UseCriticalJavaThreadPriority <;> simp only [prio_init, hcr] <;> decide
  refine ⟨?_, ?_, by decide, ?_⟩
  · simp only [get_native_priority, hc, if_true]
  · simp only [get_native_priority, hc, if_true, h10]
  · simp only [set_native_priority, hc, if_true]

/-- Witness for C18: priorities switched off. -/
theorem native_priority_disabled_witness :
    get_native_priority ⟨false, 1, true, false⟩ java_to_os_priority idle_scheduler 7 none =
      (OSReturn.OS_OK, some (java_to_os_priority.getD NormPriority 0), idle_scheduler) :=
  (native_priority_disabled ⟨false, 1, true, false⟩ ⟨false, 1, true, false⟩ 0 idle_scheduler 7 20
    none (PriorityAnswer.refused B_NOT_ALLOWED) (Or.inl rfl)).1

/-! ### Memory totals -/

/-- C19, as the code has it: `os::available_memory` computes
`(max_pages - used_pages) * page_size` from the system info of the moment of
the call, while `os::physical_memory` returns the product
`max_pages * page_size` that `initialize_system_info` computed at start-up,
whatever the system info has become since. -/
theorem memory_totals (h : Host)
    (hmax : h.si.max_pages < 2 ^ 64) (hpage : h.page_size < 2 ^ 64)
    (hused : h.si.used_pages ≤ h.si.max_pages)
    (hprod : h.si.max_pages * h.page_size < 2 ^ 64) :
    available_memory h = (h.si.max_pages - h.si.used_pages) * h.page_size ∧
    physical_memory (initialize_system_info h) = h.si.max_pages * h.page_size ∧
    (∀ si, physical_memory { initialize_system_info h with si := si } =
      h.si.max_pages * h.page_size) := by
  have h1 : h.si.max_pages % 2 ^ 64 = h.si.max_pages := Nat.mod_eq_of_lt hmax
  have h2 : h.page_size % 2 ^ 64 = h.page_size := Nat.mod_eq_of_lt hpage
  have h3 : h.si.used_pages % 2 ^ 64 = h.si.used_pages := Nat.mod_eq_of_lt (by omega)
  have h4 : (h.si.max_pages + 2 ^ 64 - h.si.used_pages) % 2 ^ 64
      = h.si.max_pages - h.si.used_pages := by
    have : h.si.max_pages + 2 ^ 64 - h.si.used_pages
        = (h.si.max_pages - h.si.used_pages) + 2 ^ 64 := by omega
    rw [this, Nat.add_mod_right]
    exact Nat.mod_eq_of_lt (by omega)
  have h5 : (h.si.max_pages - h.si.used_pages) * h.page_size < 2 ^ 64 :=
    Nat.lt_of_le_of_lt (Nat.mul_le_mul_right _ (Nat.sub_le _ _)) hprod
  refine ⟨?_, ?_, fun si => ?_⟩
  · simp only [available_memory, h2, h3, h4]
    exact Nat.mod_eq_of_lt h5
  · simp only [physical_memory, initialize_system_info, h1, h2]
    exact Nat.mod_eq_of_lt hprod
  · simp only [physical_memory, initialize_system_info, h1, h2]
    exact Nat.mod_eq_of_lt hprod

/-- Witness for C19 as amended: 1000 pages of 4096 bytes, 400 used. -/
theorem memory_totals_witness :
    available_memory host_at_boot = (1000 - 400) * 4096 ∧
    physical_memory (initialize_system_info host_at_boot) = 1000 * 4096 :=
  ⟨(memory_totals host_at_boot (by decide) (by decide) (by decide) (by decide)).1,
   (memory_totals host_at_boot (by decide) (by decide) (by decide) (by decide)).2.1⟩

/-- C19 as stated fails for `os::physical_memory`: after start-up with 1000
pages, a kernel that now reports 2000 pages still gets `1000 * 4096` from
`os::physical_memory`, not `max_pages * page_size` of the moment of the call. -/
theorem physical_memory_is_cached :
    physical_memory { initialize_system_info host_at_boot with
      si := { cpu_count := 4, max_pages := 2000, used_pages := 400 } } = 1000 * 4096 ∧
    physical_memory { initialize_system_info host_at_boot with
      si := { cpu_count := 4, max_pages := 2000, used_pages := 400 } } ≠ 2000 * 4096 := by
  decide

/-! ### Symbol lookup -/

theorem step_mem_closed (spurious : Bool) (l : List Handshake) (hl : closed spurious l = true)
    (s t : Handshake) (hs : s ∈ l) (hst : Step spurious s t) : t ∈ l := by
  obtain ⟨p, op, hmem⟩ := hst
  simp only [closed, List.all_eq_true, decide_eq_true_eq] at hl
  exact hl s hs (p, op, t) hmem

theorem stepsN_mem_closed (spurious : Bool) (l : List Handshake)
    (hl : closed spurious l = true) (s : Handshake) (hs : s ∈ l) :
    ∀ (n : Nat) (t : Handshake), StepsN spurious n s t → t ∈ l := by
  intro n
  induction n with
  | zero =>
    intro t h
    simp only [StepsN] at h
    exact h ▸ hs
  | succ n ih =>
    intro t h
    obtain ⟨u, hu, hut⟩ := h
    exact step_mem_closed spurious l hl u t (ih u hu) hut

set_option maxRecDepth 100000 in
theorem reachable_closed (spurious ok limit : Bool) :
    closed spurious (reachable spurious ok limit) = true := by
  cases spurious <;> cases ok <;> cases limit <;> decide

theorem init_mem_reachable (spurious ok limit : Bool) :
    handshake_init ok limit ∈ reachable spurious ok limit := by
  cases spurious <;> cases ok <;> cases limit <;> decide

theorem reach_mem_reachable (spurious ok limit : Bool) (s : Handshake)
    (h : Reach spurious ok limit s) : s ∈ reachable spurious ok limit := by
  obtain ⟨n, hn⟩ := h
  exact stepsN_mem_closed spurious _ (reachable_closed spurious ok limit) _
    (init_mem_reachable spurious ok limit) n s hn

set_option maxRecDepth 100000 in
theorem reachable_inv (spurious ok limit : Bool) :
    ∀ s ∈ reachable spurious ok limit, handshake_inv spurious ok limit s := by
  cases spurious <;> cases ok <;> cases limit <;> decide

set_option maxRecDepth 100000 in
theorem reachable_calls (spurious ok limit : Bool) :
    ∀ s ∈ reachable spurious ok limit, handshake_calls spurious s := by
  cases spurious <;> cases ok <;> cases limit <;> decide

/-- Every state an interleaving reaches has the facts of `handshake_calls`. -/
theorem reach_calls (spurious ok limit : Bool) (s : Handshake)
    (h : Reach spurious ok limit s) : handshake_calls spurious s :=
  reachable_calls spurious ok limit s (reach_mem_reachable spurious ok limit s h)

/-- Every state an interleaving reaches has the facts of `handshake_inv`. -/
theorem reach_inv (spurious ok limit : Bool) (s : Handshake)
    (h : Reach spurious ok limit s) : handshake_inv spurious ok limit s :=
  reachable_inv spurious ok limit s (reach_mem_reachable spurious ok limit s h)

theorem party_step_is_step (spurious : Bool) (p : Party) (s : Handshake) (r : Op × Handshake)
    (h : party_step p s = some r) : Step spurious s r.2 := by
  refine ⟨p, r.1, ?_⟩
  cases p with
  | creator =>
    simp only [party_step] at h
    simp [steps, h]
  | child =>
    simp only [party_step] at h
    simp [steps, h]

/-- A schedule run from a reached state ends in a reached state. -/
theorem reach_run (spurious ok limit : Bool) (sched : List Party) :
    ∀ s, Reach spurious ok limit s → Reach spurious ok limit (run sched s) := by
  induction sched with
  | nil => intro s h; exact h
  | cons p ps ih =>
    intro s h
    simp only [run]
    cases hp : party_step p s with
    | none => exact ih s h
    | some r =>
      obtain ⟨n, hn⟩ := h
      exact ih r.2 ⟨n + 1, s, hn, party_step_is_step spurious p s r hp⟩

theorem reach_init (spurious ok limit : Bool) :
    Reach spurious ok limit (handshake_init ok limit) := ⟨0, rfl⟩

/-- C11: along every interleaving of `os::create_thread` and
`thread_native_entry`, with or without spurious wake-ups, each state the
creator reads in its wait loop is ALLOCATED, INITIALIZED or ZOMBIE;
`os::create_thread` returns true iff `pthread_create` succeeded and the state
read on leaving the loop is INITIALIZED; at the final assert the state read is
INITIALIZED; and when it has returned true the handle is INITIALIZED and the new
thread is in its wait loop with the loop condition true (blocked in the wait
when waits return only on a notification), so it has not reached `call_run`. -/
theorem create_thread_handshake_return (spurious ok limit : Bool) (s : Handshake)
    (h : Reach spurious ok limit s) :
    (∀ r ∈ steps spurious s, r.1 = Party.creator → ∀ v, r.2.1 = Op.get_state v →
      v = ThreadState.ALLOCATED ∨ v = ThreadState.INITIALIZED ∨ v = ThreadState.ZOMBIE) ∧
    (∀ b, s.creator = CreatorPc.returned b →
      (b = true ↔ (ok = true ∧ s.local_state = some ThreadState.INITIALIZED))) ∧
    (s.creator = CreatorPc.check → s.local_state = some ThreadState.INITIALIZED) ∧
    (s.creator = CreatorPc.returned true →
      s.state = ThreadState.INITIALIZED ∧ child_in_loop s.child = true ∧
      s.child ≠ ChildPc.call_run ∧ s.child ≠ ChildPc.running ∧
      (spurious = false → s.child = ChildPc.waiting)) := by
  obtain ⟨⟨hok, _⟩, hread, _, hfalse, hpast, _⟩ := reach_inv spurious ok limit s h
  refine ⟨?_, ?_, ?_, ?_⟩
  · intro r hr hc v hv
    have := hread r hr hc
    rw [hv] at this
    cases v
    · exact Or.inl rfl
    · exact Or.inr (Or.inl rfl)
    · exact absurd rfl this
    · exact Or.inr (Or.inr rfl)
  · intro b hb
    cases b with
    | true =>
      obtain ⟨h1, h2, _⟩ := hpast (Or.inr (Or.inr hb))
      rw [hok] at h1
      simp [h1, h2]
    | false =>
      have := hfalse hb
      rw [hok] at this
      simp [this]
  · intro hc
    exact (hpast (Or.inr (Or.inl hc))).2.1
  · intro hb
    obtain ⟨_, _, h3, h4, h5⟩ := hpast (Or.inr (Or.inr hb))
    refine ⟨h3, h4, ?_, ?_, h5⟩
    · intro hcr
      rw [hcr] at h4
      exact absurd h4 (by decide)
    · intro hcr
      rw [hcr] at h4
      exact absurd h4 (by decide)

/-- Witness for C11: the creator runs first and waits, the new thread
initialises and waits, the creator wakes and returns true. -/
theorem create_thread_handshake_return_witness :
    (run [Party.creator, Party.creator, Party.creator, Party.creator,
        Party.child, Party.child, Party.child, Party.child, Party.child,
        Party.creator, Party.creator, Party.creator, Party.creator]
      (handshake_init true false)).creator = CreatorPc.returned true ∧
    (run [Party.creator, Party.creator, Party.creator, Party.creator,
        Party.child, Party.child, Party.child, Party.child, Party.child,
        Party.creator, Party.creator, Party.creator, Party.creator]
      (handshake_init true false)).child = ChildPc.waiting :=
  ⟨by decide,
   ((create_thread_handshake_return false true false _
      (reach_run false true false
        [Party.creator, Party.creator, Party.creator, Party.creator,
          Party.child, Party.child, Party.child, Party.child, Party.child,
          Party.creator, Party.creator, Party.creator, Party.creator]
        _ (reach_init false true false))).2.2.2 (by decide)).2.2.2.2 rfl⟩

theorem wait_while_allocated_find (p : Nat) (st : ThreadState) :
    ∀ (child : List ThreadState) (vm : VM),
      child.find? (fun v => decide (v ≠ ThreadState.ALLOCATED)) = some st →
      ∃ vm', wait_while_allocated vm p child = some (st, vm') := by
  intro child
  induction child with
  | nil => intro vm h; simp at h
  | cons c cs ih =>
    intro vm h
    by_cases hc : c = ThreadState.ALLOCATED
    · subst hc
      simp only [List.find?_cons, ne_eq, not_true_eq_false, decide_False] at h
      simp only [wait_while_allocated, if_true]
      exact ih _ h
    · simp only [List.find?_cons, ne_eq, hc, not_false_eq_true, decide_True,
        Option.some.injEq] at h
      subst h
      exact ⟨vm.store p fun o => { o with state := c }, by simp [wait_while_allocated, hc]⟩

/-- C12, as the code has it: `thread_native_entry` consults no thread limit;
along every interleaving, whether or not the limit is reached, the only state
the new thread writes is INITIALIZED, the handle is never ZOMBIE and
`os::create_thread` returns false only when `pthread_create` failed.
`os::create_thread`, if it does observe ZOMBIE on leaving its wait loop,
returns false with the handle detached and deleted, as it does when
`pthread_create` fails. -/
theorem thread_native_entry_never_zombie (spurious ok limit : Bool) (s : Handshake)
    (h : Reach spurious ok limit s) :
    s.thread_limit_reached = limit ∧
    s.state ≠ ThreadState.ZOMBIE ∧
    (∀ r ∈ steps spurious s, r.1 = Party.child → ∀ v, r.2.1 = Op.set_state v →
      v = ThreadState.INITIALIZED) ∧
    (s.creator = CreatorPc.returned false → ok = false) ∧
    (∀ (vm : VM) (thr_type req_stack_size : Nat) (env : CreateEnv),
      env.alloc_ok = true → env.ret = 0 →
      env.child.find? (fun v => decide (v ≠ ThreadState.ALLOCATED)) = some ThreadState.ZOMBIE →
      ∃ vm', create_thread vm thr_type req_stack_size env = some (false, vm') ∧
        vm'.osthread = none ∧ vm'.heap = vm.heap) ∧
    (∀ (vm : VM) (thr_type req_stack_size : Nat) (env : CreateEnv),
      env.alloc_ok = true → env.ret ≠ 0 →
      ∃ vm', create_thread vm thr_type req_stack_size env = some (false, vm') ∧
        vm'.osthread = none ∧ vm'.heap = vm.heap) := by
  obtain ⟨⟨hok, hlim⟩, _, hz, hfalse, _⟩ := reach_inv spurious ok limit s h
  obtain ⟨hset, _⟩ := reach_calls spurious ok limit s h
  refine ⟨hlim, hz, ?_, ?_, ?_, ?_⟩
  · intro r hr hc v hv
    obtain ⟨h1, h2, h3⟩ := hset r hr hc
    rw [hv] at h1 h2 h3
    cases v
    · exact absurd rfl h1
    · rfl
    · exact absurd rfl h2
    · exact absurd rfl h3
  · intro hb
    rw [← hok]
    exact hfalse hb
  · intro vm thr_type req_stack_size env ha hr hfind
    obtain ⟨vm5, hw⟩ := wait_while_allocated_find vm.fresh ThreadState.ZOMBIE env.child
      { osthread := some vm.fresh,
        heap := (VM.store
          { osthread := some vm.fresh,
            heap := vm.heap ++ [(vm.fresh, ⟨thr_type, ThreadState.ALLOCATED, 0, 0⟩)],
            events := vm.events ++
              [Event.pthread_create (env.get_initial_stack_size thr_type req_stack_size)
                true env.ret] } vm.fresh fun o => { o with pthread_id := env.tid }).heap,
        events := vm.events ++
            [Event.pthread_create (env.get_initial_stack_size thr_type req_stack_size)
              true env.ret] ++ [Event.lock] } hfind
    obtain ⟨_, _, hheap⟩ := wait_while_allocated_spec _ _ _ _ _ hw
    refine ⟨VM.delete ⟨none, vm5.heap, vm5.events ++ [Event.unlock]⟩ vm.fresh, ?_, rfl, ?_⟩
    · simp only [create_thread, ha, hr, Bool.true_eq_false, if_false, ne_eq, not_true_eq_false]
      simp only [VM.store, hr] at hw ⊢
      rw [hw]
      simp
    · simp only [VM.delete]
      rw [hheap]
      dsimp only
      rw [store_heap_filter]
      exact filter_ne_fresh vm _
  · intro vm thr_type req_stack_size env ha hr
    refine ⟨VM.delete
      ⟨none, vm.heap ++ [(vm.fresh, ⟨thr_type, ThreadState.ALLOCATED, 0, 0⟩)],
        vm.events ++
          [Event.pthread_create (env.get_initial_stack_size thr_type req_stack_size) true
            env.ret]⟩ vm.fresh, ?_, rfl, filter_ne_fresh vm _⟩
    simp [create_thread, ha, hr]

/-- Witness for C12 as amended: with the thread limit reached, the new thread
has taken the lock and set the state. -/
theorem thread_native_entry_never_zombie_witness :
    (run [Party.creator, Party.child, Party.child]
      (handshake_init true true)).thread_limit_reached = true ∧
    (run [Party.creator, Party.child, Party.child] (handshake_init true true)).state
      ≠ ThreadState.ZOMBIE :=
  ⟨(thread_native_entry_never_zombie false true true _
    (reach_run false true true [Party.creator, Party.child, Party.child] _
      (reach_init false true true))).1,
   (thread_native_entry_never_zombie false true true _
    (reach_run false true true [Party.creator, Party.child, Party.child] _
      (reach_init false true true))).2.1⟩

/-- C12 as stated fails: with the runtime's thread limit reached, the new
thread still sets its handle to INITIALIZED, not ZOMBIE, and
`os::create_thread` returns true. -/
theorem thread_limit_is_not_consulted :
    (run [Party.creator, Party.child, Party.child]
      (handshake_init true true)).thread_limit_reached = true ∧
    (run [Party.creator, Party.child, Party.child]
      (handshake_init true true)).state = ThreadState.INITIALIZED ∧
    (run [Party.creator, Party.child, Party.child]
      (handshake_init true true)).state ≠ ThreadState.ZOMBIE ∧
    (run [Party.creator, Party.child, Party.child, Party.child, Party.child, Party.child,
        Party.creator, Party.creator, Party.creator, Party.creator]
      (handshake_init true true)).creator = CreatorPc.returned true := by
  decide

/-- C13: for a handle in state INITIALIZED whose new thread is blocked in the
wait of `thread_native_entry` (`os::create_thread` has returned true),
`os::start_thread` writes RUNNABLE and calls `os::pd_start_thread`, which takes
the lock, notifies and unlocks without writing the state: when
`os::pd_start_thread` has returned the state is RUNNABLE and the new thread is
woken; it finds its loop condition `state == INITIALIZED` false, leaves the loop
and calls `call_run`. No step inside `os::pd_start_thread` changes the state,
and along every interleaving the state is RUNNABLE throughout
`os::pd_start_thread`. -/
theorem pd_start_thread_releases (s : Handshake)
    (hc : s.creator = CreatorPc.returned true) (ho : s.owner = none)
    (hn : s.child = ChildPc.waiting) (hs : s.state = ThreadState.INITIALIZED) :
    ((run [Party.creator] s).creator = CreatorPc.start_enter ∧
      (run [Party.creator] s).state = ThreadState.RUNNABLE ∧
      (run [Party.creator] s).child = ChildPc.waiting) ∧
    (run [Party.creator, Party.creator, Party.creator, Party.creator] s).creator
      = CreatorPc.started ∧
    (run [Party.creator, Party.creator, Party.creator, Party.creator] s).state
      = ThreadState.RUNNABLE ∧
    (run [Party.creator, Party.creator, Party.creator, Party.creator] s).child
      = ChildPc.woken ∧
    (run [Party.creator, Party.creator, Party.creator, Party.creator,
      Party.child, Party.child] s).child = ChildPc.leave ∧
    (run [Party.creator, Party.creator, Party.creator, Party.creator,
      Party.child, Party.child, Party.child, Party.child] s).child = ChildPc.running ∧
    (∀ (t u : Handshake) (op : Op), creator_step t = some (op, u) →
      (t.creator = CreatorPc.start_enter ∨ t.creator = CreatorPc.start_notify ∨
        t.creator = CreatorPc.start_leave) → u.state = t.state) ∧
    (∀ (spurious ok limit : Bool) (t : Handshake), Reach spurious ok limit t →
      (t.creator = CreatorPc.start_enter ∨ t.creator = CreatorPc.start_notify ∨
        t.creator = CreatorPc.start_leave ∨ t.creator = CreatorPc.started) →
      t.state = ThreadState.RUNNABLE) := by
  refine ⟨?_, ?_, ?_, ?_, ?_, ?_, ?_, ?_⟩
  · rcases s with ⟨a, b, c, d, e, f, g⟩
    dsimp only at hc ho hn hs
    subst hc ho hn hs
    exact ⟨rfl, rfl, rfl⟩
  · rcases s with ⟨a, b, c, d, e, f, g⟩
    dsimp only at hc ho hn hs
    subst hc ho hn hs
    rfl
  · rcases s with ⟨a, b, c, d, e, f, g⟩
    dsimp only at hc ho hn hs
    subst hc ho hn hs
    rfl
  · rcases s with ⟨a, b, c, d, e, f, g⟩
    dsimp only at hc ho hn hs
    subst hc ho hn hs
    rfl
  · rcases s with ⟨a, b, c, d, e, f, g⟩
    dsimp only at hc ho hn hs
    subst hc ho hn hs
    rfl
  · rcases s with ⟨a, b, c, d, e, f, g⟩
    dsimp only at hc ho hn hs
    subst hc ho hn hs
    rfl
  · intro t u op h hpc
    rcases hpc with h1 | h1 | h1 <;> simp only [creator_step, h1] at h
    · split at h
      · cases h; rfl
      · cases h
    · cases h; rfl
    · cases h; rfl
  · intro spurious ok limit t ht hpc
    obtain ⟨_, _, _, _, _, hstart, _⟩ := reach_inv spurious ok limit t ht
    exact hstart hpc

/-- Witness for C13: `os::create_thread` has returned true with the new thread
waiting; the thread is started and runs. -/
theorem pd_start_thread_releases_witness :
    (run schedule_create (handshake_init true false)).state = ThreadState.INITIALIZED ∧
    (run [Party.creator, Party.creator, Party.creator, Party.creator]
      (run schedule_create (handshake_init true false))).state = ThreadState.RUNNABLE ∧
    (run [Party.creator, Party.creator, Party.creator, Party.creator,
      Party.child, Party.child, Party.child, Party.child]
      (run schedule_create (handshake_init true false))).child = ChildPc.running :=
  ⟨by decide,
   (pd_start_thread_releases (run schedule_create (handshake_init true false))
      (by decide) (by decide) (by decide) (by decide)).2.2.1,
   (pd_start_thread_releases (run schedule_create (handshake_init true false))
      (by decide) (by decide) (by decide) (by decide)).2.2.2.2.2.1⟩

/-- C15, as the code has it: along every interleaving, a `notify_all` on the
start lock is issued by the new thread only (after it has set INITIALIZED) and
a `notify` by `os::pd_start_thread` only: the wake-up that releases the new
thread is a single `notify`, not a broadcast.  Every wait is entered right
after a loop test, and a thread that leaves a wait goes back to its loop test:
woken with the state unchanged, the creator (state ALLOCATED) and the new
thread (state INITIALIZED) each end up waiting again. -/
theorem handshake_wakeups (spurious ok limit : Bool) (s : Handshake)
    (h : Reach spurious ok limit s) :
    (∀ r ∈ steps spurious s,
      (r.2.1 = Op.notify_all → r.1 = Party.child ∧ s.child = ChildPc.notify) ∧
      (r.2.1 = Op.notify → r.1 = Party.creator ∧ s.creator = CreatorPc.start_notify) ∧
      (r.2.1 = Op.wait →
        (r.1 = Party.creator ∧ s.creator = CreatorPc.at_wait ∧
          s.state = ThreadState.ALLOCATED) ∨
        (r.1 = Party.child ∧ s.child = ChildPc.at_wait)) ∧
      (r.2.1 = Op.retake ∨ r.2.1 = Op.wakeup →
        (r.1 = Party.creator ∧
          (r.2.2.creator = CreatorPc.test ∨ r.2.2.creator = CreatorPc.woken)) ∨
        (r.1 = Party.child ∧ (r.2.2.child = ChildPc.test ∨ r.2.2.child = ChildPc.woken)))) ∧
    (s.child = ChildPc.notify → (child_step s).map Prod.fst = some Op.notify_all) ∧
    (s.creator = CreatorPc.start_notify → (creator_step s).map Prod.fst = some Op.notify) ∧
    (s.creator = CreatorPc.woken → s.owner = none → s.state = ThreadState.ALLOCATED →
      (run [Party.creator, Party.creator, Party.creator] s).creator = CreatorPc.waiting ∧
      (run [Party.creator, Party.creator, Party.creator] s).state = ThreadState.ALLOCATED) ∧
    (s.child = ChildPc.woken → s.owner = none → s.state = ThreadState.INITIALIZED →
      (run [Party.child, Party.child, Party.child] s).child = ChildPc.waiting ∧
      (run [Party.child, Party.child, Party.child] s).state = ThreadState.INITIALIZED) := by
  obtain ⟨_, hcalls⟩ := reach_calls spurious ok limit s h
  refine ⟨hcalls, ?_, ?_, ?_, ?_⟩
  · intro hn
    simp only [child_step, hn]
    rfl
  · intro hn
    simp only [creator_step, hn]
    rfl
  · intro h1 h2 h3
    clear h hcalls
    rcases s with ⟨a, b, c, d, e, f, g⟩
    dsimp only at h1 h2 h3
    subst h1 h2 h3
    exact ⟨rfl, rfl⟩
  · intro h1 h2 h3
    clear h hcalls
    rcases s with ⟨a, b, c, d, e, f, g⟩
    dsimp only at h1 h2 h3
    subst h1 h2 h3
    exact ⟨rfl, rfl⟩

/-- Witness for C15 as amended: the state in which the new thread is about to
notify. -/
theorem handshake_wakeups_witness :
    (child_step (run [Party.creator, Party.child, Party.child]
      (handshake_init true false))).map Prod.fst = some Op.notify_all :=
  (handshake_wakeups false true false _
    (reach_run false true false [Party.creator, Party.child, Party.child] _
      (reach_init false true false))).2.1 (by decide)

/-- C15 as stated fails: when `os::pd_start_thread` holds the lock, the one
step possible is the creator's `notify`, which is not `notify_all`. -/
theorem pd_start_thread_notifies_one :
    ((steps false (run (schedule_create ++ [Party.creator, Party.creator])
        (handshake_init true false))).map fun r => (r.1, r.2.1))
      = [(Party.creator, Op.notify)] ∧
    Op.notify ≠ Op.notify_all := by
  decide

theorem clear_o_delete (oflag : Nat) :
    (oflag ^^^ (oflag &&& O_DELETE)) &&& O_DELETE = 0 ∧
    (oflag ^^^ (oflag &&& O_DELETE)) ||| (oflag &&& O_DELETE) = oflag ∧
    ∀ i, (oflag ^^^ (oflag &&& O_DELETE)).testBit i = (oflag.testBit i && decide (i ≠ 16)) := by
  have hbit : ∀ i, O_DELETE.testBit i = decide (i = 16) := by
    intro i
    have : O_DELETE = 2 ^ 16 := by decide
    rw [this, Nat.testBit_two_pow]
    by_cases h : i = 16
    · simp [h]
    · have h1 : ¬ 16 = i := fun e => h e.symm
      simp [h, h1]
  refine ⟨?_, ?_, ?_⟩
  · apply Nat.eq_of_testBit_eq
    intro i
    simp only [Nat.testBit_and, Nat.testBit_xor, hbit, Nat.zero_testBit]
    cases oflag.testBit i <;> cases decide (i = 16) <;> rfl
  · apply Nat.eq_of_testBit_eq
    intro i
    simp only [Nat.testBit_and, Nat.testBit_xor, Nat.testBit_or, hbit]
    cases oflag.testBit i <;> cases decide (i = 16) <;> rfl
  · intro i
    simp only [Nat.testBit_and, Nat.testBit_xor, hbit]
    by_cases h : i = 16
    · simp [h]
    · simp [h]

/-- C25: `os::open` hands the kernel `open` the path, the mode and the flag
word `f` that is `oflag` with bit 16 (`O_DELETE`) cleared and every other bit as
given. A path of more than `MAX_PATH - 1 = 255` bytes gives -1 with
`ENAMETOOLONG` and no kernel call; a failed `open` gives -1 after that one call;
a failed `fstat` and an opened directory give -1 (for the directory with
`EISDIR`) after `open`, `fstat` and `close` of the descriptor; otherwise the
descriptor is returned after `open`, `fstat`, the `fcntl` calls for
`FD_CLOEXEC` and, exactly when `O_DELETE` is set in `oflag`, `unlink(path)`. So
`unlink` is called exactly when `O_DELETE` is set and a descriptor is returned,
and a return of -1 comes without `unlink` and with every opened descriptor
closed. -/
theorem os_open_spec (k : FileKernel) (errno0 : Errno) (path : String) (oflag mode : Nat) :
    MAX_PATH - 1 = 255 ∧
    ∃ f, (f &&& O_DELETE = 0 ∧ f ||| (oflag &&& O_DELETE) = oflag ∧
        ∀ i, f.testBit i = (oflag.testBit i && decide (i ≠ 16))) ∧
      (strlen_bytes path > MAX_PATH - 1 →
        os_open k errno0 path oflag mode = ⟨-1, Errno.ENAMETOOLONG, []⟩) ∧
      (strlen_bytes path ≤ MAX_PATH - 1 → k.open_ret = none →
        os_open k errno0 path oflag mode =
          ⟨-1, Errno.kernel k.open_errno, [FileCall.open path f mode]⟩) ∧
      (∀ fd, strlen_bytes path ≤ MAX_PATH - 1 → k.open_ret = some fd → k.fstat_ret = none →
        os_open k errno0 path oflag mode =
          ⟨-1, Errno.kernel k.fstat_errno,
            [FileCall.open path f mode, FileCall.fstat fd, FileCall.close fd]⟩) ∧
      (∀ fd st_mode, strlen_bytes path ≤ MAX_PATH - 1 → k.open_ret = some fd →
        k.fstat_ret = some st_mode → st_mode &&& S_IFMT = S_IFDIR →
        os_open k errno0 path oflag mode =
          ⟨-1, Errno.EISDIR,
            [FileCall.open path f mode, FileCall.fstat fd, FileCall.close fd]⟩) ∧
      (∀ fd st_mode, strlen_bytes path ≤ MAX_PATH - 1 → k.open_ret = some fd →
        k.fstat_ret = some st_mode → st_mode &&& S_IFMT ≠ S_IFDIR →
        (os_open k errno0 path oflag mode).ret = fd ∧
        (os_open k errno0 path oflag mode).ret ≠ -1 ∧
        (os_open k errno0 path oflag mode).calls =
          [FileCall.open path f mode, FileCall.fstat fd] ++
          (match k.getfd_ret with
           | some flags =>
             [FileCall.fcntl_getfd fd, FileCall.fcntl_setfd fd (flags ||| FD_CLOEXEC)]
           | none => [FileCall.fcntl_getfd fd]) ++
          (if oflag &&& O_DELETE ≠ 0 then [FileCall.unlink path] else [])) ∧
      (FileCall.unlink path ∈ (os_open k errno0 path oflag mode).calls ↔
        (oflag &&& O_DELETE ≠ 0 ∧ (os_open k errno0 path oflag mode).ret ≠ -1)) ∧
      ((os_open k errno0 path oflag mode).ret = -1 →
        (∀ p, FileCall.unlink p ∉ (os_open k errno0 path oflag mode).calls) ∧
        (∀ fd, k.open_ret = some fd → strlen_bytes path ≤ MAX_PATH - 1 →
          (os_open k errno0 path oflag mode).calls.getLast? = some (FileCall.close fd))) := by
  obtain ⟨c1, c2, c3⟩ := clear_o_delete oflag
  refine ⟨by decide, oflag ^^^ (oflag &&& O_DELETE), ⟨c1, c2, c3⟩, ?_⟩
  unfold os_open
  by_cases hp : strlen_bytes path > MAX_PATH - 1
  · have hp1 : ¬ strlen_bytes path ≤ MAX_PATH - 1 := by omega
    simp [hp, hp1]
  · have hp1 : strlen_bytes path ≤ MAX_PATH - 1 := by omega
    simp only [hp, if_false]
    cases ho : k.open_ret with
    | none => simp [hp1]
    | some fd =>
      cases hf : k.fstat_ret with
      | none => simp [hp1]
      | some st_mode =>
        by_cases hdir : st_mode &&& S_IFMT = S_IFDIR
        · simp [hdir, hp1]
        · cases hg : k.getfd_ret <;> by_cases hod : oflag &&& O_DELETE = 0 <;>
            simp [hdir, hod, hp1]

set_option maxRecDepth 100000 in
/-- A path of 130 two-byte characters has 260 bytes and is refused without a
kernel call; `"a.zip"` opened with `O_DELETE` set in the flags 0x10002 reaches
the kernel with flags 2 and is unlinked once the descriptor is there. -/
theorem os_open_examples :
    os_open ⟨some 3, 0, some 0o100644, 0, some 0, 0, none⟩ (Errno.kernel 0)
      (String.mk (List.replicate 130 'é')) 0 0 = ⟨-1, Errno.ENAMETOOLONG, []⟩ ∧
    os_open ⟨some 3, 0, some 0o100644, 0, some 0, 0, none⟩ (Errno.kernel 0) "a.zip" 0x10002 0 =
      ⟨3, Errno.kernel 0,
        [FileCall.open "a.zip" 2 0, FileCall.fstat 3, FileCall.fcntl_getfd 3,
          FileCall.fcntl_setfd 3 1, FileCall.unlink "a.zip"]⟩ ∧
    os_open ⟨some 3, 0, some 0o040755, 0, some 0, 0, none⟩ (Errno.kernel 0) "dir" 0x10002 0 =
      ⟨-1, Errno.EISDIR, [FileCall.open "dir" 2 0, FileCall.fstat 3, FileCall.close 3]⟩ := by
  refine ⟨?_, ?_, ?_⟩ <;> rfl

/-! ### Loading a library -/

theorem text_of_append (a rest : List Char) (h : ∀ c ∈ a, c ≠ NUL) :
    text_of (a ++ NUL :: rest) = a := by
  induction a with
  | nil => simp [text_of, List.takeWhile]
  | cons c cs ih =>
    have hc : c ≠ NUL := h c (List.mem_cons_self _ _)
    have ih1 := ih (fun d hd => h d (List.mem_cons_of_mem _ hd))
    have hb : (c != NUL) = true := by simpa using hc
    simp only [text_of] at ih1 ⊢
    rw [List.cons_append, List.takeWhile_cons, hb, if_pos rfl, ih1]

theorem c_str_no_nul (s : String) : ∀ c ∈ c_str s, c ≠ NUL := by
  intro c hc
  have := List.mem_takeWhile_imp hc
  simpa using this

theorem strlen_eq (s : List Char) (h : NUL ∈ s) : strlen s = Except.ok (text_of s).length := by
  simp [strlen, h, text_of]

theorem to_size_t_nat (b : Build) (n : Nat) (h : (n : Int) < 2 ^ 31) : to_size_t b (n : Int) = n := by
  unfold to_size_t
  have : (n : Int) % 2 ^ b.size_bits = n := by
    apply Int.emod_eq_of_lt (Int.ofNat_nonneg n)
    cases b
    · simp only [Build.size_bits]; omega
    · simp only [Build.size_bits]; omega
  rw [this, Int.toNat_ofNat]

theorem poke_mid (a mid c data : List Char) (h : data.length = mid.length) :
    poke (a ++ mid ++ c) a.length data = Except.ok (a ++ data ++ c) := by
  unfold poke
  rw [if_pos (by simp only [List.length_append]; omega)]
  congr 2
  · rw [List.append_assoc, List.take_left']
    rfl
  · rw [h, show a.length + mid.length = (a ++ mid).length by simp, List.drop_left']
    rfl

theorem copy_report_ok (b : Build) (s msg : List Char) (n : Nat) (hcap : n + 1 ≤ s.length)
    (hint : (n : Int) + 1 < 2 ^ 31) :
    copy_report b (some s) ((n : Int) + 1) msg =
      Except.ok (some (msg.take n ++ NUL :: (List.replicate (n - msg.length) NUL ++ s.drop (n + 1))),
        [BufOp.strncpy n, BufOp.store n]) := by
  have e1 : (n : Int) + 1 - 1 = n := by omega
  have e2 : to_size_t b (n : Int) = n := to_size_t_nat b n (by omega)
  have hl : (List.take n msg ++ List.replicate (n - msg.length) NUL).length = n := by
    simp only [List.length_append, List.length_take, List.length_replicate]; omega
  have hpos : ((n : Int) + 1 > 0) := by omega
  have hs : s = [] ++ s.take n ++ s.drop n := by simp
  have h1 : strncpy s msg n =
      Except.ok ([] ++ (List.take n msg ++ List.replicate (n - msg.length) NUL) ++ s.drop n) := by
    unfold strncpy
    nth_rewrite 1 [hs]
    exact poke_mid [] (s.take n) (s.drop n) _ (by rw [hl, List.length_take]; omega)
  have hn : n < s.length := by omega
  obtain ⟨c, hd⟩ : ∃ c, s.drop n = [c] ++ s.drop (n + 1) :=
    ⟨s[n], by rw [List.singleton_append, List.drop_eq_getElem_cons hn]⟩
  have h2 : poke ((List.take n msg ++ List.replicate (n - msg.length) NUL) ++
        [c] ++ s.drop (n + 1)) n [NUL] =
      Except.ok ((List.take n msg ++ List.replicate (n - msg.length) NUL) ++ [NUL] ++
        s.drop (n + 1)) := by
    have := poke_mid (List.take n msg ++ List.replicate (n - msg.length) NUL)
      [c] (s.drop (n + 1)) [NUL] rfl
    rw [hl] at this
    exact this
  have hrep : ∀ k (t : List Char), List.replicate k NUL ++ NUL :: t = NUL :: (List.replicate k NUL ++ t) := by
    intro k t
    induction k with
    | zero => rfl
    | succ k ih => rw [List.replicate_succ, List.cons_append, ih]; rfl
  simp only [copy_report, hpos, if_true, e1, e2, Int.toNat_ofNat, h1, bind, Except.bind, pure,
    Except.pure, List.nil_append]
  rw [hd, ← List.append_assoc, h2]
  simp [hrep]

theorem snprintf_ok (report rest text : List Char) (m : Nat)
    (hr : ∀ c ∈ report, c ≠ NUL) (ht : ∀ c ∈ text, c ≠ NUL)
    (hroom : m ≤ rest.length + 1) :
    ∃ out, snprintf (report ++ NUL :: rest) report.length m text = Except.ok out ∧
      out.length = (report ++ NUL :: rest).length ∧
      (∀ k, report.length + m ≤ k → out.drop k = (report ++ NUL :: rest).drop k) ∧
      NUL ∈ out ∧ text_of out = report ++ text.take (m - 1) := by
  by_cases hm : m = 0
  · subst hm
    refine ⟨_, by simp [snprintf], rfl, fun _ _ => rfl, by simp, ?_⟩
    rw [text_of_append report rest hr]
    simp
  · have htl : (text.take (m - 1)).length ≤ m - 1 := by
      rw [List.length_take]; omega
    generalize htk : text.take (m - 1) = t at htl
    have ht1 : ∀ c ∈ t, c ≠ NUL := by
      intro c hc
      rw [← htk] at hc
      exact ht c (List.mem_of_mem_take hc)
    have hmid : ((NUL :: rest).take (t.length + 1)).length = t.length + 1 := by
      rw [List.length_take, List.length_cons]; omega
    have hlen : (t ++ [NUL]).length = ((NUL :: rest).take (t.length + 1)).length := by
      rw [hmid, List.length_append]; rfl
    have hsplit : report ++ NUL :: rest = report ++ (NUL :: rest).take (t.length + 1) ++
        (NUL :: rest).drop (t.length + 1) := by
      rw [List.append_assoc, List.take_append_drop]
    have hp := poke_mid report ((NUL :: rest).take (t.length + 1))
      ((NUL :: rest).drop (t.length + 1)) (t ++ [NUL]) hlen
    rw [← hsplit] at hp
    have hout : (report ++ (t ++ [NUL]) ++ (NUL :: rest).drop (t.length + 1)).length =
        (report ++ NUL :: rest).length := by
      conv_rhs => rw [hsplit]
      simp only [List.length_append, hmid]
      rfl
    refine ⟨_, by simp only [snprintf, hm, if_false]; rw [htk]; exact hp, hout, ?_, by simp, ?_⟩
    · intro k hk
      have hk1 : (report ++ (t ++ [NUL])).length ≤ k := by
        rw [List.length_append, List.length_append]
        show report.length + (t.length + 1) ≤ k
        omega
      have hk2 : (report ++ (NUL :: rest).take (t.length + 1)).length ≤ k := by
        rw [List.length_append, hmid]
        omega
      have hk3 : (report ++ (t ++ [NUL])).length =
          (report ++ (NUL :: rest).take (t.length + 1)).length := by
        rw [List.length_append, hlen, ← List.length_append]
      conv_rhs => rw [hsplit]
      rw [List.drop_append_eq_append_drop, List.drop_of_length_le hk1, List.nil_append,
        List.drop_append_eq_append_drop, List.drop_of_length_le hk2,
        List.nil_append, hk3]
    · have : report ++ (t ++ [NUL]) ++ (NUL :: rest).drop (t.length + 1)
          = (report ++ t) ++ NUL :: (NUL :: rest).drop (t.length + 1) := by
        simp
      rw [this, text_of_append]
      intro c hc
      rcases List.mem_append.mp hc with h | h
      · exact hr c h
      · exact ht1 c h

theorem dll_load_failed (b : Build) (env : LoadEnv) (filename : String) (s : List Char) (n : Nat)
    (h0 : env.dlopen_ret = 0) (hcap : n + 1 ≤ s.length) (hint : (n : Int) + 1 < 2 ^ 31) :
    ∃ r out, dll_load b env filename (some s) ((n : Int) + 1) = Except.ok r ∧ r.result = 0 ∧
      r.ebuf = some out ∧ out.length = s.length ∧ out.drop (n + 1) = s.drop (n + 1) ∧
      NUL ∈ out ∧
      text_of out = (error_report env).take n ++
        (match diagnostic b env with
         | none => []
         | some text => (c_str text).take (n - ((error_report env).take n).length - 1)) := by
  have hmsg : ∀ c ∈ (error_report env).take n, c ≠ NUL :=
    fun c hc => c_str_no_nul _ c (List.mem_of_mem_take hc)
  have hlen : ((error_report env).take n).length ≤ n := by
    rw [List.length_take]; omega
  generalize hrest : List.replicate (n - (error_report env).length) NUL ++ s.drop (n + 1) = rest
  have hrl : rest.length = (n - (error_report env).length) + (s.length - (n + 1)) := by
    rw [← hrest, List.length_append, List.length_replicate, List.length_drop]
  have hcopy := copy_report_ok b s (error_report env) n hcap hint
  rw [hrest] at hcopy
  have hnul : NUL ∈ (error_report env).take n ++ NUL :: rest := by simp
  have hstr := strlen_eq _ hnul
  rw [text_of_append _ rest hmsg] at hstr
  have e3 : narrow_int ((n : Int) + 1 - (((error_report env).take n).length : Int)) =
      ((n - ((error_report env).take n).length : Nat) : Int) + 1 := by
    rw [narrow_int_id _ (by omega) (by omega)]
    omega
  have e4 : ¬ (((n - ((error_report env).take n).length : Nat) : Int) + 1 = 0) := by omega
  have e5 : to_size_t b (((n - ((error_report env).take n).length : Nat) : Int) + 1 - 1) =
      n - ((error_report env).take n).length := by
    rw [show (((n - ((error_report env).take n).length : Nat) : Int) + 1 - 1) =
      ((n - ((error_report env).take n).length : Nat) : Int) by omega]
    exact to_size_t_nat b _ (by omega)
  have hs2len : ((error_report env).take n ++ NUL :: rest).length = s.length := by
    rw [List.length_append, List.length_cons, hrl, List.length_take]
    omega
  have hs2drop : ((error_report env).take n ++ NUL :: rest).drop (n + 1) = s.drop (n + 1) := by
    rw [← hrest, ← List.cons_append, ← List.append_assoc]
    apply List.drop_left'
    rw [List.length_append, List.length_cons, List.length_replicate, List.length_take]
    omega
  simp only [dll_load, h0, ne_eq, not_true_eq_false, if_false, bind, Except.bind, pure,
    Except.pure]
  rw [show c_str (env.dlerror_ret.getD "dlerror returned no error description") =
    error_report env from rfl, hcopy]
  simp only [hstr, e3, e4, if_false, e5]
  by_cases hopen : env.open_ret < 0
  · simp only [hopen, if_true, diagnostic]
    exact ⟨_, _, rfl, rfl, rfl, hs2len, hs2drop, hnul, by
      rw [text_of_append _ rest hmsg, List.append_nil]⟩
  · simp only [hopen, if_false, diagnostic]
    cases hread : env.read_ret with
    | none =>
      exact ⟨_, _, rfl, rfl, rfl, hs2len, hs2drop, hnul, by
        rw [text_of_append _ rest hmsg, List.append_nil]⟩
    | some elf_head =>
      simp only []
      cases hd : diag_msg b elf_head with
      | none =>
        exact ⟨_, _, rfl, rfl, rfl, hs2len, hs2drop, hnul, by
          rw [text_of_append _ rest hmsg, List.append_nil]⟩
      | some text =>
        simp only []
        obtain ⟨out, ho, hol, hod, hon, hot⟩ := snprintf_ok ((error_report env).take n) rest
          (c_str text) (n - ((error_report env).take n).length) hmsg (c_str_no_nul text)
          (by rw [hrl, List.length_take]; omega)
        rw [ho]
        exact ⟨_, out, rfl, rfl, rfl, hol.trans hs2len,
          (hod (n + 1) (by omega)).trans hs2drop, hon, hot⟩

theorem dll_load_returns_null (b : Build) (env : LoadEnv) (filename : String)
    (ebuf : Option (List Char)) (ebuflen : Int) (h0 : env.dlopen_ret = 0) :
    ∀ r, dll_load b env filename ebuf ebuflen = Except.ok r → r.result = 0 := by
  intro r hr
  simp only [dll_load, h0, ne_eq, not_true_eq_false, if_false, bind, Except.bind, pure,
    Except.pure, throw, throwThe, MonadExceptOf.throw] at hr
  repeat' split at hr
  all_goals first
    | (cases hr; rfl)
    | (exact absurd hr (by simp))

/-- C22: `os::dll_load` returns the handle of `dlopen` when that is not NULL,
having called nothing but `dlopen` and made no access through `ebuf`, which is
left as it was; when `dlopen` fails every return of `os::dll_load` is NULL,
whatever `dlerror`, `open` and `read` answer and whatever the header holds, and
with an array of at least `ebuflen > 0` characters behind `ebuf` the function
does return. -/
theorem dll_load_follows_dlopen (b : Build) (env : LoadEnv) (filename : String)
    (ebuf : Option (List Char)) (ebuflen : Int) :
    (env.dlopen_ret ≠ 0 →
      dll_load b env filename ebuf ebuflen =
        Except.ok ⟨env.dlopen_ret, ebuf, [LoadCall.dlopen filename], []⟩) ∧
    (env.dlopen_ret = 0 →
      ∀ r, dll_load b env filename ebuf ebuflen = Except.ok r → r.result = 0) ∧
    (env.dlopen_ret = 0 → ∀ s, ebuf = some s → 0 < ebuflen → ebuflen ≤ s.length →
      ebuflen < 2 ^ 31 →
      ∃ r, dll_load b env filename ebuf ebuflen = Except.ok r ∧ r.result = 0) := by
  refine ⟨?_, dll_load_returns_null b env filename ebuf ebuflen, ?_⟩
  · intro h
    simp only [dll_load, h, ne_eq, not_false_eq_true, if_true]
    rfl
  · intro h0 s hs hpos hcap hint
    subst hs
    obtain ⟨n, rfl⟩ : ∃ n : Nat, ebuflen = (n : Int) + 1 := ⟨(ebuflen - 1).toNat, by omega⟩
    obtain ⟨r, out, hr, hres, _⟩ := dll_load_failed b env filename s n h0 (by omega) hint
    exact ⟨r, hr, hres⟩

/-- C27: with `dlopen` failed and an array of at least `ebuflen > 0`
characters behind `ebuf`, `os::dll_load` returns without a fault; the array
keeps its length and every character at index `ebuflen` and beyond; it holds a
NUL, and the string before the first NUL has at most `ebuflen - 1` characters;
and after the copy of the loader's message `ebuflen - strlen(ebuf)` is at
least 1. -/
theorem dll_load_ebuf_terminated (b : Build) (env : LoadEnv) (filename : String)
    (s : List Char) (ebuflen : Int) (h0 : env.dlopen_ret = 0) (hpos : 0 < ebuflen)
    (hcap : ebuflen ≤ s.length) (hint : ebuflen < 2 ^ 31) :
    (∃ r out len, dll_load b env filename (some s) ebuflen = Except.ok r ∧ r.result = 0 ∧
      r.ebuf = some out ∧ out.length = s.length ∧
      out.drop ebuflen.toNat = s.drop ebuflen.toNat ∧
      strlen out = Except.ok len ∧ (len : Int) ≤ ebuflen - 1) ∧
    (∃ copied ops len, copy_report b (some s) ebuflen (error_report env) =
        Except.ok (some copied, ops) ∧
      copied.length = s.length ∧ copied.drop ebuflen.toNat = s.drop ebuflen.toNat ∧
      strlen copied = Except.ok len ∧ 1 ≤ ebuflen - (len : Int)) := by
  obtain ⟨n, rfl⟩ : ∃ n : Nat, ebuflen = (n : Int) + 1 := ⟨(ebuflen - 1).toNat, by omega⟩
  have en : ((n : Int) + 1).toNat = n + 1 := by omega
  rw [en]
  have hl : ((error_report env).take n).length ≤ n := by
    rw [List.length_take]; omega
  constructor
  · obtain ⟨r, out, hr, hres, hbuf, hlen, hdrop, hnul, htext⟩ :=
      dll_load_failed b env filename s n h0 (by omega) hint
    refine ⟨r, out, (text_of out).length, hr, hres, hbuf, hlen, hdrop, strlen_eq out hnul, ?_⟩
    rw [htext, List.length_append]
    have : (match diagnostic b env with
        | none => ([] : List Char)
        | some text => (c_str text).take (n - ((error_report env).take n).length - 1)).length ≤
          n - ((error_report env).take n).length := by
      cases diagnostic b env with
      | none => simp
      | some text =>
        simp only [List.length_take]
        omega
    omega
  · have hmsg : ∀ c ∈ (error_report env).take n, c ≠ NUL :=
      fun c hc => c_str_no_nul _ c (List.mem_of_mem_take hc)
    refine ⟨_, _, ((error_report env).take n).length,
      copy_report_ok b s (error_report env) n (by omega) hint, ?_, ?_, ?_, by omega⟩
    · simp only [List.length_append, List.length_cons, List.length_replicate, List.length_take,
        List.length_drop]
      have : n + 1 ≤ s.length := by omega
      omega
    · rw [← List.cons_append, ← List.append_assoc]
      apply List.drop_left'
      rw [List.length_append, List.length_cons, List.length_replicate, List.length_take]
      omega
    · have h := strlen_eq ((error_report env).take n ++ NUL ::
        (List.replicate (n - (error_report env).length) NUL ++ s.drop (n + 1))) (by simp)
      rw [text_of_append _ _ hmsg] at h
      exact h

/-- C28: with `dlopen` failed and a NULL `ebuf`, `os::dll_load` skips the
guarded copy and then calls `strlen(ebuf)`, a read through the NULL pointer,
whatever `ebuflen` is; with a non-NULL `ebuf` and `ebuflen = 0` the same
`strlen(ebuf)` reads the caller's array. -/
theorem dll_load_reads_absent_ebuf (b : Build) (dlerror_ret : Option String) (open_ret : Int)
    (read_ret : Option Elf32_Ehdr) (filename : String) (ebuflen : Int) :
    dll_load b ⟨0, dlerror_ret, open_ret, read_ret⟩ filename none ebuflen =
      Except.error Fault.null_pointer ∧
    dll_load b ⟨0, dlerror_ret, open_ret, read_ret⟩ filename (some [NUL]) 0 =
      Except.ok ⟨0, some [NUL], [LoadCall.dlopen filename, LoadCall.dlerror],
        [BufOp.strlen, BufOp.strlen]⟩ := by
  constructor
  · rfl
  · rfl

/-- Witness for C27: an 8-character array takes a 13-character message. -/
theorem dll_load_ebuf_terminated_witness :
    ∃ r out len, dll_load Build.AMD64 ⟨0, some "not an object", -1, none⟩ "libfoo.so"
        (some (List.replicate 8 'x')) 8 = Except.ok r ∧ r.ebuf = some out ∧
      strlen out = Except.ok len ∧ (len : Int) ≤ 8 - 1 := by
  obtain ⟨⟨r, out, len, hr, _, hbuf, _, _, hs, hl⟩, _⟩ := dll_load_ebuf_terminated Build.AMD64
    ⟨0, some "not an object", -1, none⟩ "libfoo.so" (List.replicate 8 'x') 8 rfl (by decide)
    (by decide) (by decide)
  exact ⟨r, out, len, hr, hbuf, hs, hl⟩

/-! ### Byte swaps -/

theorem to_bytes_length (n : Nat) : ∀ x, (to_bytes n x).length = n := by
  induction n with
  | zero => intro x; rfl
  | succ n ih => intro x; simp [to_bytes, ih]

theorem to_bytes_lt (n : Nat) : ∀ x, ∀ b ∈ to_bytes n x, b < 256 := by
  induction n with
  | zero => intro x b hb; simp [to_bytes] at hb
  | succ n ih =>
    intro x b hb
    simp only [to_bytes, List.mem_cons] at hb
    rcases hb with rfl | hb
    · exact Nat.mod_lt _ (by decide)
    · exact ih _ b hb

theorem to_bytes_of_bytes : ∀ l : List Nat, (∀ b ∈ l, b < 256) →
    to_bytes l.length (of_bytes l) = l := by
  intro l
  induction l with
  | nil => intro _; rfl
  | cons b bs ih =>
    intro h
    have hb : b < 256 := h b (List.mem_cons_self _ _)
    have h1 : (b + 256 * of_bytes bs) % 256 = b := by omega
    have h2 : (b + 256 * of_bytes bs) / 256 = of_bytes bs := by omega
    simp only [List.length_cons, to_bytes, of_bytes, h1, h2]
    rw [ih (fun c hc => h c (List.mem_cons_of_mem _ hc))]

theorem of_bytes_to_bytes (n : Nat) : ∀ x, of_bytes (to_bytes n x) = x % 256 ^ n := by
  induction n with
  | zero => intro x; simp [to_bytes, of_bytes, Nat.mod_one]
  | succ n ih =>
    intro x
    simp only [to_bytes, of_bytes, ih]
    rw [pow_succ', Nat.mod_mul]

theorem to_bytes_reverse_bytes (n x : Nat) :
    to_bytes n (reverse_bytes n x) = (to_bytes n x).reverse := by
  have h := to_bytes_of_bytes (to_bytes n x).reverse
    (fun b hb => to_bytes_lt n x b (List.mem_reverse.mp hb))
  rw [List.length_reverse, to_bytes_length] at h
  exact h

theorem reverse_bytes_twice (n x : Nat) (h : x < 256 ^ n) :
    reverse_bytes n (reverse_bytes n x) = x := by
  unfold reverse_bytes
  rw [show of_bytes (to_bytes n x).reverse = reverse_bytes n x from rfl,
    to_bytes_reverse_bytes, List.reverse_reverse, of_bytes_to_bytes, Nat.mod_eq_of_lt h]

theorem bswap_eq (x : Nat) : bswap x = reverse_bytes 4 x := by
  simp only [bswap, bits, reverse_bytes, to_bytes, of_bytes, List.reverse_cons, List.reverse_nil,
    List.nil_append, List.cons_append]
  have e1 : x / 256 / 256 % 256 = x / 2 ^ 16 % 2 ^ (23 + 1 - 16) := by norm_num; omega
  have e2 : x / 256 / 256 / 256 % 256 = x / 2 ^ 24 % 2 ^ (31 + 1 - 24) := by norm_num; omega
  have e3 : x / 256 % 256 = x / 2 ^ 8 % 2 ^ (15 + 1 - 8) := by norm_num
  have e4 : x % 256 = x / 2 ^ 0 % 2 ^ (7 + 1 - 0) := by norm_num
  rw [e1, e2, e3, e4]
  ring

theorem rorw8_eq (x : Nat) : rorw 8 x = reverse_bytes 2 x := by
  simp only [rorw, reverse_bytes, to_bytes, of_bytes, List.reverse_cons, List.reverse_nil,
    List.nil_append, List.cons_append]
  have h1 : (x % 2 ^ 16) >>> 8 < 2 ^ 8 := by
    rw [Nat.shiftRight_eq_div_pow]; omega
  rw [Nat.lor_comm, Nat.shiftLeft_eq, Nat.mul_comm, ← Nat.mul_add_lt_is_or h1,
    Nat.shiftRight_eq_div_pow]
  have a1 : x / 256 % 256 = x % 2 ^ 16 / 2 ^ 8 := by omega
  have a2 : x % 256 = x % 2 ^ 16 % 256 := by omega
  rw [a1, a2]
  generalize x % 2 ^ 16 = h at h1 ⊢
  have hq : h / 2 ^ 8 < 256 := by rw [Nat.shiftRight_eq_div_pow] at h1; omega
  have hr : h % 256 < 256 := Nat.mod_lt _ (by decide)
  have hh : h = 256 * (h / 2 ^ 8) + h % 256 := by omega
  generalize h / 2 ^ 8 = q at hq hh ⊢
  generalize h % 256 = r at hr hh ⊢
  subst hh
  omega


theorem bswapq_eq (x : Nat) : bswapq x = reverse_bytes 8 x := by
  simp only [bswapq, bits, reverse_bytes, to_bytes, of_bytes, List.reverse_cons, List.reverse_nil,
    List.nil_append, List.cons_append, Nat.div_div_eq_div_mul]
  norm_num
  ring

theorem bits_high (hi lo x : Nat) (h : hi < 32) (hl : lo ≤ hi) :
    bits hi lo (x / 2 ^ 32 % 2 ^ 32) = bits (hi + 32) (lo + 32) x := by
  unfold bits
  rw [show hi + 32 + 1 - (lo + 32) = hi + 1 - lo by omega, Nat.pow_add,
    Nat.mul_comm (2 ^ lo), ← Nat.div_div_eq_div_mul]
  generalize x / 2 ^ 32 = y
  rw [show (32 : Nat) = lo + (hi + 1 - lo) + (31 - hi) by omega, Nat.pow_add, Nat.pow_add,
    Nat.mul_assoc, Nat.mod_mul_right_div_self, Nat.mod_mul_right_mod]

theorem bits_low (hi lo x : Nat) (h : hi < 32) (hl : lo ≤ hi) :
    bits hi lo (x % 2 ^ 32) = bits hi lo x := by
  unfold bits
  rw [show (32 : Nat) = lo + (hi + 1 - lo) + (31 - hi) by omega, Nat.pow_add, Nat.pow_add,
    Nat.mul_assoc, Nat.mod_mul_right_div_self, Nat.mod_mul_right_mod]

theorem swap_u8_ia32_eq (x : Nat) : swap_u8_ia32 x = swap_u8_amd64 x := by
  simp only [swap_u8_ia32, swap_u8_amd64, bswap, bswapq]
  rw [bits_high 31 24 x (by decide) (by decide), bits_high 23 16 x (by decide) (by decide),
    bits_high 15 8 x (by decide) (by decide), bits_high 7 0 x (by decide) (by decide),
    bits_low 31 24 x (by decide) (by decide), bits_low 23 16 x (by decide) (by decide),
    bits_low 15 8 x (by decide) (by decide), bits_low 7 0 x (by decide) (by decide)]
  ring

theorem of_bytes_lt : ∀ l : List Nat, (∀ b ∈ l, b < 256) → of_bytes l < 256 ^ l.length := by
  intro l
  induction l with
  | nil => intro _; simp [of_bytes]
  | cons b bs ih =>
    intro h
    have hb : b < 256 := h b (List.mem_cons_self _ _)
    have := ih (fun c hc => h c (List.mem_cons_of_mem _ hc))
    simp only [of_bytes, List.length_cons, pow_succ]
    omega

theorem reverse_bytes_lt (n x : Nat) : reverse_bytes n x < 256 ^ n := by
  have := of_bytes_lt (to_bytes n x).reverse
    (fun b hb => to_bytes_lt n x b (List.mem_reverse.mp hb))
  rw [List.length_reverse, to_bytes_length] at this
  exact this

/-- C24: for a 16-bit `x2`, a 32-bit `x4` and a 64-bit `x8`, each of
`Bytes::swap_u2`, `Bytes::swap_u4` and `Bytes::swap_u8` (both builds) returns a
value of the same width whose bytes are those of the argument in reverse order;
the 32-bit build's `swap_u8` returns what the AMD64 one returns; and each swap
applied twice returns the argument. -/
theorem swap_reverses_bytes (x2 x4 x8 : Nat) (h2 : x2 < 2 ^ 16) (h4 : x4 < 2 ^ 32)
    (h8 : x8 < 2 ^ 64) :
    (swap_u2 x2 < 2 ^ 16 ∧ to_bytes 2 (swap_u2 x2) = (to_bytes 2 x2).reverse) ∧
    (swap_u4 x4 < 2 ^ 32 ∧ to_bytes 4 (swap_u4 x4) = (to_bytes 4 x4).reverse) ∧
    (swap_u8_amd64 x8 < 2 ^ 64 ∧
      to_bytes 8 (swap_u8_amd64 x8) = (to_bytes 8 x8).reverse) ∧
    (swap_u8_ia32 x8 < 2 ^ 64 ∧ to_bytes 8 (swap_u8_ia32 x8) = (to_bytes 8 x8).reverse) ∧
    swap_u8_ia32 x8 = swap_u8_amd64 x8 ∧
    swap_u2 (swap_u2 x2) = x2 ∧ swap_u4 (swap_u4 x4) = x4 ∧
    swap_u8_amd64 (swap_u8_amd64 x8) = x8 ∧ swap_u8_ia32 (swap_u8_ia32 x8) = x8 := by
  have e2 : swap_u2 = reverse_bytes 2 := funext rorw8_eq
  have e4 : swap_u4 = reverse_bytes 4 := funext bswap_eq
  have e8 : swap_u8_amd64 = reverse_bytes 8 := funext bswapq_eq
  have e8i : swap_u8_ia32 = reverse_bytes 8 := funext (fun x => (swap_u8_ia32_eq x).trans (bswapq_eq x))
  rw [e2, e4, e8, e8i]
  exact ⟨⟨reverse_bytes_lt 2 x2, to_bytes_reverse_bytes 2 x2⟩,
    ⟨reverse_bytes_lt 4 x4, to_bytes_reverse_bytes 4 x4⟩,
    ⟨reverse_bytes_lt 8 x8, to_bytes_reverse_bytes 8 x8⟩,
    ⟨reverse_bytes_lt 8 x8, to_bytes_reverse_bytes 8 x8⟩, rfl,
    reverse_bytes_twice 2 x2 h2, reverse_bytes_twice 4 x4 h4,
    reverse_bytes_twice 8 x8 h8, reverse_bytes_twice 8 x8 h8⟩

/-- Witness for C24: the swaps of 0x1234, 0x12345678 and 0x0123456789abcdef. -/
theorem swap_reverses_bytes_witness :
    swap_u2 0x1234 = 0x3412 ∧ swap_u4 0x12345678 = 0x78563412 ∧
    swap_u8_amd64 0x0123456789abcdef = 0xefcdab8967452301 ∧
    swap_u8_ia32 0x0123456789abcdef = 0xefcdab8967452301 ∧
    swap_u8_ia32 (swap_u8_ia32 0x0123456789abcdef) = 0x0123456789abcdef :=
  ⟨by decide, by decide, by decide, by decide,
   (swap_reverses_bytes 0x1234 0x12345678 0x0123456789abcdef (by decide) (by decide)
      (by decide)).2.2.2.2.2.2.2.2⟩

/-! ### Stack jitter and file times -/

/-- C26: the size `thread_native_entry` passes to `alloca` is a multiple of
128 that is at most 896 (and at least 0), for every process id and every value
of the counter. -/
theorem thread_native_entry_alloca_bound (pid counter : Int) :
    128 ∣ thread_native_entry_alloca pid counter ∧
    0 ≤ thread_native_entry_alloca pid counter ∧
    thread_native_entry_alloca pid counter ≤ 896 := by
  unfold thread_native_entry_alloca
  have h : (int_bits pid ^^^ int_bits counter) &&& 7 ≤ 7 := Nat.and_le_right
  exact ⟨Dvd.intro_left _ rfl, Nat.zero_le _, by omega⟩

/-- When the seconds differ by less than 2^31 either way and the nanoseconds
are in range, the sign of the result of `os::compare_file_modified_times`
orders the two times. -/
theorem compare_file_modified_times_in_range (stat : String → timespec) (file1 file2 : String)
    (h1 : -2 ^ 31 ≤ (stat file1).tv_sec - (stat file2).tv_sec)
    (h2 : (stat file1).tv_sec - (stat file2).tv_sec < 2 ^ 31)
    (n1 : 0 ≤ (stat file1).tv_nsec ∧ (stat file1).tv_nsec ≤ 999999999)
    (n2 : 0 ≤ (stat file2).tv_nsec ∧ (stat file2).tv_nsec ≤ 999999999) :
    (compare_file_modified_times stat file1 file2 < 0 ↔ earlier (stat file1) (stat file2)) ∧
    (compare_file_modified_times stat file1 file2 = 0 ↔ stat file1 = stat file2) ∧
    (0 < compare_file_modified_times stat file1 file2 ↔ earlier (stat file2) (stat file1)) := by
  have e1 := narrow_int_id _ h1 h2
  have e2 := narrow_int_id ((stat file1).tv_nsec - (stat file2).tv_nsec) (by omega) (by omega)
  have hext : stat file1 = stat file2 ↔
      (stat file1).tv_sec = (stat file2).tv_sec ∧ (stat file1).tv_nsec = (stat file2).tv_nsec := by
    constructor
    · intro h; rw [h]; exact ⟨rfl, rfl⟩
    · intro h
      cases hs1 : stat file1
      cases hs2 : stat file2
      rw [hs1, hs2] at h
      simp only at h
      rw [h.1, h.2]
  simp only [compare_file_modified_times, get_mtime, earlier, hext]
  rw [e1, e2]
  clear e1 e2 hext
  obtain ⟨n1a, n1b⟩ := n1
  obtain ⟨n2a, n2b⟩ := n2
  generalize (stat file1).tv_sec = s1 at *
  generalize (stat file2).tv_sec = s2 at *
  generalize (stat file1).tv_nsec = ns1 at *
  generalize (stat file2).tv_nsec = ns2 at *
  by_cases hd : s1 - s2 = 0
  · rw [if_pos hd]
    refine ⟨?_, ?_, ?_⟩ <;> constructor <;> intro h <;> omega
  · rw [if_neg hd]
    refine ⟨?_, ?_, ?_⟩ <;> constructor <;> intro h <;> omega

/-- C29: `os::compare_file_modified_times` misorders files whose seconds
differ by 2^31 or more. A file modified 2^31 seconds after another compares
negative, as if earlier; and for a difference of 2^32 seconds the narrowed
difference is 0 and the nanoseconds decide, so the later file compares negative
again, or equal when the nanoseconds agree. -/
theorem compare_file_modified_times_wraps :
    (earlier ⟨0, 0⟩ ⟨2147483648, 0⟩ ∧
      compare_file_modified_times
        (fun f => if f = "new" then ⟨2147483648, 0⟩ else ⟨0, 0⟩) "new" "old" = -2147483648) ∧
    (earlier ⟨0, 7⟩ ⟨4294967296, 5⟩ ∧
      compare_file_modified_times
        (fun f => if f = "new" then ⟨4294967296, 5⟩ else ⟨0, 7⟩) "new" "old" = -2) ∧
    compare_file_modified_times
      (fun f => if f = "new" then ⟨4294967296, 0⟩ else ⟨0, 0⟩) "new" "old" = 0 := by
  refine ⟨⟨by decide, ?_⟩, ⟨by decide, ?_⟩, ?_⟩ <;> decide

/-! ### Key codes -/

theorem lookup_none_or_mem {β : Type} (k : Int) :
    ∀ l : List (Int × β), l.lookup k = none ∨ k ∈ l.map Prod.fst := by
  intro l
  induction l with
  | nil => exact Or.inl rfl
  | cons p ps ih =>
    by_cases h : k = p.1
    · exact Or.inr (by simp [h])
    · rcases ih with ih | ih
      · left
        obtain ⟨a, b⟩ := p
        have : (k == a) = false := by simpa using h
        simp [List.lookup, this, ih]
      · exact Or.inr (by simp [ih])

set_option maxRecDepth 100000 in
theorem round_trip_cases : ∀ keycode ∈ java_cases.map Prod.fst,
    ConvertKeyCodeToNative (ConvertKeyCodeToJava keycode).1 ≠ 0 →
      ((ConvertKeyCodeToJava (ConvertKeyCodeToNative (ConvertKeyCodeToJava keycode).1)).1 =
          (ConvertKeyCodeToJava keycode).1 ↔
        (ConvertKeyCodeToJava keycode).1 ∉ round_trip_failures) := by
  decide

/-- C30: the two key-code tables do not agree. `ConvertKeyCodeToJava` gives
`VK_PAGE_DOWN` for the Haiku code 0x36, `ConvertKeyCodeToNative` sends
`VK_PAGE_DOWN` to 0x10, and `ConvertKeyCodeToJava` reads 0x10 as `VK_PAUSE`.
For every Haiku key code whose Java code has a non-zero native code, converting
that native code gives the Java code back exactly when the Java code is not one
of `VK_PAGE_UP`, `VK_PAGE_DOWN`, `VK_END`, `VK_HOME`, `VK_INSERT` and
`VK_DELETE`. -/
theorem key_tables_round_trip_fails :
    (ConvertKeyCodeToJava 0x36).1 = java_awt_event_KeyEvent_VK_PAGE_DOWN ∧
    ConvertKeyCodeToNative java_awt_event_KeyEvent_VK_PAGE_DOWN = 0x10 ∧
    (ConvertKeyCodeToJava (ConvertKeyCodeToNative java_awt_event_KeyEvent_VK_PAGE_DOWN)).1 =
      java_awt_event_KeyEvent_VK_PAUSE ∧
    java_awt_event_KeyEvent_VK_PAUSE ≠ java_awt_event_KeyEvent_VK_PAGE_DOWN ∧
    (∀ keycode : Int, ConvertKeyCodeToNative (ConvertKeyCodeToJava keycode).1 ≠ 0 →
      ((ConvertKeyCodeToJava (ConvertKeyCodeToNative (ConvertKeyCodeToJava keycode).1)).1 =
          (ConvertKeyCodeToJava keycode).1 ↔
        (ConvertKeyCodeToJava keycode).1 ∉ round_trip_failures)) := by
  refine ⟨by decide, by decide, by decide, by decide, ?_⟩
  intro keycode
  rcases lookup_none_or_mem keycode java_cases with h | h
  · intro hn
    exfalso
    apply hn
    simp [ConvertKeyCodeToJava, h, ConvertKeyCodeToNative, java_awt_event_KeyEvent_VK_UNDEFINED]
  · exact round_trip_cases keycode h

end Haiku
